import Mathlib

/-!
# ESP32-C6 OpenThread border router bring-up (`main/main.c`, `main/config.h`)

A shallow embedding of the start-up glue of the border router firmware: the
Wi-Fi event handler and its retry budget, `init_wifi`, the hex decoder for the
configured dataset TLVs, the three credential sources of `ot_task`, the
state-change callback, and the start-up sequence of `app_main`. The two
functions of the older copy `src/main.c` that differ from `main/main.c` are
modelled in the namespace `Legacy`.

Calls into ESP-IDF, FreeRTOS and OpenThread are recorded as a trace of `Call`
values; the values those calls return are inputs of the model (`Env`).
-/

namespace Otbr

/-! ## Machine integers -/

/-- The value a 32-bit two's complement `int` holds after being assigned the
mathematical integer `x`. -/
def wrapInt32 (x : Int) : Int := (x + 2147483648) % 4294967296 - 2147483648

/-- Largest value of `int`. -/
def INT_MAX : Int := 2147483647

/-- One more than the largest value of `size_t` (32 bits on the ESP32-C6). -/
def SIZE_LIMIT : Nat := 4294967296

/-! ## `config.h` -/

/-- The values `config.h` defines. C strings are kept as the list of their
character codes before the terminating NUL where the code inspects them, and as
`String` where they are only handed on. `THREAD_AUTO_START` and
`OT_CLI_UART_ENABLE` are used in `#if`, which tests for a nonzero value. -/
structure Config where
  DEVICE_NAME : String
  WIFI_SSID : String
  WIFI_PASSWORD : String
  WIFI_MAX_RETRY : Int
  THREAD_DATASET_TLVS : List Nat
  THREAD_AUTO_START : Int
  THREAD_CHANNEL : Nat
  THREAD_NETWORK_NAME : List Nat
  OT_CLI_UART_ENABLE : Int

/-- Character codes of a string literal. -/
def cstr (s : String) : List Nat := s.toList.map Char.toNat

/-- The configuration as shipped in `config.h`. -/
def Config.shipped : Config where
  DEVICE_NAME := "otbr-01"
  WIFI_SSID := "YOUR_WIFI_SSID"
  WIFI_PASSWORD := "YOUR_WIFI_PASSWORD"
  WIFI_MAX_RETRY := 0
  THREAD_DATASET_TLVS := cstr ""
  THREAD_AUTO_START := 0
  THREAD_CHANNEL := 15
  THREAD_NETWORK_NAME := cstr "OpenThread-HA"
  OT_CLI_UART_ENABLE := 1

/-- The line `#define MDNS_INSTANCE_NAME DEVICE_NAME`. -/
def MDNS_INSTANCE_NAME (cfg : Config) : String := cfg.DEVICE_NAME

/-! ## External constants -/

/-- The constant `ESP_OK` of `esp_err.h`. -/
def ESP_OK : Int := 0
/-- The constant `ESP_ERR_NVS_NO_FREE_PAGES` of `nvs.h` (`ESP_ERR_NVS_BASE + 0x0d`). -/
def ESP_ERR_NVS_NO_FREE_PAGES : Int := 0x110d
/-- The constant `ESP_ERR_NVS_NEW_VERSION_FOUND` of `nvs.h` (`ESP_ERR_NVS_BASE + 0x10`). -/
def ESP_ERR_NVS_NEW_VERSION_FOUND : Int := 0x1110
/-- The constant `OT_ERROR_NONE` of `openthread/error.h`. -/
def OT_ERROR_NONE : Int := 0

/-- The bit `BIT0`. -/
def WIFI_CONNECTED_BIT : Nat := 1
/-- The bit `BIT1`. -/
def WIFI_FAIL_BIT : Nat := 2

/-- Event bases the handler distinguishes; `OTHER` stands for every base that
is neither `WIFI_EVENT` nor `IP_EVENT`. -/
inductive EventBase where
  | WIFI_EVENT
  | IP_EVENT
  | OTHER
  deriving DecidableEq, Repr

/-- The constant `WIFI_EVENT_STA_START` of `esp_wifi_types.h`. -/
def WIFI_EVENT_STA_START : Int := 2
/-- The constant `WIFI_EVENT_STA_DISCONNECTED` of `esp_wifi_types.h`. -/
def WIFI_EVENT_STA_DISCONNECTED : Int := 5
/-- The constant `IP_EVENT_STA_GOT_IP` of `esp_netif_types.h`. -/
def IP_EVENT_STA_GOT_IP : Int := 0
/-- The constant `ESP_EVENT_ANY_ID` of `esp_event_base.h`. -/
def ESP_EVENT_ANY_ID : Int := -1

/-- An event as the event loop hands it to a handler. -/
structure WifiEvent where
  event_base : EventBase
  event_id : Int
  deriving DecidableEq, Repr

/-- The station-start event. -/
def evStaStart : WifiEvent := ⟨.WIFI_EVENT, WIFI_EVENT_STA_START⟩
/-- The disconnect event. -/
def evDisconnected : WifiEvent := ⟨.WIFI_EVENT, WIFI_EVENT_STA_DISCONNECTED⟩
/-- The got-IP event. -/
def evGotIp : WifiEvent := ⟨.IP_EVENT, IP_EVENT_STA_GOT_IP⟩

/-! ## The trace of external calls -/

/-- Severity of a log line (`ESP_LOGE`, `ESP_LOGW`, `ESP_LOGI`). -/
inductive LogLevel where
  | E
  | W
  | I
  deriving DecidableEq, Repr

/-- An argument of a log line. -/
inductive LogArg where
  | int (v : Int)
  | str (v : String)
  | chars (v : List Nat)
  deriving DecidableEq, Repr

/-- The fields of `otOperationalDataset` that `main.c` touches; `rest` stands
for all the other fields together. -/
structure otOperationalDataset where
  mChannel : Nat
  mNetworkName : List Nat
  mIsChannelPresent : Bool
  mIsNetworkNamePresent : Bool
  rest : Nat
  deriving DecidableEq, Repr

/-- The `otOperationalDatasetTlvs` structure: the TLV buffer and the length. -/
structure otOperationalDatasetTlvs where
  mTlvs : List Nat
  mLength : Nat
  deriving DecidableEq, Repr

/-- A call that leaves `main.c`, with the arguments that matter. -/
inductive Call where
  | log (lvl : LogLevel) (fmt : String) (args : List LogArg)
  | abort
  | esp_wifi_connect
  | xEventGroupSetBits (bits : Nat)
  | xEventGroupCreate
  | esp_netif_create_default_wifi_sta
  | esp_wifi_init
  | esp_event_handler_instance_register (base : EventBase) (id : Int)
  | esp_wifi_set_mode
  | esp_wifi_set_config (ssid password : String)
  | esp_wifi_start
  | xEventGroupWaitBits (mask : Nat)
  | vTaskDelay (ms : Nat)
  | esp_restart
  | mdns_init
  | mdns_hostname_set (name : String)
  | mdns_instance_name_set (name : String)
  | mdns_service_add (inst type proto : String) (port : Nat)
      (txt : List (String × String)) (num : Nat)
  | nvs_flash_init
  | nvs_flash_erase
  | esp_vfs_eventfd_register (max_fds : Nat)
  | esp_netif_init
  | esp_event_loop_create_default
  | xTaskCreate (name : String) (stack : Nat) (arg : Nat) (prio : Nat)
  | esp_openthread_init
  | esp_openthread_get_instance
  | otSetStateChangedCallback
  | esp_openthread_cli_init
  | esp_openthread_border_router_init (backbone : Nat)
  | esp_openthread_lock_acquire
  | esp_openthread_lock_release
  | otDatasetGetActive
  | otDatasetSetActiveTlvs (tlvs : otOperationalDatasetTlvs)
  | otDatasetCreateNewNetwork
  | otDatasetSetActive (dataset : otOperationalDataset)
  | otIp6SetEnabled (enabled : Bool)
  | otThreadSetEnabled (enabled : Bool)
  | otThreadGetDeviceRole
  | esp_openthread_cli_create_task
  | esp_openthread_launch_mainloop
  | esp_openthread_netif_glue_deinit
  | esp_vfs_eventfd_unregister
  | vTaskDelete
  deriving DecidableEq, Repr

/-! ## Globals and the Wi-Fi event handler -/

/-- The two globals of `main.c`: the bits of the event group behind
`s_wifi_event_group`, and `s_retry_count`. -/
structure Globals where
  s_wifi_event_group : Nat
  s_retry_count : Int
  deriving DecidableEq, Repr

/-- The function `wifi_event_handler`: the new globals and the calls made. -/
def wifi_event_handler (cfg : Config) (event_base : EventBase) (event_id : Int)
    (g : Globals) : Globals × List Call :=
  if event_base = .WIFI_EVENT ∧ event_id = WIFI_EVENT_STA_START then
    (g, [.esp_wifi_connect])
  else if event_base = .WIFI_EVENT ∧ event_id = WIFI_EVENT_STA_DISCONNECTED then
    if cfg.WIFI_MAX_RETRY = 0 ∨ g.s_retry_count < cfg.WIFI_MAX_RETRY then
      let c := wrapInt32 (g.s_retry_count + 1)
      ({ g with s_retry_count := c },
        [.esp_wifi_connect,
         .log .W "Wi-Fi disconnected, retrying... (%d)" [.int c]])
    else
      ({ g with s_wifi_event_group := g.s_wifi_event_group ||| WIFI_FAIL_BIT },
        [.xEventGroupSetBits WIFI_FAIL_BIT,
         .log .E "Wi-Fi connection failed after %d retries" [.int g.s_retry_count]])
  else if event_base = .IP_EVENT ∧ event_id = IP_EVENT_STA_GOT_IP then
    ({ s_wifi_event_group := g.s_wifi_event_group ||| WIFI_CONNECTED_BIT,
       s_retry_count := 0 },
      [.log .I "Got IP: %d.%d.%d.%d" [],
       .xEventGroupSetBits WIFI_CONNECTED_BIT])
  else
    (g, [])

/-- The event loop delivering a sequence of events to the handler, one after
the other. -/
def deliver (cfg : Config) : Globals → List WifiEvent → Globals × List Call
  | g, [] => (g, [])
  | g, e :: es =>
    let r := wifi_event_handler cfg e.event_base e.event_id g
    let r2 := deliver cfg r.1 es
    (r2.1, r.2 ++ r2.2)

/-! ## Sequential code with calls that may not return -/

/-- What the event loop and the handler share with the main task: the globals,
and the events the event loop has still to deliver. -/
structure World where
  globals : Globals
  pending : List WifiEvent
  deriving DecidableEq, Repr

/-- The state at reset: the static initialiser of `s_retry_count`, no event
group bits, and the events that will arrive once Wi-Fi is started. -/
def World.boot (events : List WifiEvent) : World := ⟨⟨0, 0⟩, events⟩

/-- How a piece of C code ends: it returns a value, it stops in `abort()`, it
stops in `esp_restart()`, or it stays for ever inside a blocking call. -/
inductive Outcome (α : Type) where
  | returned (a : α)
  | aborted
  | restarted
  | blocked
  deriving DecidableEq, Repr

/-- The calls made, how the code ended, and the shared state at that point. -/
structure Result (α : Type) where
  trace : List Call
  outcome : Outcome α
  world : World

/-- A piece of C code running from a given shared state. -/
def Run (α : Type) : Type := World → Result α

/-- Code that returns `a` at once. -/
def Run.ret {α : Type} (a : α) : Run α := fun w => ⟨[], .returned a, w⟩

/-- The result `r` with the calls `t` made before it. -/
def Result.prepend {α : Type} (t : List Call) (r : Result α) : Result α :=
  ⟨t ++ r.trace, r.outcome, r.world⟩

/-- Sequencing: what follows runs only if the first part returned. -/
def Run.seq {α β : Type} (m : Run α) (f : α → Run β) : Run β := fun w =>
  match m w with
  | ⟨t, .returned a, w2⟩ => (f a w2).prepend t
  | ⟨t, .aborted, w2⟩ => ⟨t, .aborted, w2⟩
  | ⟨t, .restarted, w2⟩ => ⟨t, .restarted, w2⟩
  | ⟨t, .blocked, w2⟩ => ⟨t, .blocked, w2⟩

instance : Monad Run where
  pure := Run.ret
  bind := Run.seq

/-- An external call `c` that returns `v`. -/
def ext {α : Type} (c : Call) (v : α) : Run α := fun w => ⟨[c], .returned v, w⟩

/-- An external call whose result is not used. -/
def call (c : Call) : Run Unit := ext c ()

/-- A log line. -/
def logLine (lvl : LogLevel) (fmt : String) (args : List LogArg) : Run Unit :=
  call (.log lvl fmt args)

/-- The call `abort()`, which does not return. -/
def abort {α : Type} : Run α := fun w => ⟨[.abort], .aborted, w⟩

/-- The call `esp_restart()`, which does not return. -/
def esp_restart {α : Type} : Run α := fun w => ⟨[.esp_restart], .restarted, w⟩

/-- The macro `ESP_ERROR_CHECK(x)`: abort unless `x` is `ESP_OK`. -/
def ESP_ERROR_CHECK (x : Int) : Run Unit :=
  if x ≠ ESP_OK then abort else pure ()

/-- The values the external calls return; they are inputs of the model. Where
the result depends on an argument built by `main.c`, the field is a function
of that argument. -/
structure Env where
  nvs_flash_init_1 : Int
  nvs_flash_erase : Int
  nvs_flash_init_2 : Int
  esp_vfs_eventfd_register : Int
  esp_netif_init : Int
  esp_event_loop_create_default : Int
  wifi_netif : Nat
  esp_wifi_init : Int
  register_any_wifi_event : Int
  register_got_ip_event : Int
  esp_wifi_set_mode : Int
  esp_wifi_set_config : Int
  esp_wifi_start : Int
  mdns_init : Int
  mdns_hostname_set : Int
  mdns_instance_name_set : Int
  mdns_service_add : Int
  esp_openthread_init : Int
  esp_openthread_border_router_init : Int
  otDatasetGetActive : Int
  tlvs_uninit : List Nat
  otDatasetSetActiveTlvs : otOperationalDatasetTlvs → Int
  otDatasetCreateNewNetwork : Int × otOperationalDataset
  otDatasetSetActive : otOperationalDataset → Int
  mainloop_returns : Bool

/-! ## Wi-Fi initialisation -/

/-- The call `xEventGroupWaitBits(group, mask, pdFALSE, pdFALSE, portMAX_DELAY)`
made by the main task: it returns the bits of the group as soon as one bit of
`mask` is set, clears nothing, and never times out. While the main task is
blocked the event loop delivers the pending events to the handler; a
`xEventGroupSetBits` of the handler wakes the main task with the bits as they
are at that moment. Result: the handler's calls, and the bits returned
(`none` if the events run out with no bit of `mask` set) with the state then. -/
def waitBits (cfg : Config) (mask : Nat) :
    Globals → List WifiEvent → List Call × Option Nat × World
  | g, [] =>
    if g.s_wifi_event_group &&& mask ≠ 0 then
      ([], some g.s_wifi_event_group, ⟨g, []⟩)
    else ([], none, ⟨g, []⟩)
  | g, e :: es =>
    if g.s_wifi_event_group &&& mask ≠ 0 then
      ([], some g.s_wifi_event_group, ⟨g, e :: es⟩)
    else
      let r := wifi_event_handler cfg e.event_base e.event_id g
      let w := waitBits cfg mask r.1 es
      (r.2 ++ w.1, w.2)

/-- The call `xEventGroupWaitBits` as a step of the main task. -/
def xEventGroupWaitBits (cfg : Config) (mask : Nat) : Run Nat := fun w =>
  let r := waitBits cfg mask w.globals w.pending
  match r.2.1 with
  | some bits => ⟨.xEventGroupWaitBits mask :: r.1, .returned bits, r.2.2⟩
  | none => ⟨.xEventGroupWaitBits mask :: r.1, .blocked, r.2.2⟩

/-- The call `xEventGroupCreate()` assigned to `s_wifi_event_group`: a fresh
group, no bit set. -/
def xEventGroupCreate : Run Unit := fun w =>
  ⟨[.xEventGroupCreate], .returned (),
    { w with globals := { w.globals with s_wifi_event_group := 0 } }⟩

/-- The part of `init_wifi` after the wait: what is done with the bits that
`xEventGroupWaitBits` returned. -/
def init_wifi_finish (bits : Nat) (wifi_netif : Nat) : Run Nat := do
  if bits &&& WIFI_CONNECTED_BIT ≠ 0 then
    logLine .I "Wi-Fi connected successfully" []
  else if bits &&& WIFI_FAIL_BIT ≠ 0 then
    logLine .E "Wi-Fi connection failed — rebooting in 5 s" []
    call (.vTaskDelay 5000)
    esp_restart
  else
    pure ()
  return wifi_netif

/-- The part of `init_wifi` before the wait: driver set-up and start. -/
def init_wifi_setup (cfg : Config) (env : Env) : Run Nat := do
  xEventGroupCreate
  let wifi_netif ← ext .esp_netif_create_default_wifi_sta env.wifi_netif
  ESP_ERROR_CHECK (← ext .esp_wifi_init env.esp_wifi_init)
  ESP_ERROR_CHECK (← ext (.esp_event_handler_instance_register .WIFI_EVENT ESP_EVENT_ANY_ID)
    env.register_any_wifi_event)
  ESP_ERROR_CHECK (← ext (.esp_event_handler_instance_register .IP_EVENT IP_EVENT_STA_GOT_IP)
    env.register_got_ip_event)
  ESP_ERROR_CHECK (← ext .esp_wifi_set_mode env.esp_wifi_set_mode)
  ESP_ERROR_CHECK (← ext (.esp_wifi_set_config cfg.WIFI_SSID cfg.WIFI_PASSWORD)
    env.esp_wifi_set_config)
  ESP_ERROR_CHECK (← ext .esp_wifi_start env.esp_wifi_start)
  logLine .I "Connecting to Wi-Fi SSID: %s ..." [.str cfg.WIFI_SSID]
  return wifi_netif

/-- The function `init_wifi`. -/
def init_wifi (cfg : Config) (env : Env) : Run Nat := do
  let wifi_netif ← init_wifi_setup cfg env
  let bits ← xEventGroupWaitBits cfg (WIFI_CONNECTED_BIT ||| WIFI_FAIL_BIT)
  init_wifi_finish bits wifi_netif

/-! ## mDNS -/

/-- The table `meshcop_txt` of `init_mdns`. -/
def meshcop_txt (cfg : Config) : List (String × String) :=
  [("rv", "1"), ("dd", cfg.DEVICE_NAME), ("vn", "Espressif"), ("mn", "ESP32-C6 OTBR")]

/-- The function `init_mdns`. -/
def init_mdns (cfg : Config) (env : Env) : Run Unit := do
  ESP_ERROR_CHECK (← ext .mdns_init env.mdns_init)
  ESP_ERROR_CHECK (← ext (.mdns_hostname_set cfg.DEVICE_NAME) env.mdns_hostname_set)
  ESP_ERROR_CHECK (← ext (.mdns_instance_name_set (MDNS_INSTANCE_NAME cfg))
    env.mdns_instance_name_set)
  ESP_ERROR_CHECK (← ext (.mdns_service_add cfg.DEVICE_NAME "_meshcop" "_udp" 49191
    (meshcop_txt cfg) (meshcop_txt cfg).length) env.mdns_service_add)
  logLine .I "mDNS started: %s._meshcop._udp.local" [.str cfg.DEVICE_NAME]

/-! ## Hex string to byte array -/

/-- The function `hex_nibble`; `c` is the character code. -/
def hex_nibble (c : Nat) : Int :=
  if '0'.toNat ≤ c ∧ c ≤ '9'.toNat then (c : Int) - '0'.toNat
  else if 'a'.toNat ≤ c ∧ c ≤ 'f'.toNat then (c : Int) - 'a'.toNat + 10
  else if 'A'.toNat ≤ c ∧ c ≤ 'F'.toNat then (c : Int) - 'A'.toNat + 10
  else -1

/-- The character `hex[i]` of a C string: past the last character stands the
terminating NUL. -/
def charAt (hex : List Nat) (i : Nat) : Nat := hex.getD i 0

/-- The loop of `hex_to_bytes` from index `i` on, with `n = byte_len - i`
iterations left: the return value of the function and the buffer `out`. -/
def hex_to_bytes_loop (hex : List Nat) (byte_len : Nat) :
    Nat → Nat → List Nat → Int × List Nat
  | 0, _, out => (wrapInt32 byte_len, out)
  | n + 1, i, out =>
    let hi := hex_nibble (charAt hex (i * 2))
    let lo := hex_nibble (charAt hex (i * 2 + 1))
    if hi < 0 ∨ lo < 0 then (-1, out)
    else
      hex_to_bytes_loop hex byte_len n (i + 1)
        (out.set i (((hi.toNat <<< 4) ||| lo.toNat) % 256))

/-- The function `hex_to_bytes`: the return value and the buffer `out` after
the call. `hex` holds the characters before the NUL, so `strlen` is its
length. -/
def hex_to_bytes (hex : List Nat) (out : List Nat) (max_len : Nat) : Int × List Nat :=
  let hex_len := hex.length
  if hex_len = 0 ∨ hex_len % 2 ≠ 0 then (-1, out)
  else
    let byte_len := hex_len / 2
    if byte_len > max_len then (-1, out)
    else hex_to_bytes_loop hex byte_len byte_len 0 out

/-! ## Dataset helpers -/

/-- The constant `OT_OPERATIONAL_DATASET_MAX_LENGTH` of `openthread/dataset.h`, the size of
`otOperationalDatasetTlvs.mTlvs`. -/
def OT_OPERATIONAL_DATASET_MAX_LENGTH : Nat := 254

/-- The constant `OT_NETWORK_NAME_MAX_SIZE` of `openthread/dataset.h`; the array
`otNetworkName.m8` has one byte more. -/
def OT_NETWORK_NAME_MAX_SIZE : Nat := 16

/-- The function `load_dataset_from_tlvs`. The buffer `tlvs.mTlvs` is an
uninitialised local; its contents before the call are `env.tlvs_uninit`. -/
def load_dataset_from_tlvs (cfg : Config) (env : Env) : Run Bool := do
  let hex := cfg.THREAD_DATASET_TLVS
  if hex.length = 0 then
    return false
  else
    let r := hex_to_bytes hex env.tlvs_uninit OT_OPERATIONAL_DATASET_MAX_LENGTH
    let len := r.1
    if len < 0 then
      logLine .E "THREAD_DATASET_TLVS: invalid hex string" []
      return false
    else
      let tlvs : otOperationalDatasetTlvs := { mTlvs := r.2, mLength := len.toNat % 256 }
      let error ← ext (.otDatasetSetActiveTlvs tlvs) (env.otDatasetSetActiveTlvs tlvs)
      if error ≠ OT_ERROR_NONE then
        logLine .E "Failed to set active dataset from TLVs: %d" [.int error]
        return false
      else
        logLine .I "Thread dataset loaded from config (%d bytes)" [.int len]
        return true

/-- The call `memcpy(dst, src, n)` on arrays kept as lists. -/
def memcpy (dst src : List Nat) (n : Nat) : List Nat := src.take n ++ dst.drop n

/-- The function `create_default_dataset` (compiled when `THREAD_AUTO_START`
is nonzero). The stack fills the zeroed dataset; `env` gives the error code and
the dataset as the stack left it. -/
def create_default_dataset (cfg : Config) (env : Env) : Run Unit := do
  logLine .I "Creating new Thread network" []
  let r ← ext .otDatasetCreateNewNetwork env.otDatasetCreateNewNetwork
  let error := r.1
  if error ≠ OT_ERROR_NONE then
    logLine .E "Failed to create new network dataset: %d" [.int error]
  else
    let dataset := r.2
    let dataset := { dataset with
      mChannel := cfg.THREAD_CHANNEL % 65536, mIsChannelPresent := true }
    let name_len := cfg.THREAD_NETWORK_NAME.length
    let name_len := if name_len > OT_NETWORK_NAME_MAX_SIZE then OT_NETWORK_NAME_MAX_SIZE
      else name_len
    let m8 := memcpy dataset.mNetworkName cfg.THREAD_NETWORK_NAME name_len
    let m8 := m8.set name_len 0
    let dataset := { dataset with mNetworkName := m8, mIsNetworkNamePresent := true }
    let error ← ext (.otDatasetSetActive dataset) (env.otDatasetSetActive dataset)
    if error ≠ OT_ERROR_NONE then
      logLine .E "Failed to set active dataset: %d" [.int error]
    else
      logLine .I "New network created: ch=%d, name=%s"
        [.int cfg.THREAD_CHANNEL, .chars cfg.THREAD_NETWORK_NAME]

/-! ## The mesh task -/

/-- The first two credential sources of `ot_task`: the value of `dataset_ready`
after the `if` / `else if` on the saved dataset and the configured TLVs. -/
def ot_task_sources (cfg : Config) (env : Env) : Run Bool := do
  let e ← ext .otDatasetGetActive env.otDatasetGetActive
  if e = OT_ERROR_NONE then
    logLine .I "Using saved Thread dataset from NVS" []
    return true
  else if (← load_dataset_from_tlvs cfg env) then
    return true
  else
    return false

/-- The function `ot_task`; `wifi_netif` is its argument. -/
def ot_task (cfg : Config) (env : Env) (wifi_netif : Nat) : Run Unit := do
  ESP_ERROR_CHECK (← ext .esp_openthread_init env.esp_openthread_init)
  call .esp_openthread_get_instance
  call .otSetStateChangedCallback
  (if cfg.OT_CLI_UART_ENABLE ≠ 0 then call .esp_openthread_cli_init else pure ())
  ESP_ERROR_CHECK (← ext (.esp_openthread_border_router_init wifi_netif)
    env.esp_openthread_border_router_init)
  logLine .I "OpenThread Border Router initialized" []
  call .esp_openthread_lock_acquire
  let dataset_ready ← ot_task_sources cfg env
  let dataset_ready ←
    (if cfg.THREAD_AUTO_START ≠ 0 then
      (if !dataset_ready then do
        create_default_dataset cfg env
        pure true
      else pure dataset_ready)
    else pure dataset_ready)
  (if dataset_ready then do
    call (.otIp6SetEnabled true)
    call (.otThreadSetEnabled true)
    logLine .I "Thread interface up — joining network..." []
  else do
    logLine .I "No Thread dataset configured" []
    logLine .I "Provision via Home Assistant or serial CLI:" []
    logLine .I "  > dataset set active <hex-TLV>" []
    logLine .I "  > ifconfig up" []
    logLine .I "  > thread start" [])
  call .esp_openthread_lock_release
  call .esp_openthread_cli_create_task
  let back ← ext .esp_openthread_launch_mainloop env.mainloop_returns
  (if back then do
    call .esp_openthread_netif_glue_deinit
    call .esp_vfs_eventfd_unregister
    call .vTaskDelete
  else
    fun w => ⟨[], .blocked, w⟩)

/-! ## Application entry point -/

/-- The storage block of `app_main` (the lines under the comment `NVS`):
initialise, erase and initialise again on the two recoverable codes, check. The
first and the second call of `nvs_flash_init` may return different values. -/
def app_main_nvs (env : Env) : Run Unit := do
  let ret ← ext .nvs_flash_init env.nvs_flash_init_1
  let ret ←
    if ret = ESP_ERR_NVS_NO_FREE_PAGES ∨ ret = ESP_ERR_NVS_NEW_VERSION_FOUND then do
      ESP_ERROR_CHECK (← ext .nvs_flash_erase env.nvs_flash_erase)
      ext .nvs_flash_init env.nvs_flash_init_2
    else pure ret
  ESP_ERROR_CHECK ret

/-- The function `app_main`. -/
def app_main (cfg : Config) (env : Env) : Run Unit := do
  logLine .I "========================================" []
  logLine .I "  ESP32-C6 OpenThread Border Router" []
  logLine .I "  Device: %s" [.str cfg.DEVICE_NAME]
  logLine .I "========================================" []
  app_main_nvs env
  ESP_ERROR_CHECK (← ext (.esp_vfs_eventfd_register 4) env.esp_vfs_eventfd_register)
  ESP_ERROR_CHECK (← ext .esp_netif_init env.esp_netif_init)
  ESP_ERROR_CHECK (← ext .esp_event_loop_create_default env.esp_event_loop_create_default)
  let wifi_netif ← init_wifi cfg env
  init_mdns cfg env
  call (.xTaskCreate "ot_main" 20480 wifi_netif 5)
  logLine .I "OTBR startup complete — %s is online" [.str cfg.DEVICE_NAME]

/-- The Wi-Fi side of the running device: `app_main` from reset, and, once it
has returned, the event loop delivering the remaining events to the handler
(which stays registered). `ot_task` runs in its own task and touches neither of
the globals. -/
def device (cfg : Config) (env : Env) (events : List WifiEvent) : Result Unit :=
  let r := app_main cfg env (World.boot events)
  match r.outcome with
  | .returned _ =>
    let d := deliver cfg r.world.globals r.world.pending
    ⟨r.trace ++ d.2, .returned (), ⟨d.1, []⟩⟩
  | _ => r

/-! ## Reading a trace -/

/-- The start-up steps of `app_main`, in the order of the source. -/
inductive Step where
  | storage
  | eventfd
  | netif
  | eventloop
  | wifi
  | mdns
  | meshtask
  deriving DecidableEq, Repr

/-- The start-up step an external call belongs to; log lines, `abort` and the
calls of the mesh task belong to none. The calls of the Wi-Fi event handler
count as Wi-Fi bring-up. -/
def stepOf : Call → Option Step
  | .nvs_flash_init => some .storage
  | .nvs_flash_erase => some .storage
  | .esp_vfs_eventfd_register _ => some .eventfd
  | .esp_netif_init => some .netif
  | .esp_event_loop_create_default => some .eventloop
  | .xEventGroupCreate => some .wifi
  | .esp_netif_create_default_wifi_sta => some .wifi
  | .esp_wifi_init => some .wifi
  | .esp_event_handler_instance_register _ _ => some .wifi
  | .esp_wifi_set_mode => some .wifi
  | .esp_wifi_set_config _ _ => some .wifi
  | .esp_wifi_start => some .wifi
  | .xEventGroupWaitBits _ => some .wifi
  | .esp_wifi_connect => some .wifi
  | .xEventGroupSetBits _ => some .wifi
  | .vTaskDelay _ => some .wifi
  | .esp_restart => some .wifi
  | .mdns_init => some .mdns
  | .mdns_hostname_set _ => some .mdns
  | .mdns_instance_name_set _ => some .mdns
  | .mdns_service_add _ _ _ _ _ _ => some .mdns
  | .xTaskCreate _ _ _ _ => some .meshtask
  | _ => none

/-- The credential source a call of the mesh stack belongs to: 1 for reading
the saved dataset, 2 for applying the configured TLVs, 3 and 4 for creating and
activating a new network. -/
def sourceRank : Call → Option Nat
  | .otDatasetGetActive => some 1
  | .otDatasetSetActiveTlvs _ => some 2
  | .otDatasetCreateNewNetwork => some 3
  | .otDatasetSetActive _ => some 4
  | _ => none

/-- A character code that is a hexadecimal digit. -/
def isHexDigit (c : Nat) : Bool :=
  ('0'.toNat ≤ c && c ≤ '9'.toNat) || ('a'.toNat ≤ c && c ≤ 'f'.toNat) ||
    ('A'.toNat ≤ c && c ≤ 'F'.toNat)

/-- A valid hex string for a buffer of `max_len` bytes, in the words of the
specification: non-empty, of even length, hexadecimal digits only, and not
longer than two characters per byte of the buffer. -/
def ValidHex (hex : List Nat) (max_len : Nat) : Prop :=
  hex ≠ [] ∧ hex.length % 2 = 0 ∧ (∀ c ∈ hex, isHexDigit c = true) ∧
    hex.length ≤ 2 * max_len

instance (hex : List Nat) (max_len : Nat) : Decidable (ValidHex hex max_len) := by
  unfold ValidHex; infer_instance

/-! ## Sample inputs -/

/-- The constant `OT_ERROR_FAILED` of `openthread/error.h`. -/
def OT_ERROR_FAILED : Int := 1
/-- The constant `OT_ERROR_NOT_FOUND` of `openthread/error.h`. -/
def OT_ERROR_NOT_FOUND : Int := 23
/-- The constant `ESP_FAIL` of `esp_err.h`. -/
def ESP_FAIL : Int := -1

/-- A dataset as the stack might create it. -/
def sampleDataset : otOperationalDataset :=
  { mChannel := 11, mNetworkName := cstr "OpenThread-1a2b" ++ [0, 0],
    mIsChannelPresent := true, mIsNetworkNamePresent := true, rest := 7 }

/-- An environment in which every call succeeds, storage needs no erase, and
no dataset is saved yet. -/
def Env.ok : Env where
  nvs_flash_init_1 := ESP_OK
  nvs_flash_erase := ESP_OK
  nvs_flash_init_2 := ESP_OK
  esp_vfs_eventfd_register := ESP_OK
  esp_netif_init := ESP_OK
  esp_event_loop_create_default := ESP_OK
  wifi_netif := 1
  esp_wifi_init := ESP_OK
  register_any_wifi_event := ESP_OK
  register_got_ip_event := ESP_OK
  esp_wifi_set_mode := ESP_OK
  esp_wifi_set_config := ESP_OK
  esp_wifi_start := ESP_OK
  mdns_init := ESP_OK
  mdns_hostname_set := ESP_OK
  mdns_instance_name_set := ESP_OK
  mdns_service_add := ESP_OK
  esp_openthread_init := ESP_OK
  esp_openthread_border_router_init := ESP_OK
  otDatasetGetActive := OT_ERROR_NOT_FOUND
  tlvs_uninit := List.replicate 254 0
  otDatasetSetActiveTlvs := fun _ => OT_ERROR_NONE
  otDatasetCreateNewNetwork := (OT_ERROR_NONE, sampleDataset)
  otDatasetSetActive := fun _ => OT_ERROR_NONE
  mainloop_returns := false

/-- A configuration with a retry budget of one. -/
def cfgRetry1 : Config := { Config.shipped with WIFI_MAX_RETRY := 1 }

/-- A configuration with a retry budget of two. -/
def cfgRetry2 : Config := { Config.shipped with WIFI_MAX_RETRY := 2 }

/-- A configuration with auto-provisioning switched on. -/
def cfgAuto : Config := { Config.shipped with THREAD_AUTO_START := 1 }

/-- A configuration with a dataset TLV string of three bytes. -/
def cfgTlvs : Config := { Config.shipped with THREAD_DATASET_TLVS := cstr "0e08fF" }

/-- Storage reports no free pages and the erase fails. -/
def envEraseFails : Env :=
  { Env.ok with nvs_flash_init_1 := ESP_ERR_NVS_NO_FREE_PAGES, nvs_flash_erase := ESP_FAIL }

/-- The stack cannot create a new network. -/
def envCreateFails : Env :=
  { Env.ok with otDatasetCreateNewNetwork := (OT_ERROR_FAILED, sampleDataset) }

/-! ## The state-change callback -/

/-- The constant `OT_CHANGED_THREAD_ROLE` of `openthread/instance.h` (`1 << 2`). -/
def OT_CHANGED_THREAD_ROLE : Nat := 4
/-- The constant `OT_CHANGED_THREAD_NETDATA` of `openthread/instance.h` (`1 << 9`). -/
def OT_CHANGED_THREAD_NETDATA : Nat := 512

/-- The constant `OT_DEVICE_ROLE_DISABLED` of `openthread/thread.h`. -/
def OT_DEVICE_ROLE_DISABLED : Int := 0
/-- The constant `OT_DEVICE_ROLE_DETACHED` of `openthread/thread.h`. -/
def OT_DEVICE_ROLE_DETACHED : Int := 1
/-- The constant `OT_DEVICE_ROLE_CHILD` of `openthread/thread.h`. -/
def OT_DEVICE_ROLE_CHILD : Int := 2
/-- The constant `OT_DEVICE_ROLE_ROUTER` of `openthread/thread.h`. -/
def OT_DEVICE_ROLE_ROUTER : Int := 3
/-- The constant `OT_DEVICE_ROLE_LEADER` of `openthread/thread.h`. -/
def OT_DEVICE_ROLE_LEADER : Int := 4

/-- The `switch` of `ot_state_change_callback`: the value of `role_str` for the
role read from the stack. -/
def role_str (role : Int) : String :=
  if role = OT_DEVICE_ROLE_DISABLED then "disabled"
  else if role = OT_DEVICE_ROLE_DETACHED then "detached"
  else if role = OT_DEVICE_ROLE_CHILD then "child"
  else if role = OT_DEVICE_ROLE_ROUTER then "router"
  else if role = OT_DEVICE_ROLE_LEADER then "leader"
  else "unknown"

/-- The function `ot_state_change_callback`; `flags` is its first argument and
`role` is what `otThreadGetDeviceRole` returns when it is called. -/
def ot_state_change_callback (flags : Nat) (role : Int) : Run Unit := do
  (if flags &&& OT_CHANGED_THREAD_ROLE ≠ 0 then do
    let role ← ext .otThreadGetDeviceRole role
    logLine .I "Thread role changed: %s" [.str (role_str role)]
  else pure ())
  (if flags &&& OT_CHANGED_THREAD_NETDATA ≠ 0 then
    logLine .I "Thread network data updated" []
  else pure ())

/-! ## Reading the calls of the mesh task -/

/-- A call that reads, creates or applies a dataset, or enables an interface. -/
def isMeshSetupCall : Call → Bool
  | .otDatasetGetActive => true
  | .otDatasetSetActiveTlvs _ => true
  | .otDatasetCreateNewNetwork => true
  | .otDatasetSetActive _ => true
  | .otIp6SetEnabled _ => true
  | .otThreadSetEnabled _ => true
  | _ => false

/-- A call that takes or gives back the stack lock. -/
def isLockCall : Call → Bool
  | .esp_openthread_lock_acquire => true
  | .esp_openthread_lock_release => true
  | _ => false

/-- The datasets handed to `otDatasetSetActive` in a trace, in order. -/
def datasetsSetActive (t : List Call) : List otOperationalDataset :=
  t.filterMap fun c =>
    match c with
    | .otDatasetSetActive d => some d
    | _ => none

/-- The service registrations in a trace, in order: instance, type, protocol,
port, TXT records and the TXT count. -/
def servicesAdded (t : List Call) :
    List (String × String × String × Nat × List (String × String) × Nat) :=
  t.filterMap fun c =>
    match c with
    | .mdns_service_add i ty pr po txt n => some (i, ty, pr, po, txt, n)
    | _ => none

/-! ## Hexadecimal spelling, in the words of the specification -/

/-- The value of a hexadecimal digit: `0`-`9` are 0 to 9, and both `a`-`f` and
`A`-`F` are 10 to 15. -/
def hexValue (c : Nat) : Nat :=
  if '0'.toNat ≤ c ∧ c ≤ '9'.toNat then c - '0'.toNat
  else if 'a'.toNat ≤ c ∧ c ≤ 'f'.toNat then c - 'a'.toNat + 10
  else if 'A'.toNat ≤ c ∧ c ≤ 'F'.toNat then c - 'A'.toNat + 10
  else 0

/-- The byte that the two characters at `2 * i` and `2 * i + 1` spell. -/
def byteAt (hex : List Nat) (i : Nat) : Nat :=
  16 * hexValue (charAt hex (2 * i)) + hexValue (charAt hex (2 * i + 1))

/-- The upper-case spelling of a character: `a`-`f` become `A`-`F`. -/
def hexUpper (c : Nat) : Nat :=
  if 'a'.toNat ≤ c ∧ c ≤ 'f'.toNat then c - 32 else c

/-- The lower-case spelling of a character: `A`-`F` become `a`-`f`. -/
def hexLower (c : Nat) : Nat :=
  if 'A'.toNat ≤ c ∧ c ≤ 'F'.toNat then c + 32 else c

/-- The digit for a value below 16, in upper or in lower case. -/
def hexDigit (upper : Bool) (v : Nat) : Nat :=
  if v < 10 then '0'.toNat + v
  else (if upper then 'A'.toNat else 'a'.toNat) + (v - 10)

/-- The hex spelling of a byte sequence: two digits per byte, high nibble
first. -/
def hexSpelling (upper : Bool) : List Nat → List Nat
  | [] => []
  | b :: bs => hexDigit upper (b / 16) :: hexDigit upper (b % 16) :: hexSpelling upper bs

/-! ## More sample inputs -/

/-- A configuration with a network name longer than the dataset field. -/
def cfgLongName : Config :=
  { Config.shipped with THREAD_AUTO_START := 1,
                        THREAD_NETWORK_NAME := cstr "OpenThread-Home-Assistant" }

/-! ## The older copy `src/main.c`

The repository also holds an older copy of `main.c` under `src/`. It is the
same text except for two places: `create_default_dataset` first looks for a
saved dataset itself, and `ot_task` has no configured TLVs and does its mesh
set-up only under `#if THREAD_AUTO_START`. -/

namespace Legacy

/-- The function `create_default_dataset` of the older copy. -/
def create_default_dataset (cfg : Config) (env : Env) : Run Unit := do
  let error ← ext .otDatasetGetActive env.otDatasetGetActive
  if error = OT_ERROR_NONE then
    logLine .I "Active dataset already present in NVS — using it" []
  else
    logLine .I "No active dataset found — creating default" []
    let r ← ext .otDatasetCreateNewNetwork env.otDatasetCreateNewNetwork
    let error := r.1
    if error ≠ OT_ERROR_NONE then
      logLine .E "Failed to create new network dataset: %d" [.int error]
    else
      let dataset := r.2
      let dataset := { dataset with
        mChannel := cfg.THREAD_CHANNEL % 65536, mIsChannelPresent := true }
      let name_len := cfg.THREAD_NETWORK_NAME.length
      let name_len := if name_len > OT_NETWORK_NAME_MAX_SIZE then OT_NETWORK_NAME_MAX_SIZE
        else name_len
      let m8 := memcpy dataset.mNetworkName cfg.THREAD_NETWORK_NAME name_len
      let m8 := m8.set name_len 0
      let dataset := { dataset with mNetworkName := m8, mIsNetworkNamePresent := true }
      let error ← ext (.otDatasetSetActive dataset) (env.otDatasetSetActive dataset)
      if error ≠ OT_ERROR_NONE then
        logLine .E "Failed to set active dataset: %d" [.int error]
      else
        logLine .I "Default dataset configured: ch=%d, name=%s"
          [.int cfg.THREAD_CHANNEL, .chars cfg.THREAD_NETWORK_NAME]

/-- The function `ot_task` of the older copy. -/
def ot_task (cfg : Config) (env : Env) (wifi_netif : Nat) : Run Unit := do
  ESP_ERROR_CHECK (← ext .esp_openthread_init env.esp_openthread_init)
  call .esp_openthread_get_instance
  call .otSetStateChangedCallback
  (if cfg.OT_CLI_UART_ENABLE ≠ 0 then call .esp_openthread_cli_init else pure ())
  ESP_ERROR_CHECK (← ext (.esp_openthread_border_router_init wifi_netif)
    env.esp_openthread_border_router_init)
  logLine .I "OpenThread Border Router initialized" []
  (if cfg.THREAD_AUTO_START ≠ 0 then do
    call .esp_openthread_lock_acquire
    create_default_dataset cfg env
    call (.otIp6SetEnabled true)
    call (.otThreadSetEnabled true)
    call .esp_openthread_lock_release
    logLine .I "Thread interface started (auto-start mode)" []
  else do
    logLine .I "Thread waiting for dataset provisioning via CLI or Home Assistant" []
    logLine .I "Connect serial monitor and use OT CLI commands:" []
    logLine .I "  > dataset set active <hex-TLV>" []
    logLine .I "  > ifconfig up" []
    logLine .I "  > thread start" [])
  call .esp_openthread_cli_create_task
  let back ← ext .esp_openthread_launch_mainloop env.mainloop_returns
  (if back then do
    call .esp_openthread_netif_glue_deinit
    call .esp_vfs_eventfd_unregister
    call .vTaskDelete
  else
    fun w => ⟨[], .blocked, w⟩)

end Legacy

/-! ## Evaluation rules for sequential code -/

theorem bind_apply {α β : Type} (m : Run α) (f : α → Run β) (w : World) :
    (m >>= f) w = Run.seq m f w := rfl

theorem seq_returned {α β : Type} (m : Run α) (f : α → Run β) (w w2 : World)
    (t : List Call) (a : α) (h : m w = ⟨t, .returned a, w2⟩) :
    (m >>= f) w = (f a w2).prepend t := by
  simp only [bind_apply, Run.seq, h]

theorem seq_aborted {α β : Type} (m : Run α) (f : α → Run β) (w w2 : World)
    (t : List Call) (h : m w = ⟨t, .aborted, w2⟩) :
    (m >>= f) w = ⟨t, .aborted, w2⟩ := by
  simp only [bind_apply, Run.seq, h]

theorem seq_restarted {α β : Type} (m : Run α) (f : α → Run β) (w w2 : World)
    (t : List Call) (h : m w = ⟨t, .restarted, w2⟩) :
    (m >>= f) w = ⟨t, .restarted, w2⟩ := by
  simp only [bind_apply, Run.seq, h]

theorem seq_blocked {α β : Type} (m : Run α) (f : α → Run β) (w w2 : World)
    (t : List Call) (h : m w = ⟨t, .blocked, w2⟩) :
    (m >>= f) w = ⟨t, .blocked, w2⟩ := by
  simp only [bind_apply, Run.seq, h]

@[simp] theorem pure_apply {α : Type} (a : α) (w : World) :
    (pure a : Run α) w = ⟨[], .returned a, w⟩ := rfl

@[simp] theorem ext_apply {α : Type} (c : Call) (v : α) (w : World) :
    ext c v w = ⟨[c], .returned v, w⟩ := rfl

@[simp] theorem call_apply (c : Call) (w : World) :
    call c w = ⟨[c], .returned (), w⟩ := rfl

@[simp] theorem logLine_apply (l : LogLevel) (f : String) (a : List LogArg) (w : World) :
    logLine l f a w = ⟨[.log l f a], .returned (), w⟩ := rfl

@[simp] theorem abort_apply {α : Type} (w : World) :
    (abort : Run α) w = ⟨[.abort], .aborted, w⟩ := rfl

@[simp] theorem esp_restart_apply {α : Type} (w : World) :
    (esp_restart : Run α) w = ⟨[.esp_restart], .restarted, w⟩ := rfl

@[simp] theorem ite_run_apply {α : Type} (c : Prop) [Decidable c] (m1 m2 : Run α) (w : World) :
    (if c then m1 else m2) w = if c then m1 w else m2 w := by
  split <;> rfl

@[simp] theorem pure_bind_apply {α β : Type} (a : α) (f : α → Run β) (w : World) :
    ((pure a : Run α) >>= f) w = f a w :=
  (seq_returned (pure a) f w w [] a rfl).trans rfl

@[simp] theorem ext_bind_apply {α β : Type} (c : Call) (v : α) (f : α → Run β) (w : World) :
    (ext c v >>= f) w = (f v w).prepend [c] := seq_returned _ f w w [c] v rfl

@[simp] theorem call_bind_apply {β : Type} (c : Call) (f : Unit → Run β) (w : World) :
    (call c >>= f) w = (f () w).prepend [c] := seq_returned _ f w w [c] () rfl

@[simp] theorem logLine_bind_apply {β : Type} (l : LogLevel) (s : String) (a : List LogArg)
    (f : Unit → Run β) (w : World) :
    (logLine l s a >>= f) w = (f () w).prepend [.log l s a] :=
  seq_returned _ f w w [.log l s a] () rfl

@[simp] theorem check_apply (x : Int) (w : World) :
    ESP_ERROR_CHECK x w = if x = ESP_OK then ⟨[], .returned (), w⟩ else ⟨[.abort], .aborted, w⟩ := by
  unfold ESP_ERROR_CHECK; split_ifs <;> simp_all

@[simp] theorem check_bind_apply {β : Type} (x : Int) (f : Unit → Run β) (w : World) :
    (ESP_ERROR_CHECK x >>= f) w = if x = ESP_OK then f () w else ⟨[.abort], .aborted, w⟩ := by
  by_cases h : x = ESP_OK
  · rw [seq_returned _ f w w [] () (by simp [h])]; simp [h, Result.prepend]
  · rw [seq_aborted _ f w w [.abort] (by simp [h])]; simp [h]

@[simp] theorem abort_bind_apply {α β : Type} (f : α → Run β) (w : World) :
    ((abort : Run α) >>= f) w = ⟨[.abort], .aborted, w⟩ :=
  seq_aborted _ f w w [.abort] rfl

@[simp] theorem esp_restart_bind_apply {α β : Type} (f : α → Run β) (w : World) :
    ((esp_restart : Run α) >>= f) w = ⟨[.esp_restart], .restarted, w⟩ :=
  seq_restarted _ f w w [.esp_restart] rfl

@[simp] theorem prepend_mk {α : Type} (t t2 : List Call) (o : Outcome α) (w : World) :
    Result.prepend t ⟨t2, o, w⟩ = ⟨t ++ t2, o, w⟩ := rfl

@[simp] theorem prepend_trace {α : Type} (t : List Call) (r : Result α) :
    (r.prepend t).trace = t ++ r.trace := rfl

@[simp] theorem prepend_outcome {α : Type} (t : List Call) (r : Result α) :
    (r.prepend t).outcome = r.outcome := rfl

@[simp] theorem prepend_world {α : Type} (t : List Call) (r : Result α) :
    (r.prepend t).world = r.world := rfl

@[simp] theorem prepend_prepend {α : Type} (t1 t2 : List Call) (r : Result α) :
    (r.prepend t2).prepend t1 = r.prepend (t1 ++ t2) := by
  simp [Result.prepend]

theorem prepend_ite {α : Type} (c : Prop) [Decidable c] (t : List Call) (r1 r2 : Result α) :
    (if c then r1 else r2).prepend t = if c then r1.prepend t else r2.prepend t := by
  split <;> rfl

/-! ## The Wi-Fi event handler -/

theorem wrapInt32_of_range (x : Int) (h0 : -2147483648 ≤ x) (h1 : x ≤ 2147483647) :
    wrapInt32 x = x := by
  unfold wrapInt32; omega

theorem or_connected_and_fail (x : Nat) :
    (x ||| WIFI_CONNECTED_BIT) &&& WIFI_FAIL_BIT = x &&& WIFI_FAIL_BIT := by
  unfold WIFI_CONNECTED_BIT WIFI_FAIL_BIT
  rw [Nat.and_distrib_right]
  simp

theorem deliver_nil (cfg : Config) (g : Globals) : deliver cfg g [] = (g, []) := rfl

theorem deliver_cons (cfg : Config) (g : Globals) (e : WifiEvent) (es : List WifiEvent) :
    deliver cfg g (e :: es) =
      ((deliver cfg (wifi_event_handler cfg e.event_base e.event_id g).1 es).1,
       (wifi_event_handler cfg e.event_base e.event_id g).2 ++
         (deliver cfg (wifi_event_handler cfg e.event_base e.event_id g).1 es).2) := rfl

/-- The handler on a disconnect event while the budget is not used up. -/
theorem handler_disconnect_retry (cfg : Config) (g : Globals)
    (h : cfg.WIFI_MAX_RETRY = 0 ∨ g.s_retry_count < cfg.WIFI_MAX_RETRY) :
    wifi_event_handler cfg .WIFI_EVENT WIFI_EVENT_STA_DISCONNECTED g =
      ({ g with s_retry_count := wrapInt32 (g.s_retry_count + 1) },
        [.esp_wifi_connect,
         .log .W "Wi-Fi disconnected, retrying... (%d)"
           [.int (wrapInt32 (g.s_retry_count + 1))]]) := by
  simp [wifi_event_handler, WIFI_EVENT_STA_DISCONNECTED, WIFI_EVENT_STA_START, h]

/-- The handler on a disconnect event once the budget is used up. -/
theorem handler_disconnect_fail (cfg : Config) (g : Globals)
    (h0 : cfg.WIFI_MAX_RETRY ≠ 0) (h : cfg.WIFI_MAX_RETRY ≤ g.s_retry_count) :
    wifi_event_handler cfg .WIFI_EVENT WIFI_EVENT_STA_DISCONNECTED g =
      ({ g with s_wifi_event_group := g.s_wifi_event_group ||| WIFI_FAIL_BIT },
        [.xEventGroupSetBits WIFI_FAIL_BIT,
         .log .E "Wi-Fi connection failed after %d retries" [.int g.s_retry_count]]) := by
  have : ¬ g.s_retry_count < cfg.WIFI_MAX_RETRY := by omega
  simp [wifi_event_handler, WIFI_EVENT_STA_DISCONNECTED, WIFI_EVENT_STA_START, h0, this]

/-- Effect of one event other than got-IP on the retry counter, for a positive budget. -/
theorem handler_retry_count (cfg : Config) (e : WifiEvent) (g : Globals)
    (hpos : 0 < cfg.WIFI_MAX_RETRY) (he : e ≠ evGotIp) :
    (wifi_event_handler cfg e.event_base e.event_id g).1.s_retry_count =
      if e = evDisconnected ∧ g.s_retry_count < cfg.WIFI_MAX_RETRY then
        wrapInt32 (g.s_retry_count + 1) else g.s_retry_count := by
  obtain ⟨b, i⟩ := e
  have hne : cfg.WIFI_MAX_RETRY ≠ 0 := by omega
  by_cases hd : (⟨b, i⟩ : WifiEvent) = evDisconnected
  · simp only [evDisconnected, WifiEvent.mk.injEq] at hd
    obtain ⟨rfl, rfl⟩ := hd
    by_cases hlt : g.s_retry_count < cfg.WIFI_MAX_RETRY
    · rw [handler_disconnect_retry cfg g (Or.inr hlt)]
      simp [hlt, evDisconnected]
    · rw [handler_disconnect_fail cfg g hne (by omega)]
      simp [hlt]
  · have hd2 := hd
    simp only [evDisconnected, evGotIp, WifiEvent.mk.injEq, not_and, ne_eq] at hd2 he
    simp only [hd, false_and, if_false]
    unfold wifi_event_handler
    split_ifs with h1 h2 h3 h4
    · rfl
    · exact absurd h2.2 (hd2 h2.1)
    · exact absurd h2.2 (hd2 h2.1)
    · exact absurd h4.2 (he h4.1)
    · rfl

/-- The retry counter after a run of events without got-IP, for a budget within `int`. -/
theorem deliver_retry_count (cfg : Config) (hpos : 0 < cfg.WIFI_MAX_RETRY)
    (hint : cfg.WIFI_MAX_RETRY ≤ INT_MAX) (evs : List WifiEvent) :
    ∀ g : Globals, 0 ≤ g.s_retry_count → g.s_retry_count ≤ cfg.WIFI_MAX_RETRY →
      evGotIp ∉ evs →
      (deliver cfg g evs).1.s_retry_count =
        min (g.s_retry_count + (evs.count evDisconnected : Int)) cfg.WIFI_MAX_RETRY := by
  unfold INT_MAX at hint
  induction evs with
  | nil => intro g h0 h1 _; simp [deliver_nil]; omega
  | cons e es ih =>
    intro g h0 h1 hno
    have hne : e ≠ evGotIp := fun h => hno (by simp [h])
    have hno2 : evGotIp ∉ es := fun h => hno (List.mem_cons_of_mem _ h)
    have hc := handler_retry_count cfg e g hpos hne
    rw [deliver_cons]
    simp only
    by_cases hd : e = evDisconnected
    · by_cases hlt : g.s_retry_count < cfg.WIFI_MAX_RETRY
      · rw [if_pos ⟨hd, hlt⟩, wrapInt32_of_range _ (by omega) (by omega)] at hc
        rw [ih _ (by omega) (by omega) hno2, hc, hd, List.count_cons_self]
        push_cast; omega
      · rw [if_neg (fun h => hlt h.2)] at hc
        rw [ih _ (by omega) (by omega) hno2, hc, hd, List.count_cons_self]
        push_cast; omega
    · rw [if_neg (fun h => hd h.1)] at hc
      rw [ih _ (by omega) (by omega) hno2, hc, List.count_cons_of_ne (Ne.symm hd)]

/-- With no budget configured the handler reconnects on every disconnect. -/
theorem handler_calls_no_budget (cfg : Config) (h : cfg.WIFI_MAX_RETRY = 0) (e : WifiEvent)
    (g : Globals) :
    (∀ b, Call.xEventGroupSetBits b ∈ (wifi_event_handler cfg e.event_base e.event_id g).2 →
      b = WIFI_CONNECTED_BIT) ∧
    (wifi_event_handler cfg e.event_base e.event_id g).1.s_wifi_event_group &&& WIFI_FAIL_BIT =
      g.s_wifi_event_group &&& WIFI_FAIL_BIT := by
  unfold wifi_event_handler
  split_ifs with h1 h2 h3 h4
  · simp
  · simp
  · exact absurd (Or.inl h) h3
  · simp [or_connected_and_fail]
  · simp

/-- C1: with a retry budget `WIFI_MAX_RETRY = N > 0` (an `int`) and the retry
counter starting at 0, after any run of events without a got-IP event that
contains `d` disconnects the counter is `min d N`; a further disconnect is
answered by exactly one reconnect attempt and an increment of the counter to
`d + 1` while `d < N`, and by setting the failure flag with no reconnect
attempt once `d ≥ N`. So the first `N` disconnects are retried and disconnect
`N + 1` gives up: the number of retries is exactly `N`. -/
theorem wifi_retry_budget_exact (cfg : Config) (g0 : Globals) (pre : List WifiEvent)
    (hpos : 0 < cfg.WIFI_MAX_RETRY) (hint : cfg.WIFI_MAX_RETRY ≤ INT_MAX)
    (h0 : g0.s_retry_count = 0) (hpre : evGotIp ∉ pre) :
    (deliver cfg g0 pre).1.s_retry_count =
      min (pre.count evDisconnected : Int) cfg.WIFI_MAX_RETRY ∧
    ((pre.count evDisconnected : Int) < cfg.WIFI_MAX_RETRY →
      wifi_event_handler cfg .WIFI_EVENT WIFI_EVENT_STA_DISCONNECTED (deliver cfg g0 pre).1 =
        ({ (deliver cfg g0 pre).1 with s_retry_count := (pre.count evDisconnected : Int) + 1 },
          [.esp_wifi_connect,
           .log .W "Wi-Fi disconnected, retrying... (%d)"
             [.int ((pre.count evDisconnected : Int) + 1)]])) ∧
    (cfg.WIFI_MAX_RETRY ≤ (pre.count evDisconnected : Int) →
      wifi_event_handler cfg .WIFI_EVENT WIFI_EVENT_STA_DISCONNECTED (deliver cfg g0 pre).1 =
        ({ (deliver cfg g0 pre).1 with
            s_wifi_event_group := (deliver cfg g0 pre).1.s_wifi_event_group ||| WIFI_FAIL_BIT },
          [.xEventGroupSetBits WIFI_FAIL_BIT,
           .log .E "Wi-Fi connection failed after %d retries" [.int cfg.WIFI_MAX_RETRY]])) := by
  have hc := deliver_retry_count cfg hpos hint pre g0 (by omega) (by omega) hpre
  rw [h0, zero_add] at hc
  unfold INT_MAX at hint
  refine ⟨hc, ?_, ?_⟩
  · intro hlt
    have hlt2 : (deliver cfg g0 pre).1.s_retry_count < cfg.WIFI_MAX_RETRY := by
      rw [hc]; omega
    rw [handler_disconnect_retry cfg _ (Or.inr hlt2), hc,
      min_eq_left (le_of_lt hlt), wrapInt32_of_range _ (by omega) (by omega)]
  · intro hge
    have hcN : (deliver cfg g0 pre).1.s_retry_count = cfg.WIFI_MAX_RETRY := by
      rw [hc]; exact min_eq_right hge
    rw [handler_disconnect_fail cfg _ (by omega) (by omega)]
    simp only [hcN]

/-- Witness for C1: a budget of two, after station start and two disconnects
the third disconnect gives up. -/
theorem wifi_retry_budget_exact_witness :
    ((0 : Int) < cfgRetry2.WIFI_MAX_RETRY ∧ cfgRetry2.WIFI_MAX_RETRY ≤ INT_MAX ∧
      (⟨0, 0⟩ : Globals).s_retry_count = 0 ∧
      evGotIp ∉ [evStaStart, evDisconnected, evDisconnected]) ∧
    wifi_event_handler cfgRetry2 .WIFI_EVENT WIFI_EVENT_STA_DISCONNECTED
        (deliver cfgRetry2 ⟨0, 0⟩ [evStaStart, evDisconnected, evDisconnected]).1 =
      ({ (deliver cfgRetry2 ⟨0, 0⟩ [evStaStart, evDisconnected, evDisconnected]).1 with
          s_wifi_event_group :=
            (deliver cfgRetry2 ⟨0, 0⟩
              [evStaStart, evDisconnected, evDisconnected]).1.s_wifi_event_group |||
              WIFI_FAIL_BIT },
        [.xEventGroupSetBits WIFI_FAIL_BIT,
         .log .E "Wi-Fi connection failed after %d retries" [.int cfgRetry2.WIFI_MAX_RETRY]]) :=
  ⟨⟨by decide, by decide, rfl, by decide⟩,
    (wifi_retry_budget_exact cfgRetry2 ⟨0, 0⟩ [evStaStart, evDisconnected, evDisconnected]
      (by decide) (by decide) rfl (by decide)).2.2 (by decide)⟩

/-- C2: with `WIFI_MAX_RETRY = 0`, whatever the retry counter and the flags
are, a disconnect event is answered by a reconnect attempt and changes no
flag; and over every sequence of events the handler makes no
`xEventGroupSetBits` call other than for the connected flag, so the failure
flag stays as it was. -/
theorem wifi_retry_forever (cfg : Config) (h : cfg.WIFI_MAX_RETRY = 0) :
    (∀ g : Globals,
      wifi_event_handler cfg .WIFI_EVENT WIFI_EVENT_STA_DISCONNECTED g =
        ({ g with s_retry_count := wrapInt32 (g.s_retry_count + 1) },
          [.esp_wifi_connect,
           .log .W "Wi-Fi disconnected, retrying... (%d)"
             [.int (wrapInt32 (g.s_retry_count + 1))]])) ∧
    (∀ (g : Globals) (evs : List WifiEvent),
      (∀ b, Call.xEventGroupSetBits b ∈ (deliver cfg g evs).2 → b = WIFI_CONNECTED_BIT) ∧
      (deliver cfg g evs).1.s_wifi_event_group &&& WIFI_FAIL_BIT =
        g.s_wifi_event_group &&& WIFI_FAIL_BIT) := by
  refine ⟨fun g => handler_disconnect_retry cfg g (Or.inl h), ?_⟩
  intro g evs
  induction evs generalizing g with
  | nil => simp [deliver_nil]
  | cons e es ih =>
    have hh := handler_calls_no_budget cfg h e g
    have hi := ih (wifi_event_handler cfg e.event_base e.event_id g).1
    rw [deliver_cons]
    refine ⟨?_, ?_⟩
    · intro b hb
      rcases List.mem_append.1 hb with hb | hb
      · exact hh.1 b hb
      · exact hi.1 b hb
    · exact hi.2.trans hh.2

/-- Witness for C2: the shipped configuration has `WIFI_MAX_RETRY = 0`. -/
theorem wifi_retry_forever_witness :
    Config.shipped.WIFI_MAX_RETRY = 0 ∧
    (∀ g : Globals,
      wifi_event_handler Config.shipped .WIFI_EVENT WIFI_EVENT_STA_DISCONNECTED g =
        ({ g with s_retry_count := wrapInt32 (g.s_retry_count + 1) },
          [.esp_wifi_connect,
           .log .W "Wi-Fi disconnected, retrying... (%d)"
             [.int (wrapInt32 (g.s_retry_count + 1))]])) :=
  ⟨rfl, (wifi_retry_forever Config.shipped rfl).1⟩

/-! ## Waiting for the connection flags -/

/-- The calls the Wi-Fi event handler can make. -/
theorem handler_calls (cfg : Config) (b : EventBase) (i : Int) (g : Globals) :
    ∀ c ∈ (wifi_event_handler cfg b i g).2,
      c = .esp_wifi_connect ∨ (∃ x, c = .xEventGroupSetBits x) ∨ ∃ l f a, c = .log l f a := by
  unfold wifi_event_handler
  split_ifs <;> simp

/-- The calls made while the main task waits are calls of the handler. -/
theorem waitBits_calls (cfg : Config) (mask : Nat) (evs : List WifiEvent) :
    ∀ (g : Globals), ∀ c ∈ (waitBits cfg mask g evs).1,
      c = .esp_wifi_connect ∨ (∃ x, c = .xEventGroupSetBits x) ∨ ∃ l f a, c = .log l f a := by
  induction evs with
  | nil => intro g c hc; unfold waitBits at hc; split_ifs at hc <;> simp at hc
  | cons e es ih =>
    intro g c hc
    unfold waitBits at hc
    split_ifs at hc
    · simp at hc
    · rcases List.mem_append.1 hc with h | h
      · exact handler_calls cfg _ _ g c h
      · exact ih _ c h

/-- The wait returns only bits of which one is in the mask. -/
theorem waitBits_some (cfg : Config) (mask : Nat) (evs : List WifiEvent) :
    ∀ (g : Globals) (bits : Nat), (waitBits cfg mask g evs).2.1 = some bits →
      bits &&& mask ≠ 0 := by
  induction evs with
  | nil =>
    intro g bits h; unfold waitBits at h
    split_ifs at h with h1
    simp only [Option.some.injEq] at h; subst h; exact h1
  | cons e es ih =>
    intro g bits h
    unfold waitBits at h
    split_ifs at h with h1
    · simp only [Option.some.injEq] at h; subst h; exact h1
    · exact ih _ bits h

theorem waitBits_no_restart (cfg : Config) (mask : Nat) (g : Globals) (evs : List WifiEvent) :
    Call.esp_restart ∉ (waitBits cfg mask g evs).1 := by
  intro h
  rcases waitBits_calls cfg mask evs g _ h with h | ⟨x, h⟩ | ⟨l, f, a, h⟩ <;> cases h

@[simp] theorem xEventGroupCreate_bind_apply {β : Type} (f : Unit → Run β) (w : World) :
    (xEventGroupCreate >>= f) w =
      (f () { w with globals := { w.globals with s_wifi_event_group := 0 } }).prepend
        [.xEventGroupCreate] :=
  seq_returned _ f w _ [.xEventGroupCreate] () rfl

/-- The set-up part of `init_wifi` when every driver call succeeds. -/
theorem init_wifi_setup_ok (cfg : Config) (env : Env) (w : World)
    (h : env.esp_wifi_init = ESP_OK ∧ env.register_any_wifi_event = ESP_OK ∧
      env.register_got_ip_event = ESP_OK ∧ env.esp_wifi_set_mode = ESP_OK ∧
      env.esp_wifi_set_config = ESP_OK ∧ env.esp_wifi_start = ESP_OK) :
    init_wifi_setup cfg env w =
      ⟨[.xEventGroupCreate, .esp_netif_create_default_wifi_sta, .esp_wifi_init,
        .esp_event_handler_instance_register .WIFI_EVENT ESP_EVENT_ANY_ID,
        .esp_event_handler_instance_register .IP_EVENT IP_EVENT_STA_GOT_IP,
        .esp_wifi_set_mode, .esp_wifi_set_config cfg.WIFI_SSID cfg.WIFI_PASSWORD,
        .esp_wifi_start,
        .log .I "Connecting to Wi-Fi SSID: %s ..." [.str cfg.WIFI_SSID]],
       .returned env.wifi_netif,
       { w with globals := { w.globals with s_wifi_event_group := 0 } }⟩ := by
  obtain ⟨h1, h2, h3, h4, h5, h6⟩ := h
  unfold init_wifi_setup
  simp [h1, h2, h3, h4, h5, h6]

/-- The part of `init_wifi` after the wait, case by case. -/
theorem init_wifi_finish_eval (bits netif : Nat) (w : World) :
    init_wifi_finish bits netif w =
      if bits &&& WIFI_CONNECTED_BIT ≠ 0 then
        ⟨[.log .I "Wi-Fi connected successfully" []], .returned netif, w⟩
      else if bits &&& WIFI_FAIL_BIT ≠ 0 then
        ⟨[.log .E "Wi-Fi connection failed — rebooting in 5 s" [], .vTaskDelay 5000,
          .esp_restart], .restarted, w⟩
      else ⟨[], .returned netif, w⟩ := by
  unfold init_wifi_finish
  by_cases h1 : bits &&& WIFI_CONNECTED_BIT = 0
  · by_cases h2 : bits &&& WIFI_FAIL_BIT = 0 <;> simp [h1, h2]
  · simp [h1]

/-- The calls of `init_wifi` up to and including the call of the wait. -/
theorem init_wifi_eval (cfg : Config) (env : Env) (w : World)
    (h : env.esp_wifi_init = ESP_OK ∧ env.register_any_wifi_event = ESP_OK ∧
      env.register_got_ip_event = ESP_OK ∧ env.esp_wifi_set_mode = ESP_OK ∧
      env.esp_wifi_set_config = ESP_OK ∧ env.esp_wifi_start = ESP_OK) :
    init_wifi cfg env w =
      match (waitBits cfg (WIFI_CONNECTED_BIT ||| WIFI_FAIL_BIT)
          { w.globals with s_wifi_event_group := 0 } w.pending) with
      | (t, none, w2) =>
        ⟨[.xEventGroupCreate, .esp_netif_create_default_wifi_sta, .esp_wifi_init,
          .esp_event_handler_instance_register .WIFI_EVENT ESP_EVENT_ANY_ID,
          .esp_event_handler_instance_register .IP_EVENT IP_EVENT_STA_GOT_IP,
          .esp_wifi_set_mode, .esp_wifi_set_config cfg.WIFI_SSID cfg.WIFI_PASSWORD,
          .esp_wifi_start,
          .log .I "Connecting to Wi-Fi SSID: %s ..." [.str cfg.WIFI_SSID],
          .xEventGroupWaitBits (WIFI_CONNECTED_BIT ||| WIFI_FAIL_BIT)] ++ t, .blocked, w2⟩
      | (t, some bits, w2) =>
        (init_wifi_finish bits env.wifi_netif w2).prepend
          ([.xEventGroupCreate, .esp_netif_create_default_wifi_sta, .esp_wifi_init,
            .esp_event_handler_instance_register .WIFI_EVENT ESP_EVENT_ANY_ID,
            .esp_event_handler_instance_register .IP_EVENT IP_EVENT_STA_GOT_IP,
            .esp_wifi_set_mode, .esp_wifi_set_config cfg.WIFI_SSID cfg.WIFI_PASSWORD,
            .esp_wifi_start,
            .log .I "Connecting to Wi-Fi SSID: %s ..." [.str cfg.WIFI_SSID],
            .xEventGroupWaitBits (WIFI_CONNECTED_BIT ||| WIFI_FAIL_BIT)] ++ t) := by
  unfold init_wifi
  rw [seq_returned _ _ w _ _ _ (init_wifi_setup_ok cfg env w h)]
  generalize hW : waitBits cfg (WIFI_CONNECTED_BIT ||| WIFI_FAIL_BIT)
          { w.globals with s_wifi_event_group := 0 } w.pending = W
  obtain ⟨t, ob, w2⟩ := W
  cases ob with
  | none =>
    rw [seq_blocked _ _ _ w2 (.xEventGroupWaitBits (WIFI_CONNECTED_BIT ||| WIFI_FAIL_BIT) :: t)
      (by simp only [xEventGroupWaitBits, hW])]
    simp
  | some bits =>
    rw [seq_returned _ _ _ w2 (.xEventGroupWaitBits (WIFI_CONNECTED_BIT ||| WIFI_FAIL_BIT) :: t)
      bits (by simp only [xEventGroupWaitBits, hW])]
    simp

/-- C4: once the driver is set up, `init_wifi` waits for the two flags: the
wait hands back only bit sets holding at least one of the two flags, and while
no flag is ever set `init_wifi` stays blocked without restarting. If the
connected flag is among the returned bits it returns the Wi-Fi interface
handle and makes no restart; otherwise the failure flag is set and it logs,
delays 5000 ms and then restarts, the restart being its last call. The
restart happens exactly when the failure flag is set and the connected flag is
not, both for the bits the wait returns and for every bit set handed to the
code after the wait. -/
theorem init_wifi_restart_iff (cfg : Config) (env : Env) (w : World)
    (h : env.esp_wifi_init = ESP_OK ∧ env.register_any_wifi_event = ESP_OK ∧
      env.register_got_ip_event = ESP_OK ∧ env.esp_wifi_set_mode = ESP_OK ∧
      env.esp_wifi_set_config = ESP_OK ∧ env.esp_wifi_start = ESP_OK) :
    (∀ bits, (waitBits cfg (WIFI_CONNECTED_BIT ||| WIFI_FAIL_BIT)
        { w.globals with s_wifi_event_group := 0 } w.pending).2.1 = some bits →
      bits &&& (WIFI_CONNECTED_BIT ||| WIFI_FAIL_BIT) ≠ 0 ∧
      (bits &&& WIFI_CONNECTED_BIT ≠ 0 →
        (init_wifi cfg env w).outcome = .returned env.wifi_netif ∧
        Call.esp_restart ∉ (init_wifi cfg env w).trace) ∧
      (bits &&& WIFI_CONNECTED_BIT = 0 →
        bits &&& WIFI_FAIL_BIT ≠ 0 ∧
        (init_wifi cfg env w).outcome = .restarted ∧
        ∃ t, Call.esp_restart ∉ t ∧ (init_wifi cfg env w).trace =
          t ++ [.log .E "Wi-Fi connection failed — rebooting in 5 s" [], .vTaskDelay 5000,
            .esp_restart]) ∧
      (Call.esp_restart ∈ (init_wifi cfg env w).trace ↔
        bits &&& WIFI_FAIL_BIT ≠ 0 ∧ bits &&& WIFI_CONNECTED_BIT = 0)) ∧
    ((waitBits cfg (WIFI_CONNECTED_BIT ||| WIFI_FAIL_BIT)
        { w.globals with s_wifi_event_group := 0 } w.pending).2.1 = none →
      (init_wifi cfg env w).outcome = .blocked ∧
      Call.esp_restart ∉ (init_wifi cfg env w).trace) ∧
    (∀ (bits netif : Nat) (w2 : World),
      (Call.esp_restart ∈ (init_wifi_finish bits netif w2).trace ↔
        bits &&& WIFI_FAIL_BIT ≠ 0 ∧ bits &&& WIFI_CONNECTED_BIT = 0) ∧
      (bits &&& WIFI_CONNECTED_BIT ≠ 0 →
        (init_wifi_finish bits netif w2).outcome = .returned netif)) := by
  have hev := init_wifi_eval cfg env w h
  have hno := waitBits_no_restart cfg (WIFI_CONNECTED_BIT ||| WIFI_FAIL_BIT)
      { w.globals with s_wifi_event_group := 0 } w.pending
  have hsome := waitBits_some cfg (WIFI_CONNECTED_BIT ||| WIFI_FAIL_BIT) w.pending
      { w.globals with s_wifi_event_group := 0 }
  generalize waitBits cfg (WIFI_CONNECTED_BIT ||| WIFI_FAIL_BIT)
          { w.globals with s_wifi_event_group := 0 } w.pending = W at hev hno hsome
  obtain ⟨t, ob, w2⟩ := W
  have hfin : ∀ (bits netif : Nat) (w2 : World),
      (Call.esp_restart ∈ (init_wifi_finish bits netif w2).trace ↔
        bits &&& WIFI_FAIL_BIT ≠ 0 ∧ bits &&& WIFI_CONNECTED_BIT = 0) ∧
      (bits &&& WIFI_CONNECTED_BIT ≠ 0 →
        (init_wifi_finish bits netif w2).outcome = .returned netif) := by
    intro bits netif w2
    rw [init_wifi_finish_eval]
    by_cases h1 : bits &&& WIFI_CONNECTED_BIT = 0
    · by_cases h2 : bits &&& WIFI_FAIL_BIT = 0 <;> simp [h1, h2]
    · simp [h1]
  simp only at hno
  refine ⟨?_, ?_, hfin⟩
  · intro bits hb
    simp only at hb
    subst hb
    simp only at hev
    have hm := hsome bits rfl
    rw [hev, init_wifi_finish_eval]
    refine ⟨hm, ?_, ?_, ?_⟩
    · intro h1
      simp [h1, hno]
    · intro h1
      have h2 : bits &&& WIFI_FAIL_BIT ≠ 0 := by
        intro h2
        apply hm
        rw [Nat.and_or_distrib_left, h1, h2]; rfl
      refine ⟨h2, by simp [h1, h2], ?_⟩
      refine ⟨[.xEventGroupCreate, .esp_netif_create_default_wifi_sta, .esp_wifi_init,
            .esp_event_handler_instance_register .WIFI_EVENT ESP_EVENT_ANY_ID,
            .esp_event_handler_instance_register .IP_EVENT IP_EVENT_STA_GOT_IP,
            .esp_wifi_set_mode, .esp_wifi_set_config cfg.WIFI_SSID cfg.WIFI_PASSWORD,
            .esp_wifi_start,
            .log .I "Connecting to Wi-Fi SSID: %s ..." [.str cfg.WIFI_SSID],
            .xEventGroupWaitBits (WIFI_CONNECTED_BIT ||| WIFI_FAIL_BIT)] ++ t, ?_, ?_⟩
      · simp [hno]
      · simp [h1, h2]
    · by_cases h1 : bits &&& WIFI_CONNECTED_BIT = 0
      · have h2 : bits &&& WIFI_FAIL_BIT ≠ 0 := by
          intro h2
          apply hm
          rw [Nat.and_or_distrib_left, h1, h2]; rfl
        simp [h1, h2]
      · simp [h1, hno]
  · intro hb
    simp only at hb
    subst hb
    simp only at hev
    rw [hev]
    simp [hno]

/-! ## The start-up sequence -/

/-- The set-up part of `init_wifi` when a driver call fails: it aborts, having
made Wi-Fi calls only. -/
theorem init_wifi_setup_fail (cfg : Config) (env : Env) (w : World)
    (h : ¬ (env.esp_wifi_init = ESP_OK ∧ env.register_any_wifi_event = ESP_OK ∧
      env.register_got_ip_event = ESP_OK ∧ env.esp_wifi_set_mode = ESP_OK ∧
      env.esp_wifi_set_config = ESP_OK ∧ env.esp_wifi_start = ESP_OK)) :
    ∃ t w2, init_wifi_setup cfg env w = ⟨t, .aborted, w2⟩ ∧
      ∀ c ∈ t, stepOf c = some .wifi ∨ stepOf c = none := by
  unfold init_wifi_setup
  simp only [xEventGroupCreate_bind_apply, ext_bind_apply, check_bind_apply]
  by_cases h1 : env.esp_wifi_init = ESP_OK
  · by_cases h2 : env.register_any_wifi_event = ESP_OK
    · by_cases h3 : env.register_got_ip_event = ESP_OK
      · by_cases h4 : env.esp_wifi_set_mode = ESP_OK
        · by_cases h5 : env.esp_wifi_set_config = ESP_OK
          · by_cases h6 : env.esp_wifi_start = ESP_OK
            · exact absurd ⟨h1, h2, h3, h4, h5, h6⟩ h
            · simp [h1, h2, h3, h4, h5, h6, stepOf]
          · simp [h1, h2, h3, h4, h5, stepOf]
        · simp [h1, h2, h3, h4, stepOf]
      · simp [h1, h2, h3, stepOf]
    · simp [h1, h2, stepOf]
  · simp [h1, stepOf]

/-- Every call made while waiting belongs to Wi-Fi bring-up or is a log line. -/
theorem waitBits_steps (cfg : Config) (mask : Nat) (g : Globals) (evs : List WifiEvent) :
    ∀ c ∈ (waitBits cfg mask g evs).1, stepOf c = some .wifi ∨ stepOf c = none := by
  intro c hc
  rcases waitBits_calls cfg mask evs g c hc with h | ⟨x, h⟩ | ⟨l, f, a, h⟩ <;>
    subst h <;> simp [stepOf]

/-- How `init_wifi` can end: either the driver set-up succeeded, the wait
returned bits with the connected flag and the function returned the handle
after the calls listed; or it did not return, having made Wi-Fi calls only. -/
theorem init_wifi_cases (cfg : Config) (env : Env) (w : World) :
    (∃ hs bits w2,
      waitBits cfg (WIFI_CONNECTED_BIT ||| WIFI_FAIL_BIT)
        { w.globals with s_wifi_event_group := 0 } w.pending = (hs, some bits, w2) ∧
      bits &&& WIFI_CONNECTED_BIT ≠ 0 ∧
      init_wifi cfg env w =
        ⟨[.xEventGroupCreate, .esp_netif_create_default_wifi_sta, .esp_wifi_init,
          .esp_event_handler_instance_register .WIFI_EVENT ESP_EVENT_ANY_ID,
          .esp_event_handler_instance_register .IP_EVENT IP_EVENT_STA_GOT_IP,
          .esp_wifi_set_mode, .esp_wifi_set_config cfg.WIFI_SSID cfg.WIFI_PASSWORD,
          .esp_wifi_start,
          .log .I "Connecting to Wi-Fi SSID: %s ..." [.str cfg.WIFI_SSID],
          .xEventGroupWaitBits (WIFI_CONNECTED_BIT ||| WIFI_FAIL_BIT)] ++ hs ++
          [.log .I "Wi-Fi connected successfully" []],
         .returned env.wifi_netif, w2⟩) ∨
    (∃ t o w2, init_wifi cfg env w = ⟨t, o, w2⟩ ∧ (∀ a, o ≠ .returned a) ∧
      ∀ c ∈ t, stepOf c = some .wifi ∨ stepOf c = none) := by
  by_cases h : (env.esp_wifi_init = ESP_OK ∧ env.register_any_wifi_event = ESP_OK ∧
      env.register_got_ip_event = ESP_OK ∧ env.esp_wifi_set_mode = ESP_OK ∧
      env.esp_wifi_set_config = ESP_OK ∧ env.esp_wifi_start = ESP_OK)
  · have hev := init_wifi_eval cfg env w h
    have hst := waitBits_steps cfg (WIFI_CONNECTED_BIT ||| WIFI_FAIL_BIT)
      { w.globals with s_wifi_event_group := 0 } w.pending
    have hsome := waitBits_some cfg (WIFI_CONNECTED_BIT ||| WIFI_FAIL_BIT) w.pending
      { w.globals with s_wifi_event_group := 0 }
    generalize waitBits cfg (WIFI_CONNECTED_BIT ||| WIFI_FAIL_BIT)
          { w.globals with s_wifi_event_group := 0 } w.pending = W at hev hst hsome
    obtain ⟨t, ob, w2⟩ := W
    simp only at hst
    cases ob with
    | none =>
      right
      simp only at hev
      refine ⟨_, _, _, hev, by simp, ?_⟩
      intro c hc
      rcases List.mem_append.1 hc with hc | hc
      · simp only [List.mem_cons, List.mem_singleton, List.not_mem_nil, or_false] at hc
        rcases hc with rfl | rfl | rfl | rfl | rfl | rfl | rfl | rfl | rfl | rfl <;>
          simp [stepOf]
      · exact hst c hc
    | some bits =>
      have hm := hsome bits rfl
      simp only at hev
      rw [init_wifi_finish_eval] at hev
      by_cases h1 : bits &&& WIFI_CONNECTED_BIT = 0
      · have h2 : bits &&& WIFI_FAIL_BIT ≠ 0 := by
          intro h2
          apply hm
          rw [Nat.and_or_distrib_left, h1, h2]; rfl
        right
        simp only [h1, ne_eq, not_true_eq_false, if_false, h2, not_false_eq_true, if_true,
          prepend_mk] at hev
        refine ⟨_, _, _, hev, by simp, ?_⟩
        intro c hc
        rcases List.mem_append.1 hc with hc | hc
        · rcases List.mem_append.1 hc with hc | hc
          · simp only [List.mem_cons, List.mem_singleton, List.not_mem_nil, or_false] at hc
            rcases hc with rfl | rfl | rfl | rfl | rfl | rfl | rfl | rfl | rfl | rfl <;>
              simp [stepOf]
          · exact hst c hc
        · simp only [List.mem_cons, List.mem_singleton, List.not_mem_nil, or_false] at hc
          rcases hc with rfl | rfl | rfl <;> simp [stepOf]
      · left
        simp only [ne_eq, h1, not_false_eq_true, if_true, prepend_mk] at hev
        exact ⟨t, bits, w2, rfl, h1, hev⟩
  · right
    obtain ⟨t, w2, hs, hc⟩ := init_wifi_setup_fail cfg env w h
    refine ⟨t, .aborted, w2, ?_, by simp, hc⟩
    unfold init_wifi
    exact seq_aborted _ _ w w2 t hs

/-- How `init_mdns` can end: every call succeeded and it returned after the
four calls listed, or it aborted, having made mDNS calls only. -/
theorem init_mdns_cases (cfg : Config) (env : Env) (w : World) :
    (init_mdns cfg env w =
        ⟨[.mdns_init, .mdns_hostname_set cfg.DEVICE_NAME,
          .mdns_instance_name_set cfg.DEVICE_NAME,
          .mdns_service_add cfg.DEVICE_NAME "_meshcop" "_udp" 49191
            [("rv", "1"), ("dd", cfg.DEVICE_NAME), ("vn", "Espressif"),
             ("mn", "ESP32-C6 OTBR")] 4,
          .log .I "mDNS started: %s._meshcop._udp.local" [.str cfg.DEVICE_NAME]],
         .returned (), w⟩) ∨
    (∃ t, init_mdns cfg env w = ⟨t, .aborted, w⟩ ∧
      ∀ c ∈ t, stepOf c = some .mdns ∨ stepOf c = none) := by
  unfold init_mdns
  simp only [ext_bind_apply, check_bind_apply, MDNS_INSTANCE_NAME, meshcop_txt]
  by_cases h1 : env.mdns_init = ESP_OK
  · by_cases h2 : env.mdns_hostname_set = ESP_OK
    · by_cases h3 : env.mdns_instance_name_set = ESP_OK
      · by_cases h4 : env.mdns_service_add = ESP_OK
        · left; simp [h1, h2, h3, h4]
        · right; simp [h1, h2, h3, h4, stepOf]
      · right; simp [h1, h2, h3, stepOf]
    · right; simp [h1, h2, stepOf]
  · right; simp [h1, stepOf]

/-- The storage block of `app_main`, case by case. -/
theorem app_main_nvs_eval (env : Env) (w : World) :
    app_main_nvs env w =
      if env.nvs_flash_init_1 = ESP_ERR_NVS_NO_FREE_PAGES ∨
          env.nvs_flash_init_1 = ESP_ERR_NVS_NEW_VERSION_FOUND then
        if env.nvs_flash_erase ≠ ESP_OK then
          ⟨[.nvs_flash_init, .nvs_flash_erase, .abort], .aborted, w⟩
        else if env.nvs_flash_init_2 ≠ ESP_OK then
          ⟨[.nvs_flash_init, .nvs_flash_erase, .nvs_flash_init, .abort], .aborted, w⟩
        else ⟨[.nvs_flash_init, .nvs_flash_erase, .nvs_flash_init], .returned (), w⟩
      else if env.nvs_flash_init_1 ≠ ESP_OK then
        ⟨[.nvs_flash_init, .abort], .aborted, w⟩
      else ⟨[.nvs_flash_init], .returned (), w⟩ := by
  unfold app_main_nvs
  simp only [ext_bind_apply]
  by_cases h1 : env.nvs_flash_init_1 = ESP_ERR_NVS_NO_FREE_PAGES ∨
          env.nvs_flash_init_1 = ESP_ERR_NVS_NEW_VERSION_FOUND
  · simp only [h1, if_true]
    by_cases h2 : env.nvs_flash_erase = ESP_OK
    · by_cases h3 : env.nvs_flash_init_2 = ESP_OK <;> simp [h2, h3, bind_assoc]
    · simp [h2]
  · simp only [h1, if_false]
    by_cases h3 : env.nvs_flash_init_1 = ESP_OK <;> simp [h3]

/-- The storage block either returns or aborts, and leaves the shared state alone. -/
theorem app_main_nvs_cases (env : Env) (w : World) :
    (∃ t, app_main_nvs env w = ⟨t, .returned (), w⟩) ∨
    (∃ t, app_main_nvs env w = ⟨t, .aborted, w⟩) := by
  rw [app_main_nvs_eval]
  split_ifs
  · exact Or.inr ⟨_, rfl⟩
  · exact Or.inr ⟨_, rfl⟩
  · exact Or.inl ⟨_, rfl⟩
  · exact Or.inr ⟨_, rfl⟩
  · exact Or.inl ⟨_, rfl⟩

/-- A part that does not return ends the whole sequence. -/
theorem seq_not_returned {α β : Type} (m : Run α) (f : α → Run β) (w w2 : World)
    (t : List Call) (o : Outcome α) (h : m w = ⟨t, o, w2⟩) (ho : ∀ a, o ≠ .returned a) :
    ∃ o2 : Outcome β, (m >>= f) w = ⟨t, o2, w2⟩ ∧ ∀ b, o2 ≠ .returned b := by
  cases o with
  | returned a => exact absurd rfl (ho a)
  | aborted => exact ⟨.aborted, seq_aborted m f w w2 t h, by simp⟩
  | restarted => exact ⟨.restarted, seq_restarted m f w w2 t h, by simp⟩
  | blocked => exact ⟨.blocked, seq_blocked m f w w2 t h, by simp⟩

/-- The shape of every run of `app_main`: the banner, the calls of the storage
block, and a tail without storage calls. The tail is empty and the run aborted
if the storage block did not return. Either the run did not return and the
tail holds no task creation, or it returned and the tail is the sequence
listed, the wait having returned bits with the connected flag. -/
theorem app_main_cases (cfg : Config) (env : Env) (w : World) :
    ∃ tail o w2,
      app_main cfg env w =
        ⟨[.log .I "========================================" [],
          .log .I "  ESP32-C6 OpenThread Border Router" [],
          .log .I "  Device: %s" [.str cfg.DEVICE_NAME],
          .log .I "========================================" []] ++
          (app_main_nvs env w).trace ++ tail, o, w2⟩ ∧
      (∀ c ∈ tail, stepOf c ≠ some .storage) ∧
      ((app_main_nvs env w).outcome ≠ .returned () → tail = [] ∧ o = .aborted) ∧
      ((o ≠ .returned () ∧ ∀ c ∈ tail, stepOf c ≠ some .meshtask) ∨
       (o = .returned () ∧ (app_main_nvs env w).outcome = .returned () ∧
        ∃ hs bits,
          waitBits cfg (WIFI_CONNECTED_BIT ||| WIFI_FAIL_BIT)
            { w.globals with s_wifi_event_group := 0 } w.pending = (hs, some bits, w2) ∧
          bits &&& WIFI_CONNECTED_BIT ≠ 0 ∧
          tail =
            [.esp_vfs_eventfd_register 4, .esp_netif_init, .esp_event_loop_create_default,
             .xEventGroupCreate, .esp_netif_create_default_wifi_sta, .esp_wifi_init,
             .esp_event_handler_instance_register .WIFI_EVENT ESP_EVENT_ANY_ID,
             .esp_event_handler_instance_register .IP_EVENT IP_EVENT_STA_GOT_IP,
             .esp_wifi_set_mode, .esp_wifi_set_config cfg.WIFI_SSID cfg.WIFI_PASSWORD,
             .esp_wifi_start,
             .log .I "Connecting to Wi-Fi SSID: %s ..." [.str cfg.WIFI_SSID],
             .xEventGroupWaitBits (WIFI_CONNECTED_BIT ||| WIFI_FAIL_BIT)] ++ hs ++
            [.log .I "Wi-Fi connected successfully" [],
             .mdns_init, .mdns_hostname_set cfg.DEVICE_NAME,
             .mdns_instance_name_set cfg.DEVICE_NAME,
             .mdns_service_add cfg.DEVICE_NAME "_meshcop" "_udp" 49191
               [("rv", "1"), ("dd", cfg.DEVICE_NAME), ("vn", "Espressif"),
                ("mn", "ESP32-C6 OTBR")] 4,
             .log .I "mDNS started: %s._meshcop._udp.local" [.str cfg.DEVICE_NAME],
             .xTaskCreate "ot_main" 20480 env.wifi_netif 5,
             .log .I "OTBR startup complete — %s is online" [.str cfg.DEVICE_NAME]])) := by
  unfold app_main
  simp only [logLine_bind_apply, prepend_prepend]
  rcases app_main_nvs_cases env w with ⟨tn, hn⟩ | ⟨tn, hn⟩
  · rw [seq_returned _ _ w w tn () hn, hn]
    simp only [ext_bind_apply, check_bind_apply, call_bind_apply, prepend_prepend]
    by_cases h1 : env.esp_vfs_eventfd_register = ESP_OK
    · by_cases h2 : env.esp_netif_init = ESP_OK
      · by_cases h3 : env.esp_event_loop_create_default = ESP_OK
        · simp only [h1, h2, h3, if_true, prepend_prepend]
          rcases init_wifi_cases cfg env w with ⟨hs, bits, w2, hW, hb, hi⟩ | ⟨t, o, w2, hi, ho, hcw⟩
          · rw [seq_returned _ _ w w2 _ _ hi]
            rcases init_mdns_cases cfg env w2 with hm | ⟨t, hm, hmc⟩
            · rw [seq_returned _ _ w2 w2 _ _ hm]
              refine ⟨_, .returned (), w2, ?_, ?_, by simp, Or.inr ⟨rfl, by simp, hs, bits, hW, hb, rfl⟩⟩
              · simp
              · have hst := waitBits_steps cfg (WIFI_CONNECTED_BIT ||| WIFI_FAIL_BIT)
                  { w.globals with s_wifi_event_group := 0 } w.pending
                rw [hW] at hst
                intro c hc
                simp only [List.mem_append, List.mem_cons, List.mem_singleton,
                  List.not_mem_nil, or_false] at hc
                rcases hc with (hc | hc) | hc
                · rcases hc with rfl | rfl | rfl | rfl | rfl | rfl | rfl | rfl | rfl | rfl |
                    rfl | rfl | rfl <;> simp [stepOf]
                · rcases hst c hc with h | h <;> simp [h]
                · rcases hc with rfl | rfl | rfl | rfl | rfl | rfl | rfl | rfl <;>
                    simp [stepOf]
            · rw [seq_aborted _ _ w2 w2 t hm]
              have hst := waitBits_steps cfg (WIFI_CONNECTED_BIT ||| WIFI_FAIL_BIT)
                  { w.globals with s_wifi_event_group := 0 } w.pending
              rw [hW] at hst
              have hall : ∀ c ∈ [Call.esp_vfs_eventfd_register 4, .esp_netif_init,
                    .esp_event_loop_create_default,
                    .xEventGroupCreate, .esp_netif_create_default_wifi_sta, .esp_wifi_init,
                    .esp_event_handler_instance_register .WIFI_EVENT ESP_EVENT_ANY_ID,
                    .esp_event_handler_instance_register .IP_EVENT IP_EVENT_STA_GOT_IP,
                    .esp_wifi_set_mode, .esp_wifi_set_config cfg.WIFI_SSID cfg.WIFI_PASSWORD,
                    .esp_wifi_start,
                    .log .I "Connecting to Wi-Fi SSID: %s ..." [.str cfg.WIFI_SSID],
                    .xEventGroupWaitBits (WIFI_CONNECTED_BIT ||| WIFI_FAIL_BIT)] ++ hs ++
                    [.log .I "Wi-Fi connected successfully" []] ++ t,
                  stepOf c ≠ some .storage ∧ stepOf c ≠ some .meshtask := by
                intro c hc
                simp only [List.mem_append, List.mem_cons, List.mem_singleton,
                  List.not_mem_nil, or_false] at hc
                rcases hc with ((hc | hc) | hc) | hc
                · rcases hc with rfl | rfl | rfl | rfl | rfl | rfl | rfl | rfl | rfl | rfl |
                    rfl | rfl | rfl <;> simp [stepOf]
                · rcases hst c hc with h | h <;> simp [h]
                · subst hc; simp [stepOf]
                · rcases hmc c hc with h | h <;> simp [h]
              refine ⟨_, .aborted, w2, ?_, fun c hc => (hall c hc).1, by simp,
                Or.inl ⟨by simp, fun c hc => (hall c hc).2⟩⟩
              simp
          · obtain ⟨o2, hs2, ho2⟩ := seq_not_returned (init_wifi cfg env)
              (fun wifi_netif => init_mdns cfg env >>= fun _ =>
                call (.xTaskCreate "ot_main" 20480 wifi_netif 5) >>= fun _ =>
                logLine .I "OTBR startup complete — %s is online" [.str cfg.DEVICE_NAME])
              w w2 t o hi ho
            have hall : ∀ c ∈ [Call.esp_vfs_eventfd_register 4, .esp_netif_init,
                    .esp_event_loop_create_default] ++ t,
                  stepOf c ≠ some .storage ∧ stepOf c ≠ some .meshtask := by
              intro c hc
              simp only [List.mem_append, List.mem_cons, List.mem_singleton,
                List.not_mem_nil, or_false] at hc
              rcases hc with hc | hc
              · rcases hc with rfl | rfl | rfl <;> simp [stepOf]
              · rcases hcw c hc with h | h <;> simp [h]
            refine ⟨_, o2, w2, ?_, fun c hc => (hall c hc).1, by simp,
              Or.inl ⟨ho2 (), fun c hc => (hall c hc).2⟩⟩
            rw [hs2]; simp
        · refine ⟨[.esp_vfs_eventfd_register 4, .esp_netif_init,
            .esp_event_loop_create_default, .abort], .aborted, w, ?_, ?_, by simp,
            Or.inl ⟨by simp, ?_⟩⟩ <;> simp [h1, h2, h3, stepOf]
      · refine ⟨[.esp_vfs_eventfd_register 4, .esp_netif_init, .abort], .aborted, w, ?_, ?_,
          by simp, Or.inl ⟨by simp, ?_⟩⟩ <;> simp [h1, h2, stepOf]
    · refine ⟨[.esp_vfs_eventfd_register 4, .abort], .aborted, w, ?_, ?_,
        by simp, Or.inl ⟨by simp, ?_⟩⟩ <;> simp [h1, stepOf]
  · rw [seq_aborted _ _ w w tn hn, hn]
    exact ⟨[], .aborted, w, by simp, by simp, by simp, Or.inl ⟨by simp, by simp⟩⟩

theorem or_fail_and_connected (x : Nat) :
    (x ||| WIFI_FAIL_BIT) &&& WIFI_CONNECTED_BIT = x &&& WIFI_CONNECTED_BIT := by
  unfold WIFI_CONNECTED_BIT WIFI_FAIL_BIT
  rw [Nat.and_distrib_right]
  simp

/-- The connected flag appears in the group only through a call of the handler. -/
theorem handler_connected_bit (cfg : Config) (b : EventBase) (i : Int) (g : Globals)
    (h : (wifi_event_handler cfg b i g).1.s_wifi_event_group &&& WIFI_CONNECTED_BIT ≠ 0) :
    g.s_wifi_event_group &&& WIFI_CONNECTED_BIT ≠ 0 ∨
      Call.xEventGroupSetBits WIFI_CONNECTED_BIT ∈ (wifi_event_handler cfg b i g).2 := by
  unfold wifi_event_handler at h ⊢
  split_ifs at h ⊢
  · exact Or.inl h
  · exact Or.inl h
  · rw [or_fail_and_connected] at h; exact Or.inl h
  · right; simp
  · exact Or.inl h

/-- If the wait returns the connected flag, the flag was set before the wait
or the handler set it during the wait. -/
theorem waitBits_connected (cfg : Config) (mask : Nat) (evs : List WifiEvent) :
    ∀ (g : Globals) (bits : Nat), (waitBits cfg mask g evs).2.1 = some bits →
      bits &&& WIFI_CONNECTED_BIT ≠ 0 →
      g.s_wifi_event_group &&& WIFI_CONNECTED_BIT ≠ 0 ∨
        Call.xEventGroupSetBits WIFI_CONNECTED_BIT ∈ (waitBits cfg mask g evs).1 := by
  induction evs with
  | nil =>
    intro g bits h hb; unfold waitBits at h
    split_ifs at h with h1
    simp only [Option.some.injEq] at h; subst h; exact Or.inl hb
  | cons e es ih =>
    intro g bits h hb
    unfold waitBits at h ⊢
    split_ifs at h ⊢ with h1
    · simp only [Option.some.injEq] at h; subst h; exact Or.inl hb
    · rcases ih _ bits h hb with h2 | h2
      · rcases handler_connected_bit cfg _ _ g h2 with h3 | h3
        · exact Or.inl h3
        · exact Or.inr (List.mem_append_left _ h3)
      · exact Or.inr (List.mem_append_right _ h2)

/-- The steps of a list of calls that are all Wi-Fi calls or log lines. -/
theorem filterMap_stepOf_wifi (l : List Call)
    (h : ∀ c ∈ l, stepOf c = some .wifi ∨ stepOf c = none) :
    l.filterMap stepOf = List.replicate (l.filterMap stepOf).length .wifi := by
  rw [List.eq_replicate_iff]
  refine ⟨rfl, ?_⟩
  intro s hs
  obtain ⟨c, hc, hcs⟩ := List.mem_filterMap.1 hs
  rcases h c hc with h1 | h1
  · rw [h1] at hcs; exact (Option.some.inj hcs).symm
  · rw [h1] at hcs; cases hcs

/-- Counterexample for C9 as stated: storage reports no free pages and the
erase fails; `app_main` has erased but does not initialise again, although the
first `nvs_flash_init` returned the no-free-pages code. -/
theorem app_main_erase_retry_counterexample :
    ¬ (((app_main Config.shipped envEraseFails (World.boot [])).trace.count
          .nvs_flash_erase = 1 ∧
        (app_main Config.shipped envEraseFails (World.boot [])).trace.count
          .nvs_flash_init = 2) ↔
      (envEraseFails.nvs_flash_init_1 = ESP_ERR_NVS_NO_FREE_PAGES ∨
        envEraseFails.nvs_flash_init_1 = ESP_ERR_NVS_NEW_VERSION_FOUND)) := by
  decide

/-- C9 (amended): `app_main` calls `nvs_flash_erase` exactly once if the first
`nvs_flash_init` returns the no-free-pages or the new-version-found code and
never otherwise; it calls `nvs_flash_init` a second time exactly when, in
addition, that erase succeeded, and then exactly once more. A call of any
later start-up step is made only if the final initialisation result, and the
erase when performed, is success; otherwise `app_main` ends in `abort` right
after the storage calls. -/
theorem app_main_storage_gate (cfg : Config) (env : Env) (w : World) :
    ((app_main cfg env w).trace.count .nvs_flash_erase =
      if env.nvs_flash_init_1 = ESP_ERR_NVS_NO_FREE_PAGES ∨
        env.nvs_flash_init_1 = ESP_ERR_NVS_NEW_VERSION_FOUND then 1 else 0) ∧
    ((app_main cfg env w).trace.count .nvs_flash_init =
      if (env.nvs_flash_init_1 = ESP_ERR_NVS_NO_FREE_PAGES ∨
        env.nvs_flash_init_1 = ESP_ERR_NVS_NEW_VERSION_FOUND) ∧
        env.nvs_flash_erase = ESP_OK then 2 else 1) ∧
    ((∃ c ∈ (app_main cfg env w).trace, ∃ s, stepOf c = some s ∧ s ≠ .storage) →
      if env.nvs_flash_init_1 = ESP_ERR_NVS_NO_FREE_PAGES ∨
        env.nvs_flash_init_1 = ESP_ERR_NVS_NEW_VERSION_FOUND then
        env.nvs_flash_erase = ESP_OK ∧ env.nvs_flash_init_2 = ESP_OK
      else env.nvs_flash_init_1 = ESP_OK) ∧
    (¬ (if env.nvs_flash_init_1 = ESP_ERR_NVS_NO_FREE_PAGES ∨
        env.nvs_flash_init_1 = ESP_ERR_NVS_NEW_VERSION_FOUND then
        env.nvs_flash_erase = ESP_OK ∧ env.nvs_flash_init_2 = ESP_OK
      else env.nvs_flash_init_1 = ESP_OK) →
      (app_main cfg env w).outcome = .aborted ∧
      (app_main cfg env w).trace.getLast? = some .abort) := by
  obtain ⟨tail, o, w2, heq, hst, hfail, _⟩ := app_main_cases cfg env w
  have hne : Call.nvs_flash_erase ∉ tail := fun h => hst _ h rfl
  have hni : Call.nvs_flash_init ∉ tail := fun h => hst _ h rfl
  have hce := List.count_eq_zero.2 hne
  have hci := List.count_eq_zero.2 hni
  rw [heq]
  rw [app_main_nvs_eval] at heq hfail ⊢
  by_cases h1 : env.nvs_flash_init_1 = ESP_ERR_NVS_NO_FREE_PAGES ∨
          env.nvs_flash_init_1 = ESP_ERR_NVS_NEW_VERSION_FOUND
  · by_cases h2 : env.nvs_flash_erase = ESP_OK
    · by_cases h3 : env.nvs_flash_init_2 = ESP_OK
      · simp [h1, h2, h3, List.count_cons, hce, hci]
      · simp only [h1, h2, h3, if_true, if_false, ne_eq, not_true_eq_false,
          not_false_eq_true] at hfail ⊢
        obtain ⟨rfl, rfl⟩ := hfail (by simp)
        simp [List.count_cons, stepOf]
    · simp only [h1, h2, if_true, if_false, ne_eq, not_true_eq_false,
          not_false_eq_true] at hfail ⊢
      obtain ⟨rfl, rfl⟩ := hfail (by simp)
      simp [List.count_cons, stepOf]
  · by_cases h3 : env.nvs_flash_init_1 = ESP_OK
    · simp only [h1, if_false, false_and]
      simp [h3, List.count_cons, hce, hci]
    · simp only [h1, h3, if_true, if_false, ne_eq, not_true_eq_false,
          not_false_eq_true] at hfail ⊢
      obtain ⟨rfl, rfl⟩ := hfail (by simp)
      simp [List.count_cons, stepOf]

/-- C10: the mesh task is created only in a run of `app_main` that returns,
which is a run in which every step succeeded. In such a run the wait of
`init_wifi` returned bits holding the connected flag, set by the event handler
during the wait; the calls are exactly the banner, the storage calls, event-fd
registration, network-interface init, default event loop creation, the Wi-Fi
bring-up with the handler's calls `hs`, the four discovery-service calls and
then the task creation; and the start-up steps of the calls, in order, are
storage, event-fd, netif, event loop, Wi-Fi, mDNS, mesh task. -/
theorem app_main_startup_order (cfg : Config) (env : Env) (events : List WifiEvent) :
    ((∃ name stack arg prio,
        Call.xTaskCreate name stack arg prio ∈
          (app_main cfg env (World.boot events)).trace) →
      (app_main cfg env (World.boot events)).outcome = .returned ()) ∧
    ((app_main cfg env (World.boot events)).outcome = .returned () →
      ∃ hs bits pending,
        waitBits cfg (WIFI_CONNECTED_BIT ||| WIFI_FAIL_BIT) ⟨0, 0⟩ events =
          (hs, some bits, pending) ∧
        bits &&& WIFI_CONNECTED_BIT ≠ 0 ∧
        Call.xEventGroupSetBits WIFI_CONNECTED_BIT ∈ hs ∧
        (app_main cfg env (World.boot events)).trace =
          [.log .I "========================================" [],
           .log .I "  ESP32-C6 OpenThread Border Router" [],
           .log .I "  Device: %s" [.str cfg.DEVICE_NAME],
           .log .I "========================================" []] ++
          (if env.nvs_flash_init_1 = ESP_ERR_NVS_NO_FREE_PAGES ∨
              env.nvs_flash_init_1 = ESP_ERR_NVS_NEW_VERSION_FOUND then
            [.nvs_flash_init, .nvs_flash_erase, .nvs_flash_init] else [.nvs_flash_init]) ++
          [.esp_vfs_eventfd_register 4, .esp_netif_init, .esp_event_loop_create_default,
           .xEventGroupCreate, .esp_netif_create_default_wifi_sta, .esp_wifi_init,
           .esp_event_handler_instance_register .WIFI_EVENT ESP_EVENT_ANY_ID,
           .esp_event_handler_instance_register .IP_EVENT IP_EVENT_STA_GOT_IP,
           .esp_wifi_set_mode, .esp_wifi_set_config cfg.WIFI_SSID cfg.WIFI_PASSWORD,
           .esp_wifi_start,
           .log .I "Connecting to Wi-Fi SSID: %s ..." [.str cfg.WIFI_SSID],
           .xEventGroupWaitBits (WIFI_CONNECTED_BIT ||| WIFI_FAIL_BIT)] ++ hs ++
          [.log .I "Wi-Fi connected successfully" [],
           .mdns_init, .mdns_hostname_set cfg.DEVICE_NAME,
           .mdns_instance_name_set cfg.DEVICE_NAME,
           .mdns_service_add cfg.DEVICE_NAME "_meshcop" "_udp" 49191
             [("rv", "1"), ("dd", cfg.DEVICE_NAME), ("vn", "Espressif"),
              ("mn", "ESP32-C6 OTBR")] 4,
           .log .I "mDNS started: %s._meshcop._udp.local" [.str cfg.DEVICE_NAME],
           .xTaskCreate "ot_main" 20480 env.wifi_netif 5,
           .log .I "OTBR startup complete — %s is online" [.str cfg.DEVICE_NAME]] ∧
        (app_main cfg env (World.boot events)).trace.filterMap stepOf =
          (if env.nvs_flash_init_1 = ESP_ERR_NVS_NO_FREE_PAGES ∨
              env.nvs_flash_init_1 = ESP_ERR_NVS_NEW_VERSION_FOUND then
            [.storage, .storage, .storage] else [.storage]) ++
          [.eventfd, .netif, .eventloop] ++
          List.replicate (9 + (hs.filterMap stepOf).length) .wifi ++
          [.mdns, .mdns, .mdns, .mdns, .meshtask]) := by
  obtain ⟨tail, o, w2, heq, hst, hfail, hcase⟩ := app_main_cases cfg env (World.boot events)
  have hnvs := app_main_nvs_eval env (World.boot events)
  constructor
  · rintro ⟨name, stack, arg, prio, hmem⟩
    rw [heq] at hmem ⊢
    rcases hcase with ⟨hno, hnt⟩ | ⟨ho, _⟩
    · exfalso
      simp only [List.mem_append, List.mem_cons, List.mem_singleton, List.not_mem_nil,
        or_false] at hmem
      rcases hmem with (hmem | hmem) | hmem
      · rcases hmem with h | h | h | h <;> cases h
      · rw [hnvs] at hmem
        split_ifs at hmem <;> simp at hmem
      · exact hnt _ hmem rfl
    · exact ho
  · intro hret
    rw [heq] at hret ⊢
    simp only at hret
    rcases hcase with ⟨hno, _⟩ | ⟨_, hn, hs, bits, hW, hb, htail⟩
    · exact absurd hret hno
    · have hW2 : waitBits cfg (WIFI_CONNECTED_BIT ||| WIFI_FAIL_BIT) ⟨0, 0⟩ events =
          (hs, some bits, w2) := hW
      have hset : Call.xEventGroupSetBits WIFI_CONNECTED_BIT ∈ hs := by
        have := waitBits_connected cfg (WIFI_CONNECTED_BIT ||| WIFI_FAIL_BIT) events ⟨0, 0⟩
          bits (by rw [hW2]) hb
        rw [hW2] at this
        rcases this with h | h
        · exact absurd (Nat.zero_and _) h
        · exact h
      have hsteps := waitBits_steps cfg (WIFI_CONNECTED_BIT ||| WIFI_FAIL_BIT) ⟨0, 0⟩ events
      rw [hW2] at hsteps
      have hfm := filterMap_stepOf_wifi hs hsteps
      have hntr : (app_main_nvs env (World.boot events)).trace =
          (if env.nvs_flash_init_1 = ESP_ERR_NVS_NO_FREE_PAGES ∨
              env.nvs_flash_init_1 = ESP_ERR_NVS_NEW_VERSION_FOUND then
            [.nvs_flash_init, .nvs_flash_erase, .nvs_flash_init] else [.nvs_flash_init]) := by
        rw [hnvs] at hn ⊢
        split_ifs at hn ⊢ <;> rfl
      refine ⟨hs, bits, w2, hW2, hb, hset, ?_, ?_⟩
      · simp only [hntr, htail, List.append_assoc]
      · simp only [hntr, htail, List.filterMap_append]
        rw [hfm]
        split_ifs <;>
          simp [stepOf, List.replicate_add, List.length_replicate, List.replicate_succ]

/-! ## The hex decoder -/

/-- The function `hex_nibble` is negative exactly off the hexadecimal digits. -/
theorem hex_nibble_neg_iff (c : Nat) : hex_nibble c < 0 ↔ isHexDigit c = false := by
  unfold hex_nibble isHexDigit
  simp only [Char.reduceToNat]
  split_ifs with h1 h2 h3
  · have : decide (48 ≤ c) = true ∧ decide (c ≤ 57) = true := by simpa using h1
    simp [this.1, this.2]; omega
  · have : decide (97 ≤ c) = true ∧ decide (c ≤ 102) = true := by simpa using h2
    simp [this.1, this.2]; omega
  · have : decide (65 ≤ c) = true ∧ decide (c ≤ 70) = true := by simpa using h3
    simp [this.1, this.2]; omega
  · simp only [Bool.or_eq_false_iff, Bool.and_eq_false_iff, decide_eq_false_iff_not]
    refine ⟨fun _ => ⟨⟨?_, ?_⟩, ?_⟩, fun _ => by omega⟩ <;> omega

theorem hex_to_bytes_loop_zero (hex : List Nat) (byte_len i : Nat) (out : List Nat) :
    hex_to_bytes_loop hex byte_len 0 i out = (wrapInt32 byte_len, out) := rfl

theorem hex_to_bytes_loop_succ (hex : List Nat) (byte_len n i : Nat) (out : List Nat) :
    hex_to_bytes_loop hex byte_len (n + 1) i out =
      if hex_nibble (charAt hex (i * 2)) < 0 ∨ hex_nibble (charAt hex (i * 2 + 1)) < 0 then
        (-1, out)
      else
        hex_to_bytes_loop hex byte_len n (i + 1)
          (out.set i ((((hex_nibble (charAt hex (i * 2))).toNat <<< 4) |||
            (hex_nibble (charAt hex (i * 2 + 1))).toNat) % 256)) := rfl

/-- The return value of the loop of `hex_to_bytes`. -/
theorem hex_to_bytes_loop_fst (hex : List Nat) (byte_len : Nat) :
    ∀ (n i : Nat) (out : List Nat),
      ((∀ j, 2 * i ≤ j → j < 2 * (i + n) → isHexDigit (charAt hex j) = true) →
        (hex_to_bytes_loop hex byte_len n i out).1 = wrapInt32 byte_len) ∧
      (¬ (∀ j, 2 * i ≤ j → j < 2 * (i + n) → isHexDigit (charAt hex j) = true) →
        (hex_to_bytes_loop hex byte_len n i out).1 = -1) := by
  intro n
  induction n with
  | zero =>
    intro i out
    refine ⟨fun _ => by rw [hex_to_bytes_loop_zero], fun h => absurd ?_ h⟩
    intro j h1 h2; omega
  | succ n ih =>
    intro i out
    rw [hex_to_bytes_loop_succ]
    by_cases hbad : hex_nibble (charAt hex (i * 2)) < 0 ∨ hex_nibble (charAt hex (i * 2 + 1)) < 0
    · rw [if_pos hbad]
      refine ⟨fun hall => ?_, fun _ => rfl⟩
      rcases hbad with h | h
      · rw [hex_nibble_neg_iff, hall (i * 2) (by omega) (by omega)] at h; cases h
      · rw [hex_nibble_neg_iff, hall (i * 2 + 1) (by omega) (by omega)] at h; cases h
    · rw [if_neg hbad]
      have h0 : isHexDigit (charAt hex (i * 2)) = true := by
        by_contra h
        exact hbad (Or.inl ((hex_nibble_neg_iff _).2 (by simpa using h)))
      have h1 : isHexDigit (charAt hex (i * 2 + 1)) = true := by
        by_contra h
        exact hbad (Or.inr ((hex_nibble_neg_iff _).2 (by simpa using h)))
      obtain ⟨ih1, ih2⟩ := ih (i + 1)
        (out.set i ((((hex_nibble (charAt hex (i * 2))).toNat <<< 4) |||
          (hex_nibble (charAt hex (i * 2 + 1))).toNat) % 256))
      constructor
      · intro hall
        exact ih1 (fun j hj1 hj2 => hall j (by omega) (by omega))
      · intro hnall
        apply ih2
        intro hall
        apply hnall
        intro j hj1 hj2
        by_cases hj : j = i * 2
        · rw [hj]; exact h0
        · by_cases hj' : j = i * 2 + 1
          · rw [hj']; exact h1
          · exact hall j (by omega) (by omega)

/-- The return value of `hex_to_bytes`: the byte count as an `int` for a valid
hex string, and -1 for every other string. -/
theorem hex_to_bytes_fst (hex out : List Nat) (max_len : Nat) :
    (hex_to_bytes hex out max_len).1 =
      if ValidHex hex max_len then wrapInt32 (hex.length / 2 : Nat) else -1 := by
  unfold hex_to_bytes
  simp only
  by_cases h1 : hex.length = 0 ∨ hex.length % 2 ≠ 0
  · rw [if_pos h1, if_neg]
    rintro ⟨hne, hev, _, _⟩
    rcases h1 with h | h
    · exact hne (List.length_eq_zero.1 h)
    · exact h hev
  · rw [if_neg h1]
    have hne : hex ≠ [] := fun h => h1 (Or.inl (by rw [h]; rfl))
    have hev : hex.length % 2 = 0 := by omega
    by_cases h2 : hex.length / 2 > max_len
    · rw [if_pos h2, if_neg]
      rintro ⟨_, _, _, hle⟩
      omega
    · rw [if_neg h2]
      obtain ⟨l1, l2⟩ := hex_to_bytes_loop_fst hex (hex.length / 2) (hex.length / 2) 0 out
      by_cases hv : ValidHex hex max_len
      · rw [if_pos hv]
        apply l1
        obtain ⟨_, _, hall, _⟩ := hv
        intro j _ hj
        have hj' : j < hex.length := by omega
        unfold charAt
        rw [List.getD_eq_getElem _ _ hj']
        exact hall _ (List.getElem_mem _)
      · rw [if_neg hv]
        apply l2
        intro hall
        apply hv
        refine ⟨hne, hev, ?_, by omega⟩
        intro c hc
        obtain ⟨j, hj, rfl⟩ := List.getElem_of_mem hc
        have := hall j (by omega) (by omega)
        unfold charAt at this
        rwa [List.getD_eq_getElem _ _ hj] at this

/-- C8: for every C string (shorter than the address space) and every
`max_len`, `hex_to_bytes` returns -1 if and only if the string is empty, has
odd length, has more than `2 * max_len` characters, or contains a character
outside `0-9`, `a-f`, `A-F`; in every other case it returns the string length
divided by 2. -/
theorem hex_to_bytes_rejects_iff (hex out : List Nat) (max_len : Nat)
    (hlen : hex.length < SIZE_LIMIT) :
    ((hex_to_bytes hex out max_len).1 = -1 ↔
      (hex = [] ∨ hex.length % 2 = 1 ∨ 2 * max_len < hex.length ∨
        ∃ c ∈ hex, isHexDigit c = false)) ∧
    ((hex_to_bytes hex out max_len).1 ≠ -1 →
      (hex_to_bytes hex out max_len).1 = ((hex.length / 2 : Nat) : Int)) := by
  unfold SIZE_LIMIT at hlen
  have hw : wrapInt32 (hex.length / 2 : Nat) = ((hex.length / 2 : Nat) : Int) :=
    wrapInt32_of_range _ (by omega) (by omega)
  rw [hex_to_bytes_fst, hw]
  by_cases hv : ValidHex hex max_len
  · rw [if_pos hv]
    obtain ⟨hne, hev, hall, hle⟩ := hv
    refine ⟨⟨fun h => by omega, ?_⟩, fun _ => rfl⟩
    rintro (h | h | h | ⟨c, hc, h⟩)
    · exact absurd h hne
    · omega
    · omega
    · rw [hall c hc] at h; cases h
  · rw [if_neg hv]
    refine ⟨⟨fun _ => ?_, fun _ => rfl⟩, fun h => absurd rfl h⟩
    unfold ValidHex at hv
    by_contra hcon
    push_neg at hcon
    obtain ⟨h1, h2, h3, h4⟩ := hcon
    exact hv ⟨h1, by omega, fun c hc => by simpa using h4 c hc, by omega⟩

/-- Witness for C8: the string `0e08fF` with room for four bytes. -/
theorem hex_to_bytes_rejects_iff_witness :
    (cstr "0e08fF").length < SIZE_LIMIT ∧
    ((hex_to_bytes (cstr "0e08fF") [0, 0, 0, 0] 4).1 ≠ -1 →
      (hex_to_bytes (cstr "0e08fF") [0, 0, 0, 0] 4).1 =
        (((cstr "0e08fF").length / 2 : Nat) : Int)) :=
  ⟨by decide, (hex_to_bytes_rejects_iff (cstr "0e08fF") [0, 0, 0, 0] 4 (by decide)).2⟩

/-! ## The credential sources -/

/-- The function `load_dataset_from_tlvs`, case by case. -/
theorem load_dataset_from_tlvs_eval (cfg : Config) (env : Env) (w : World) :
    load_dataset_from_tlvs cfg env w =
      if cfg.THREAD_DATASET_TLVS.length = 0 then ⟨[], .returned false, w⟩
      else if (hex_to_bytes cfg.THREAD_DATASET_TLVS env.tlvs_uninit
          OT_OPERATIONAL_DATASET_MAX_LENGTH).1 < 0 then
        ⟨[.log .E "THREAD_DATASET_TLVS: invalid hex string" []], .returned false, w⟩
      else if env.otDatasetSetActiveTlvs
          ⟨(hex_to_bytes cfg.THREAD_DATASET_TLVS env.tlvs_uninit
              OT_OPERATIONAL_DATASET_MAX_LENGTH).2,
            (hex_to_bytes cfg.THREAD_DATASET_TLVS env.tlvs_uninit
              OT_OPERATIONAL_DATASET_MAX_LENGTH).1.toNat % 256⟩ ≠ OT_ERROR_NONE then
        ⟨[.otDatasetSetActiveTlvs
            ⟨(hex_to_bytes cfg.THREAD_DATASET_TLVS env.tlvs_uninit
                OT_OPERATIONAL_DATASET_MAX_LENGTH).2,
              (hex_to_bytes cfg.THREAD_DATASET_TLVS env.tlvs_uninit
                OT_OPERATIONAL_DATASET_MAX_LENGTH).1.toNat % 256⟩,
          .log .E "Failed to set active dataset from TLVs: %d"
            [.int (env.otDatasetSetActiveTlvs
              ⟨(hex_to_bytes cfg.THREAD_DATASET_TLVS env.tlvs_uninit
                  OT_OPERATIONAL_DATASET_MAX_LENGTH).2,
                (hex_to_bytes cfg.THREAD_DATASET_TLVS env.tlvs_uninit
                  OT_OPERATIONAL_DATASET_MAX_LENGTH).1.toNat % 256⟩)]],
          .returned false, w⟩
      else
        ⟨[.otDatasetSetActiveTlvs
            ⟨(hex_to_bytes cfg.THREAD_DATASET_TLVS env.tlvs_uninit
                OT_OPERATIONAL_DATASET_MAX_LENGTH).2,
              (hex_to_bytes cfg.THREAD_DATASET_TLVS env.tlvs_uninit
                OT_OPERATIONAL_DATASET_MAX_LENGTH).1.toNat % 256⟩,
          .log .I "Thread dataset loaded from config (%d bytes)"
            [.int (hex_to_bytes cfg.THREAD_DATASET_TLVS env.tlvs_uninit
              OT_OPERATIONAL_DATASET_MAX_LENGTH).1]],
          .returned true, w⟩ := by
  unfold load_dataset_from_tlvs
  generalize hex_to_bytes cfg.THREAD_DATASET_TLVS env.tlvs_uninit
              OT_OPERATIONAL_DATASET_MAX_LENGTH = r
  by_cases h1 : cfg.THREAD_DATASET_TLVS.length = 0
  · simp [h1]
  · by_cases h2 : r.1 < 0
    · simp [h1, h2]
    · by_cases h3 : env.otDatasetSetActiveTlvs ⟨r.2, r.1.toNat % 256⟩ = OT_ERROR_NONE
      · simp [h1, h2, h3]
      · simp [h1, h2, h3]

/-- The byte count that `load_dataset_from_tlvs` stores in `mLength` for a
valid hex string: it fits the `int` return value and the `uint8_t` field. -/
theorem tlvs_length_fits (hex out : List Nat)
    (hv : ValidHex hex OT_OPERATIONAL_DATASET_MAX_LENGTH) :
    (hex_to_bytes hex out OT_OPERATIONAL_DATASET_MAX_LENGTH).1 = ((hex.length / 2 : Nat) : Int) ∧
    (hex_to_bytes hex out OT_OPERATIONAL_DATASET_MAX_LENGTH).1.toNat % 256 = hex.length / 2 := by
  have hle : hex.length ≤ 2 * OT_OPERATIONAL_DATASET_MAX_LENGTH := hv.2.2.2
  unfold OT_OPERATIONAL_DATASET_MAX_LENGTH at hle
  rw [hex_to_bytes_fst, if_pos hv, wrapInt32_of_range _ (by omega) (by omega)]
  refine ⟨rfl, ?_⟩
  rw [Int.toNat_ofNat]
  omega

/-- C7: `load_dataset_from_tlvs` returns true if and only if the configured
string is a valid hex string (non-empty, even length, hexadecimal digits only,
at most as many bytes as the TLV buffer holds) and `otDatasetSetActiveTlvs`
accepts the buffer holding the decoded bytes with `mLength` equal to the
decoded byte count; otherwise it returns false. Its calls of the mesh stack
are that one call if the string is valid hex and none if it is not; with the
empty string it returns false with no call at all. -/
theorem load_dataset_from_tlvs_iff (cfg : Config) (env : Env) (w : World) :
    ((load_dataset_from_tlvs cfg env w).outcome = .returned true ↔
      ValidHex cfg.THREAD_DATASET_TLVS OT_OPERATIONAL_DATASET_MAX_LENGTH ∧
      env.otDatasetSetActiveTlvs
        ⟨(hex_to_bytes cfg.THREAD_DATASET_TLVS env.tlvs_uninit
            OT_OPERATIONAL_DATASET_MAX_LENGTH).2,
          cfg.THREAD_DATASET_TLVS.length / 2⟩ = OT_ERROR_NONE) ∧
    ((load_dataset_from_tlvs cfg env w).outcome = .returned true ∨
      (load_dataset_from_tlvs cfg env w).outcome = .returned false) ∧
    ((load_dataset_from_tlvs cfg env w).trace.filter (fun c => (sourceRank c).isSome) =
      if ValidHex cfg.THREAD_DATASET_TLVS OT_OPERATIONAL_DATASET_MAX_LENGTH then
        [.otDatasetSetActiveTlvs
          ⟨(hex_to_bytes cfg.THREAD_DATASET_TLVS env.tlvs_uninit
              OT_OPERATIONAL_DATASET_MAX_LENGTH).2,
            cfg.THREAD_DATASET_TLVS.length / 2⟩]
      else []) ∧
    (cfg.THREAD_DATASET_TLVS = [] →
      load_dataset_from_tlvs cfg env w = ⟨[], .returned false, w⟩) := by
  rw [load_dataset_from_tlvs_eval]
  by_cases hv : ValidHex cfg.THREAD_DATASET_TLVS OT_OPERATIONAL_DATASET_MAX_LENGTH
  · obtain ⟨hfst, hlen⟩ := tlvs_length_fits cfg.THREAD_DATASET_TLVS env.tlvs_uninit hv
    have h1 : cfg.THREAD_DATASET_TLVS.length ≠ 0 := fun h => hv.1 (List.length_eq_zero.1 h)
    have h2 : ¬ (hex_to_bytes cfg.THREAD_DATASET_TLVS env.tlvs_uninit
          OT_OPERATIONAL_DATASET_MAX_LENGTH).1 < 0 := by rw [hfst]; omega
    rw [if_neg h1, if_neg h2, hlen]
    by_cases h3 : env.otDatasetSetActiveTlvs
        ⟨(hex_to_bytes cfg.THREAD_DATASET_TLVS env.tlvs_uninit
            OT_OPERATIONAL_DATASET_MAX_LENGTH).2,
          cfg.THREAD_DATASET_TLVS.length / 2⟩ = OT_ERROR_NONE
    · simp [hv, h3, sourceRank, hv.1]
    · simp [hv, h3, sourceRank, hv.1]
  · by_cases h1 : cfg.THREAD_DATASET_TLVS.length = 0
    · simp [hv, h1]
    · have h2 : (hex_to_bytes cfg.THREAD_DATASET_TLVS env.tlvs_uninit
          OT_OPERATIONAL_DATASET_MAX_LENGTH).1 < 0 := by
        rw [hex_to_bytes_fst, if_neg hv]; omega
      have hne : cfg.THREAD_DATASET_TLVS ≠ [] := fun h => h1 (by rw [h]; rfl)
      simp [hv, h1, h2, sourceRank, hne]

/-- The function `load_dataset_from_tlvs` always returns, with the shared
state as it was. -/
theorem load_dataset_from_tlvs_returns (cfg : Config) (env : Env) (w : World) :
    ∃ t b, load_dataset_from_tlvs cfg env w = ⟨t, .returned b, w⟩ := by
  rw [load_dataset_from_tlvs_eval]
  split_ifs <;> exact ⟨_, _, rfl⟩

/-- The dataset that `create_default_dataset` hands to `otDatasetSetActive`,
given the dataset `d` that the stack created. -/
theorem create_default_dataset_eval (cfg : Config) (env : Env) (w : World) :
    create_default_dataset cfg env w =
      if env.otDatasetCreateNewNetwork.1 ≠ OT_ERROR_NONE then
        ⟨[.log .I "Creating new Thread network" [], .otDatasetCreateNewNetwork,
          .log .E "Failed to create new network dataset: %d"
            [.int env.otDatasetCreateNewNetwork.1]], .returned (), w⟩
      else
        ⟨[.log .I "Creating new Thread network" [], .otDatasetCreateNewNetwork,
          .otDatasetSetActive
            { env.otDatasetCreateNewNetwork.2 with
              mChannel := cfg.THREAD_CHANNEL % 65536
              mIsChannelPresent := true
              mNetworkName :=
                (memcpy env.otDatasetCreateNewNetwork.2.mNetworkName cfg.THREAD_NETWORK_NAME
                  (if cfg.THREAD_NETWORK_NAME.length > OT_NETWORK_NAME_MAX_SIZE then
                    OT_NETWORK_NAME_MAX_SIZE else cfg.THREAD_NETWORK_NAME.length)).set
                  (if cfg.THREAD_NETWORK_NAME.length > OT_NETWORK_NAME_MAX_SIZE then
                    OT_NETWORK_NAME_MAX_SIZE else cfg.THREAD_NETWORK_NAME.length) 0
              mIsNetworkNamePresent := true },
          if env.otDatasetSetActive
            { env.otDatasetCreateNewNetwork.2 with
              mChannel := cfg.THREAD_CHANNEL % 65536
              mIsChannelPresent := true
              mNetworkName :=
                (memcpy env.otDatasetCreateNewNetwork.2.mNetworkName cfg.THREAD_NETWORK_NAME
                  (if cfg.THREAD_NETWORK_NAME.length > OT_NETWORK_NAME_MAX_SIZE then
                    OT_NETWORK_NAME_MAX_SIZE else cfg.THREAD_NETWORK_NAME.length)).set
                  (if cfg.THREAD_NETWORK_NAME.length > OT_NETWORK_NAME_MAX_SIZE then
                    OT_NETWORK_NAME_MAX_SIZE else cfg.THREAD_NETWORK_NAME.length) 0
              mIsNetworkNamePresent := true } ≠ OT_ERROR_NONE then
            .log .E "Failed to set active dataset: %d"
              [.int (env.otDatasetSetActive
                { env.otDatasetCreateNewNetwork.2 with
                  mChannel := cfg.THREAD_CHANNEL % 65536
                  mIsChannelPresent := true
                  mNetworkName :=
                    (memcpy env.otDatasetCreateNewNetwork.2.mNetworkName
                      cfg.THREAD_NETWORK_NAME
                      (if cfg.THREAD_NETWORK_NAME.length > OT_NETWORK_NAME_MAX_SIZE then
                        OT_NETWORK_NAME_MAX_SIZE else cfg.THREAD_NETWORK_NAME.length)).set
                      (if cfg.THREAD_NETWORK_NAME.length > OT_NETWORK_NAME_MAX_SIZE then
                        OT_NETWORK_NAME_MAX_SIZE else cfg.THREAD_NETWORK_NAME.length) 0
                  mIsNetworkNamePresent := true })]
          else
            .log .I "New network created: ch=%d, name=%s"
              [.int cfg.THREAD_CHANNEL, .chars cfg.THREAD_NETWORK_NAME]],
          .returned (), w⟩ := by
  unfold create_default_dataset
  simp only [logLine_bind_apply, ext_bind_apply]
  by_cases h1 : env.otDatasetCreateNewNetwork.1 = OT_ERROR_NONE
  · simp only [h1, ne_eq, not_true_eq_false, if_false]
    generalize (if cfg.THREAD_NETWORK_NAME.length > OT_NETWORK_NAME_MAX_SIZE then
      OT_NETWORK_NAME_MAX_SIZE else cfg.THREAD_NETWORK_NAME.length) = n
    split_ifs with h2 <;> simp [h2]
  · simp [h1]

/-- The calls of `create_default_dataset`: it always returns, and of the
credential calls it makes `otDatasetCreateNewNetwork` and then, if that
succeeded, `otDatasetSetActive`. -/
theorem create_default_dataset_returns (cfg : Config) (env : Env) (w : World) :
    ∃ t, create_default_dataset cfg env w = ⟨t, .returned (), w⟩ ∧
      (t.filterMap sourceRank =
        if env.otDatasetCreateNewNetwork.1 ≠ OT_ERROR_NONE then [3] else [3, 4]) ∧
      Call.otIp6SetEnabled true ∉ t ∧ Call.otThreadSetEnabled true ∉ t := by
  rw [create_default_dataset_eval]
  by_cases h1 : env.otDatasetCreateNewNetwork.1 = OT_ERROR_NONE
  · simp only [h1, ne_eq, not_true_eq_false, if_false]
    refine ⟨_, rfl, ?_, ?_, ?_⟩
    · split_ifs <;> simp [sourceRank]
    · split_ifs <;> simp
    · split_ifs <;> simp
  · simp only [h1, ne_eq, not_false_eq_true, if_true]
    exact ⟨_, rfl, by simp [sourceRank], by simp, by simp⟩

/-- The first two credential sources: the saved dataset is read first; the
configured TLVs are tried only if there is none. -/
theorem ot_task_sources_eval (cfg : Config) (env : Env) (w : World) :
    ot_task_sources cfg env w =
      if env.otDatasetGetActive = OT_ERROR_NONE then
        ⟨[.otDatasetGetActive, .log .I "Using saved Thread dataset from NVS" []],
          .returned true, w⟩
      else (load_dataset_from_tlvs cfg env w).prepend [.otDatasetGetActive] := by
  unfold ot_task_sources
  simp only [ext_bind_apply]
  by_cases h : env.otDatasetGetActive = OT_ERROR_NONE
  · simp [h]
  · simp only [h, if_false]
    obtain ⟨t, b, hl⟩ := load_dataset_from_tlvs_returns cfg env w
    rw [seq_returned _ _ w w t b hl, hl]
    cases b <;> simp

/-! ## The mesh task -/

theorem ite_bind_apply {α β : Type} (c : Prop) [Decidable c] (m1 m2 : Run α)
    (f : α → Run β) (w : World) :
    ((if c then m1 else m2) >>= f) w = if c then (m1 >>= f) w else (m2 >>= f) w := by
  split <;> rfl

theorem bind_assoc_apply {α β γ : Type} (m : Run α) (g : α → Run β) (f : β → Run γ)
    (w : World) :
    ((m >>= g) >>= f) w = (m >>= fun a => g a >>= f) w := by
  simp only [bind_apply, Run.seq]
  rcases hm : m w with ⟨t, o, w2⟩
  cases o with
  | returned a =>
    simp only
    rcases hg : g a w2 with ⟨t2, o2, w3⟩
    cases o2 <;> simp [Result.prepend]
  | aborted => rfl
  | restarted => rfl
  | blocked => rfl

/-- The calls of `ot_task` when the stack and the border router initialise:
set-up, the lock, the first two sources (`S`, with result `b`), the new network
(`Cr`) if auto-provisioning is on and `b` is false, the two enabling calls or
the provisioning hints, the release of the lock and the main loop. -/
theorem ot_task_eval (cfg : Config) (env : Env) (netif : Nat) (w : World)
    (S Cr : List Call) (b : Bool)
    (h1 : env.esp_openthread_init = ESP_OK)
    (h2 : env.esp_openthread_border_router_init = ESP_OK)
    (hS : ot_task_sources cfg env w = ⟨S, .returned b, w⟩)
    (hC : create_default_dataset cfg env w = ⟨Cr, .returned (), w⟩) :
    ot_task cfg env netif w =
      ⟨[.esp_openthread_init, .esp_openthread_get_instance, .otSetStateChangedCallback] ++
        (if cfg.OT_CLI_UART_ENABLE ≠ 0 then [.esp_openthread_cli_init] else []) ++
        [.esp_openthread_border_router_init netif,
         .log .I "OpenThread Border Router initialized" [],
         .esp_openthread_lock_acquire] ++ S ++
        (if cfg.THREAD_AUTO_START ≠ 0 ∧ b = false then Cr else []) ++
        (if b = true ∨ cfg.THREAD_AUTO_START ≠ 0 then
          [.otIp6SetEnabled true, .otThreadSetEnabled true,
           .log .I "Thread interface up — joining network..." []]
        else
          [.log .I "No Thread dataset configured" [],
           .log .I "Provision via Home Assistant or serial CLI:" [],
           .log .I "  > dataset set active <hex-TLV>" [],
           .log .I "  > ifconfig up" [],
           .log .I "  > thread start" []]) ++
        [.esp_openthread_lock_release, .esp_openthread_cli_create_task,
         .esp_openthread_launch_mainloop] ++
        (if env.mainloop_returns = true then
          [.esp_openthread_netif_glue_deinit, .esp_vfs_eventfd_unregister, .vTaskDelete]
        else []),
       if env.mainloop_returns = true then .returned () else .blocked, w⟩ := by
  have hCt : (create_default_dataset cfg env >>= fun _ => (pure true : Run Bool)) w =
      ⟨Cr, .returned true, w⟩ := by
    rw [seq_returned _ _ w w Cr () hC]; simp
  unfold ot_task
  simp only [ext_bind_apply, check_bind_apply, call_bind_apply, logLine_bind_apply, h1, h2,
    if_true, prepend_prepend, ite_bind_apply, pure_bind_apply]
  rw [seq_returned _ _ w w S b hS]
  by_cases hcli : cfg.OT_CLI_UART_ENABLE = 0 <;>
  by_cases hauto : cfg.THREAD_AUTO_START = 0 <;>
  by_cases hback : env.mainloop_returns = true <;>
  cases b <;>
  simp [hcli, hauto, hback, hS, ite_bind_apply, bind_assoc_apply,
    seq_returned _ _ w w Cr _ hC]

/-- If the stack or the border router fails to initialise, `ot_task` aborts
before it takes the lock. -/
theorem ot_task_abort (cfg : Config) (env : Env) (netif : Nat) (w : World)
    (h : ¬ (env.esp_openthread_init = ESP_OK ∧
      env.esp_openthread_border_router_init = ESP_OK)) :
    ∃ t, ot_task cfg env netif w = ⟨t, .aborted, w⟩ ∧
      ∀ c ∈ t, c ∈ [Call.esp_openthread_init, .esp_openthread_get_instance,
        .otSetStateChangedCallback, .esp_openthread_cli_init,
        .esp_openthread_border_router_init netif, .abort] := by
  unfold ot_task
  simp only [ext_bind_apply, check_bind_apply, call_bind_apply, logLine_bind_apply,
    prepend_prepend, ite_bind_apply, pure_bind_apply]
  by_cases h1 : env.esp_openthread_init = ESP_OK
  · have h2 : env.esp_openthread_border_router_init ≠ ESP_OK := fun h2 => h ⟨h1, h2⟩
    by_cases hcli : cfg.OT_CLI_UART_ENABLE = 0 <;> simp [h1, h2, hcli]
  · simp [h1]

/-- The credential calls of `load_dataset_from_tlvs`, by rank. -/
theorem load_dataset_from_tlvs_ranks (cfg : Config) (env : Env) (w : World) :
    (load_dataset_from_tlvs cfg env w).trace.filterMap sourceRank =
      if ValidHex cfg.THREAD_DATASET_TLVS OT_OPERATIONAL_DATASET_MAX_LENGTH then [2]
      else [] := by
  rw [load_dataset_from_tlvs_eval]
  by_cases hv : ValidHex cfg.THREAD_DATASET_TLVS OT_OPERATIONAL_DATASET_MAX_LENGTH
  · obtain ⟨hfst, _⟩ := tlvs_length_fits cfg.THREAD_DATASET_TLVS env.tlvs_uninit hv
    have h1 : cfg.THREAD_DATASET_TLVS.length ≠ 0 := fun h => hv.1 (List.length_eq_zero.1 h)
    have h2 : ¬ (hex_to_bytes cfg.THREAD_DATASET_TLVS env.tlvs_uninit
          OT_OPERATIONAL_DATASET_MAX_LENGTH).1 < 0 := by rw [hfst]; omega
    rw [if_neg h1, if_neg h2, if_pos hv]
    split_ifs <;> simp [sourceRank]
  · rw [if_neg hv]
    by_cases h1 : cfg.THREAD_DATASET_TLVS.length = 0
    · simp [h1]
    · have h2 : (hex_to_bytes cfg.THREAD_DATASET_TLVS env.tlvs_uninit
          OT_OPERATIONAL_DATASET_MAX_LENGTH).1 < 0 := by
        rw [hex_to_bytes_fst, if_neg hv]; omega
      simp [h1, h2, sourceRank]

/-- The credential calls of `ot_task`, by rank and in the order made: the
saved dataset (1); the configured TLVs (2) only if there is no saved dataset
and the string is valid hex; a new network (3, then 4 if creating succeeded)
only if auto-provisioning is on, there is no saved dataset and loading the
TLVs did not succeed. -/
theorem ot_task_ranks (cfg : Config) (env : Env) (netif : Nat) (w : World) :
    (ot_task cfg env netif w).trace.filterMap sourceRank =
      if env.esp_openthread_init = ESP_OK ∧
          env.esp_openthread_border_router_init = ESP_OK then
        [1] ++
        (if env.otDatasetGetActive ≠ OT_ERROR_NONE ∧
            ValidHex cfg.THREAD_DATASET_TLVS OT_OPERATIONAL_DATASET_MAX_LENGTH then [2]
          else []) ++
        (if cfg.THREAD_AUTO_START ≠ 0 ∧ env.otDatasetGetActive ≠ OT_ERROR_NONE ∧
            (load_dataset_from_tlvs cfg env w).outcome ≠ .returned true then
          (if env.otDatasetCreateNewNetwork.1 ≠ OT_ERROR_NONE then [3] else [3, 4])
          else [])
      else [] := by
  by_cases h : env.esp_openthread_init = ESP_OK ∧
      env.esp_openthread_border_router_init = ESP_OK
  · rw [if_pos h]
    obtain ⟨Cr, hC, hCr, -, -⟩ := create_default_dataset_returns cfg env w
    obtain ⟨Lt, lb, hL⟩ := load_dataset_from_tlvs_returns cfg env w
    have hLr := load_dataset_from_tlvs_ranks cfg env w
    have hSe := ot_task_sources_eval cfg env w
    rw [hL] at hLr
    simp only at hLr
    by_cases hg : env.otDatasetGetActive = OT_ERROR_NONE
    · rw [if_pos hg] at hSe
      rw [ot_task_eval cfg env netif w _ Cr true h.1 h.2 hSe hC]
      simp only [List.filterMap_append, hg, ne_eq, not_true_eq_false, false_and, and_false,
        if_false, Bool.true_eq_false, true_or, if_true]
      split_ifs <;> simp [sourceRank]
    · rw [if_neg hg, hL] at hSe
      rw [ot_task_eval cfg env netif w _ Cr lb h.1 h.2 hSe hC, hL]
      have e1 : (if cfg.OT_CLI_UART_ENABLE ≠ 0 then [Call.esp_openthread_cli_init]
          else []).filterMap sourceRank = [] := by split_ifs <;> rfl
      have e2 : (if lb = true ∨ cfg.THREAD_AUTO_START ≠ 0 then
          [Call.otIp6SetEnabled true, .otThreadSetEnabled true,
           .log .I "Thread interface up — joining network..." []]
        else
          [.log .I "No Thread dataset configured" [],
           .log .I "Provision via Home Assistant or serial CLI:" [],
           .log .I "  > dataset set active <hex-TLV>" [],
           .log .I "  > ifconfig up" [],
           .log .I "  > thread start" []]).filterMap sourceRank = [] := by
        split_ifs <;> rfl
      have e3 : (if env.mainloop_returns = true then
          [Call.esp_openthread_netif_glue_deinit, .esp_vfs_eventfd_unregister, .vTaskDelete]
        else []).filterMap sourceRank = [] := by split_ifs <;> rfl
      have e4 : (if cfg.THREAD_AUTO_START ≠ 0 ∧ lb = false then Cr else []).filterMap
          sourceRank =
          if cfg.THREAD_AUTO_START ≠ 0 ∧ lb = false then
            (if env.otDatasetCreateNewNetwork.1 ≠ OT_ERROR_NONE then [3] else [3, 4])
          else [] := by
        split_ifs <;> simp_all
      simp only [List.filterMap_append, e1, e2, e3, e4, hLr]
      cases lb <;> simp [sourceRank, hg]
  · rw [if_neg h]
    obtain ⟨t, ht, hc⟩ := ot_task_abort cfg env netif w h
    rw [ht]
    simp only
    rw [List.filterMap_eq_nil_iff]
    intro c hmem
    have := hc c hmem
    simp only [List.mem_cons, List.mem_singleton, List.not_mem_nil, or_false] at this
    rcases this with rfl | rfl | rfl | rfl | rfl | rfl <;> rfl

/-- The calls of the first two credential sources and, when it runs, of the
third, are part of the calls of `ot_task` once the stack and the border router
have initialised: the first two sources always run, and
`create_default_dataset` runs if auto-provisioning is on and they returned
false. -/
theorem ot_task_runs_sources (cfg : Config) (env : Env) (netif : Nat) (w : World)
    (h1 : env.esp_openthread_init = ESP_OK)
    (h2 : env.esp_openthread_border_router_init = ESP_OK) :
    (ot_task_sources cfg env w).trace <:+: (ot_task cfg env netif w).trace ∧
    (cfg.THREAD_AUTO_START ≠ 0 → (ot_task_sources cfg env w).outcome = .returned false →
      (create_default_dataset cfg env w).trace <:+: (ot_task cfg env netif w).trace) := by
  obtain ⟨Cr, hC, -⟩ := create_default_dataset_returns cfg env w
  obtain ⟨Lt, lb, hL⟩ := load_dataset_from_tlvs_returns cfg env w
  have hS : ∃ S b, ot_task_sources cfg env w = ⟨S, .returned b, w⟩ := by
    rw [ot_task_sources_eval]
    split_ifs
    · exact ⟨_, _, rfl⟩
    · rw [hL]; exact ⟨_, _, rfl⟩
  obtain ⟨S, b, hS⟩ := hS
  rw [ot_task_eval cfg env netif w S Cr b h1 h2 hS hC, hS, hC]
  simp only
  have hpre : ∀ l r : List Call, l <:+: l ++ r := fun l r => (List.prefix_append l r).isInfix
  refine ⟨(((List.infix_append _ S _).trans (hpre _ _)).trans (hpre _ _)).trans (hpre _ _),
    fun hauto hb => ?_⟩
  have hb2 : b = false := by
    cases b
    · rfl
    · cases hb
  rw [if_pos (show cfg.THREAD_AUTO_START ≠ 0 ∧ b = false from ⟨hauto, hb2⟩)]
  exact ((List.infix_append _ Cr _).trans (hpre _ _)).trans (hpre _ _)

/-- For a valid hex string `load_dataset_from_tlvs` hands the decoded bytes,
with their count, to `otDatasetSetActiveTlvs`. -/
theorem load_dataset_from_tlvs_applies (cfg : Config) (env : Env) (w : World)
    (hv : ValidHex cfg.THREAD_DATASET_TLVS OT_OPERATIONAL_DATASET_MAX_LENGTH) :
    Call.otDatasetSetActiveTlvs
      ⟨(hex_to_bytes cfg.THREAD_DATASET_TLVS env.tlvs_uninit
          OT_OPERATIONAL_DATASET_MAX_LENGTH).2, cfg.THREAD_DATASET_TLVS.length / 2⟩ ∈
      (load_dataset_from_tlvs cfg env w).trace := by
  obtain ⟨e1, e2⟩ := tlvs_length_fits cfg.THREAD_DATASET_TLVS env.tlvs_uninit hv
  have hne : ¬ cfg.THREAD_DATASET_TLVS.length = 0 :=
    fun h => hv.1 (List.length_eq_zero.1 h)
  have hnn : ¬ (hex_to_bytes cfg.THREAD_DATASET_TLVS env.tlvs_uninit
      OT_OPERATIONAL_DATASET_MAX_LENGTH).1 < 0 := by
    rw [e1]; omega
  rw [load_dataset_from_tlvs_eval, if_neg hne, if_neg hnn, e2]
  split_ifs <;> simp

/-- C5: `ot_task` tries the saved dataset, then the configured TLV string,
then a new network. Once the stack and the border router have initialised it
always calls `otDatasetGetActive`; if that fails it runs
`load_dataset_from_tlvs`, which for a valid hex string hands the decoded bytes
to `otDatasetSetActiveTlvs`; and if auto-provisioning is on and the TLV load
returned false it runs `create_default_dataset`, which calls
`otDatasetCreateNewNetwork`. The credential calls it makes are exactly the
list given, so they come in strictly increasing rank (saved dataset, configured
TLVs, new network, activation of the new network), each at most once. If
`otDatasetGetActive` succeeds, none of `otDatasetSetActiveTlvs`,
`otDatasetCreateNewNetwork`, `otDatasetSetActive` is called; if it fails and
the TLV load succeeds, `otDatasetCreateNewNetwork` and `otDatasetSetActive` are
not called; the TLVs are applied only if there is no saved dataset; and a new
network is created only if auto-provisioning is enabled, there is no saved
dataset and the TLV load returned false. -/
theorem ot_task_source_order (cfg : Config) (env : Env) (netif : Nat) (w : World) :
    (ot_task cfg env netif w).trace.filterMap sourceRank =
      (if env.esp_openthread_init = ESP_OK ∧
          env.esp_openthread_border_router_init = ESP_OK then
        [1] ++
        (if env.otDatasetGetActive ≠ OT_ERROR_NONE ∧
            ValidHex cfg.THREAD_DATASET_TLVS OT_OPERATIONAL_DATASET_MAX_LENGTH then [2]
          else []) ++
        (if cfg.THREAD_AUTO_START ≠ 0 ∧ env.otDatasetGetActive ≠ OT_ERROR_NONE ∧
            (load_dataset_from_tlvs cfg env w).outcome ≠ .returned true then
          (if env.otDatasetCreateNewNetwork.1 ≠ OT_ERROR_NONE then [3] else [3, 4])
          else [])
      else []) ∧
    (env.esp_openthread_init = ESP_OK ∧ env.esp_openthread_border_router_init = ESP_OK →
      Call.otDatasetGetActive ∈ (ot_task cfg env netif w).trace ∧
      (env.otDatasetGetActive ≠ OT_ERROR_NONE →
        (load_dataset_from_tlvs cfg env w).trace <:+: (ot_task cfg env netif w).trace ∧
        (ValidHex cfg.THREAD_DATASET_TLVS OT_OPERATIONAL_DATASET_MAX_LENGTH →
          Call.otDatasetSetActiveTlvs
            ⟨(hex_to_bytes cfg.THREAD_DATASET_TLVS env.tlvs_uninit
                OT_OPERATIONAL_DATASET_MAX_LENGTH).2,
              cfg.THREAD_DATASET_TLVS.length / 2⟩ ∈ (ot_task cfg env netif w).trace)) ∧
      (cfg.THREAD_AUTO_START ≠ 0 → env.otDatasetGetActive ≠ OT_ERROR_NONE →
        (load_dataset_from_tlvs cfg env w).outcome = .returned false →
        (create_default_dataset cfg env w).trace <:+: (ot_task cfg env netif w).trace ∧
        Call.otDatasetCreateNewNetwork ∈ (ot_task cfg env netif w).trace)) ∧
    ((ot_task cfg env netif w).trace.filterMap sourceRank).Pairwise (· < ·) ∧
    (env.otDatasetGetActive = OT_ERROR_NONE →
      (∀ x, Call.otDatasetSetActiveTlvs x ∉ (ot_task cfg env netif w).trace) ∧
      Call.otDatasetCreateNewNetwork ∉ (ot_task cfg env netif w).trace ∧
      ∀ d, Call.otDatasetSetActive d ∉ (ot_task cfg env netif w).trace) ∧
    (env.otDatasetGetActive ≠ OT_ERROR_NONE →
      (load_dataset_from_tlvs cfg env w).outcome = .returned true →
      Call.otDatasetCreateNewNetwork ∉ (ot_task cfg env netif w).trace ∧
      ∀ d, Call.otDatasetSetActive d ∉ (ot_task cfg env netif w).trace) ∧
    ((∃ x, Call.otDatasetSetActiveTlvs x ∈ (ot_task cfg env netif w).trace) →
      env.otDatasetGetActive ≠ OT_ERROR_NONE) ∧
    (Call.otDatasetCreateNewNetwork ∈ (ot_task cfg env netif w).trace →
      cfg.THREAD_AUTO_START ≠ 0 ∧ env.otDatasetGetActive ≠ OT_ERROR_NONE ∧
      (load_dataset_from_tlvs cfg env w).outcome = .returned false) := by
  have hr := ot_task_ranks cfg env netif w
  have hmem : ∀ (c : Call) (k : Nat), c ∈ (ot_task cfg env netif w).trace →
      sourceRank c = some k → k ∈ (ot_task cfg env netif w).trace.filterMap sourceRank :=
    fun c k hc hk => List.mem_filterMap.2 ⟨c, hc, hk⟩
  obtain ⟨Lt, lb, hL⟩ := load_dataset_from_tlvs_returns cfg env w
  have hpos : env.esp_openthread_init = ESP_OK ∧
      env.esp_openthread_border_router_init = ESP_OK →
      Call.otDatasetGetActive ∈ (ot_task cfg env netif w).trace ∧
      (env.otDatasetGetActive ≠ OT_ERROR_NONE →
        (load_dataset_from_tlvs cfg env w).trace <:+: (ot_task cfg env netif w).trace ∧
        (ValidHex cfg.THREAD_DATASET_TLVS OT_OPERATIONAL_DATASET_MAX_LENGTH →
          Call.otDatasetSetActiveTlvs
            ⟨(hex_to_bytes cfg.THREAD_DATASET_TLVS env.tlvs_uninit
                OT_OPERATIONAL_DATASET_MAX_LENGTH).2,
              cfg.THREAD_DATASET_TLVS.length / 2⟩ ∈ (ot_task cfg env netif w).trace)) ∧
      (cfg.THREAD_AUTO_START ≠ 0 → env.otDatasetGetActive ≠ OT_ERROR_NONE →
        (load_dataset_from_tlvs cfg env w).outcome = .returned false →
        (create_default_dataset cfg env w).trace <:+: (ot_task cfg env netif w).trace ∧
        Call.otDatasetCreateNewNetwork ∈ (ot_task cfg env netif w).trace) := by
    intro hi
    obtain ⟨hsrc, hcre⟩ := ot_task_runs_sources cfg env netif w hi.1 hi.2
    have hSe := ot_task_sources_eval cfg env w
    refine ⟨?_, fun hg => ?_, fun hauto hg hl => ?_⟩
    · apply hsrc.subset
      rw [hSe]
      split_ifs <;> simp
    · rw [if_neg hg] at hSe
      have hin : (load_dataset_from_tlvs cfg env w).trace <:+:
          (ot_task cfg env netif w).trace := by
        refine List.IsInfix.trans ?_ hsrc
        rw [hSe, prepend_trace]
        exact (List.suffix_append _ _).isInfix
      exact ⟨hin, fun hv => hin.subset (load_dataset_from_tlvs_applies cfg env w hv)⟩
    · rw [if_neg hg] at hSe
      have ho : (ot_task_sources cfg env w).outcome = .returned false := by
        rw [hSe, hL] at *
        exact hl
      have hin := hcre hauto ho
      refine ⟨hin, hin.subset ?_⟩
      rw [create_default_dataset_eval]
      split_ifs <;> simp
  refine ⟨hr, hpos, ?_⟩
  rw [hL] at hr ⊢
  simp only at hr ⊢
  -- which ranks can occur
  have h2 : 2 ∈ (ot_task cfg env netif w).trace.filterMap sourceRank →
      env.otDatasetGetActive ≠ OT_ERROR_NONE := by
    rw [hr]; intro h
    by_contra hcon
    have c1 : ¬ (env.otDatasetGetActive ≠ OT_ERROR_NONE ∧
        ValidHex cfg.THREAD_DATASET_TLVS OT_OPERATIONAL_DATASET_MAX_LENGTH) :=
      fun x => x.1 hcon
    have c2 : ¬ (cfg.THREAD_AUTO_START ≠ 0 ∧ env.otDatasetGetActive ≠ OT_ERROR_NONE ∧
        Outcome.returned lb ≠ Outcome.returned true) := fun x => x.2.1 hcon
    rw [if_neg c1, if_neg c2] at h
    split_ifs at h <;> simp at h
  have h34 : (3 ∈ (ot_task cfg env netif w).trace.filterMap sourceRank ∨
      4 ∈ (ot_task cfg env netif w).trace.filterMap sourceRank) →
      cfg.THREAD_AUTO_START ≠ 0 ∧ env.otDatasetGetActive ≠ OT_ERROR_NONE ∧ lb = false := by
    rw [hr]; intro h
    have key : cfg.THREAD_AUTO_START ≠ 0 ∧ env.otDatasetGetActive ≠ OT_ERROR_NONE ∧
        Outcome.returned lb ≠ Outcome.returned true := by
      by_contra hcon
      rw [if_neg hcon] at h
      split_ifs at h <;> simp at h
    refine ⟨key.1, key.2.1, ?_⟩
    cases lb
    · rfl
    · exact absurd rfl key.2.2
  refine ⟨?_, ?_, ?_, ?_, ?_⟩
  · rw [hr]
    split_ifs <;> decide
  · intro hg
    refine ⟨fun x hx => h2 (hmem _ 2 hx rfl) hg, fun hx => ?_, fun d hx => ?_⟩
    · exact (h34 (Or.inl (hmem _ 3 hx rfl))).2.1 hg
    · exact (h34 (Or.inr (hmem _ 4 hx rfl))).2.1 hg
  · intro _ hl
    have hlb : lb = true := by
      cases lb
      · cases hl
      · rfl
    refine ⟨fun hx => ?_, fun d hx => ?_⟩
    · have := (h34 (Or.inl (hmem _ 3 hx rfl))).2.2
      rw [hlb] at this; cases this
    · have := (h34 (Or.inr (hmem _ 4 hx rfl))).2.2
      rw [hlb] at this; cases this
  · rintro ⟨x, hx⟩
    exact h2 (hmem _ 2 hx rfl)
  · intro hx
    obtain ⟨a, b, c⟩ := h34 (Or.inl (hmem _ 3 hx rfl))
    exact ⟨a, b, by rw [c]⟩

/-- C6, the code at the failing input: auto-provisioning is on, there is no
saved dataset, the configured TLV string is empty and the stack fails to
create a new network, so that no credential source has succeeded and
`otDatasetSetActive` is never reached; `ot_task` still enables the IPv6
interface and the Thread protocol and prints no provisioning hint. -/
theorem ot_task_enables_after_failed_create :
    cfgAuto.THREAD_AUTO_START ≠ 0 ∧
    envCreateFails.otDatasetGetActive ≠ OT_ERROR_NONE ∧
    (load_dataset_from_tlvs cfgAuto envCreateFails (World.boot [])).outcome =
      .returned false ∧
    envCreateFails.otDatasetCreateNewNetwork.1 ≠ OT_ERROR_NONE ∧
    (ot_task cfgAuto envCreateFails 1 (World.boot [])).trace.filterMap sourceRank = [1, 3] ∧
    Call.otIp6SetEnabled true ∈ (ot_task cfgAuto envCreateFails 1 (World.boot [])).trace ∧
    Call.otThreadSetEnabled true ∈ (ot_task cfgAuto envCreateFails 1 (World.boot [])).trace ∧
    Call.log .I "No Thread dataset configured" [] ∉
      (ot_task cfgAuto envCreateFails 1 (World.boot [])).trace := by
  decide

/-- The calls of `load_dataset_from_tlvs` are the call applying the TLVs and
log lines. -/
theorem load_dataset_from_tlvs_calls (cfg : Config) (env : Env) (w : World) :
    ∀ c ∈ (load_dataset_from_tlvs cfg env w).trace,
      (∃ x, c = .otDatasetSetActiveTlvs x) ∨ ∃ l f a, c = .log l f a := by
  rw [load_dataset_from_tlvs_eval]
  split_ifs <;> simp

/-- With auto-provisioning on, `ot_task` enables both interfaces whenever it
gets as far as the lock, whatever the credential sources returned. -/
theorem ot_task_auto_always_enables (cfg : Config) (env : Env) (netif : Nat) (w : World)
    (hauto : cfg.THREAD_AUTO_START ≠ 0)
    (h1 : env.esp_openthread_init = ESP_OK)
    (h2 : env.esp_openthread_border_router_init = ESP_OK) :
    Call.otIp6SetEnabled true ∈ (ot_task cfg env netif w).trace ∧
    Call.otThreadSetEnabled true ∈ (ot_task cfg env netif w).trace := by
  obtain ⟨Cr, hC, -⟩ := create_default_dataset_returns cfg env w
  obtain ⟨Lt, lb, hL⟩ := load_dataset_from_tlvs_returns cfg env w
  have hSe := ot_task_sources_eval cfg env w
  by_cases hg : env.otDatasetGetActive = OT_ERROR_NONE
  · rw [if_pos hg] at hSe
    rw [ot_task_eval cfg env netif w _ Cr true h1 h2 hSe hC]
    simp [hauto]
  · rw [if_neg hg, hL] at hSe
    rw [ot_task_eval cfg env netif w _ Cr lb h1 h2 hSe hC]
    simp [hauto]

/-- With auto-provisioning off, no saved dataset and no TLVs loaded, `ot_task`
enables neither interface and prints the provisioning hints. -/
theorem ot_task_waits_without_auto (cfg : Config) (env : Env) (netif : Nat) (w : World)
    (hauto : cfg.THREAD_AUTO_START = 0)
    (hg : env.otDatasetGetActive ≠ OT_ERROR_NONE)
    (hl : (load_dataset_from_tlvs cfg env w).outcome = .returned false) :
    (∀ b, Call.otIp6SetEnabled b ∉ (ot_task cfg env netif w).trace) ∧
    (∀ b, Call.otThreadSetEnabled b ∉ (ot_task cfg env netif w).trace) ∧
    (env.esp_openthread_init = ESP_OK → env.esp_openthread_border_router_init = ESP_OK →
      Call.log .I "No Thread dataset configured" [] ∈ (ot_task cfg env netif w).trace) := by
  by_cases h : env.esp_openthread_init = ESP_OK ∧
      env.esp_openthread_border_router_init = ESP_OK
  · obtain ⟨Cr, hC, -⟩ := create_default_dataset_returns cfg env w
    obtain ⟨Lt, lb, hL⟩ := load_dataset_from_tlvs_returns cfg env w
    have hcalls := load_dataset_from_tlvs_calls cfg env w
    have hSe := ot_task_sources_eval cfg env w
    rw [hL] at hl hcalls
    simp only [Outcome.returned.injEq] at hl
    subst hl
    rw [if_neg hg, hL] at hSe
    rw [ot_task_eval cfg env netif w _ Cr false h.1 h.2 hSe hC]
    simp only at hcalls
    have n1 : ∀ b, Call.otIp6SetEnabled b ∉ Lt := by
      intro b hb
      rcases hcalls _ hb with ⟨x, hx⟩ | ⟨l, f, a, hx⟩ <;> cases hx
    have n2 : ∀ b, Call.otThreadSetEnabled b ∉ Lt := by
      intro b hb
      rcases hcalls _ hb with ⟨x, hx⟩ | ⟨l, f, a, hx⟩ <;> cases hx
    have e1 : ¬ (cfg.THREAD_AUTO_START ≠ 0 ∧ false = false) := fun x => x.1 hauto
    have e2 : ¬ (false = true ∨ cfg.THREAD_AUTO_START ≠ 0) := by simp [hauto]
    rw [if_neg e1, if_neg e2]
    refine ⟨fun b => ?_, fun b => ?_, fun _ _ => ?_⟩
    · split_ifs <;> simp [n1 b]
    · split_ifs <;> simp [n2 b]
    · simp
  · obtain ⟨t, ht, hc⟩ := ot_task_abort cfg env netif w h
    rw [ht]
    refine ⟨fun b hb => ?_, fun b hb => ?_, fun h1 h2 => absurd ⟨h1, h2⟩ h⟩
    · have := hc _ hb
      simp at this
    · have := hc _ hb
      simp at this

/-- The event handler never restarts the device. -/
theorem deliver_no_restart (cfg : Config) (evs : List WifiEvent) :
    ∀ g : Globals, Call.esp_restart ∉ (deliver cfg g evs).2 := by
  induction evs with
  | nil => intro g; simp [deliver_nil]
  | cons e es ih =>
    intro g h
    rw [deliver_cons] at h
    rcases List.mem_append.1 h with h | h
    · rcases handler_calls cfg _ _ g _ h with h | ⟨x, h⟩ | ⟨l, f, a, h⟩ <;> cases h
    · exact ih _ h

/-- Once `app_main` has returned, no later Wi-Fi event restarts the device:
the wait in `init_wifi` was the only reader of the failure flag. -/
theorem device_no_restart_after_startup (cfg : Config) (env : Env)
    (events : List WifiEvent)
    (h : (app_main cfg env (World.boot events)).outcome = .returned ()) :
    Call.esp_restart ∉ (device cfg env events).trace := by
  obtain ⟨tail, o, w2, heq, _, _, hcase⟩ := app_main_cases cfg env (World.boot events)
  have hnvs : Call.esp_restart ∉ (app_main_nvs env (World.boot events)).trace := by
    rw [app_main_nvs_eval]
    split_ifs <;> simp
  unfold device
  rw [heq] at h ⊢
  simp only at h
  subst h
  simp only [List.mem_append, not_or]
  rcases hcase with ⟨hno, _⟩ | ⟨_, _, hs, bits, hW, _, htail⟩
  · exact absurd rfl hno
  · have hno := waitBits_no_restart cfg (WIFI_CONNECTED_BIT ||| WIFI_FAIL_BIT)
      { (World.boot events).globals with s_wifi_event_group := 0 } (World.boot events).pending
    rw [hW] at hno
    simp only at hno
    refine ⟨⟨⟨by simp, hnvs⟩, ?_⟩, deliver_no_restart cfg _ _⟩
    rw [htail]
    simp [hno]

/-- C3, the code at the failing input: with a budget of one retry, Wi-Fi
connects, `app_main` returns, and the connection is then lost for good. The
handler retries once, then sets the failure flag and stops reconnecting; the
device makes no delay and no restart, so nothing acts on the flag. -/
theorem device_fail_flag_without_restart :
    (app_main cfgRetry1 Env.ok
      (World.boot [evStaStart, evGotIp, evDisconnected, evDisconnected])).outcome =
      .returned () ∧
    Call.xEventGroupSetBits WIFI_FAIL_BIT ∈
      (device cfgRetry1 Env.ok [evStaStart, evGotIp, evDisconnected, evDisconnected]).trace ∧
    (device cfgRetry1 Env.ok
      [evStaStart, evGotIp, evDisconnected, evDisconnected]).world.globals.s_wifi_event_group
      &&& WIFI_FAIL_BIT ≠ 0 ∧
    Call.vTaskDelay 5000 ∉
      (device cfgRetry1 Env.ok [evStaStart, evGotIp, evDisconnected, evDisconnected]).trace ∧
    Call.esp_restart ∉
      (device cfgRetry1 Env.ok [evStaStart, evGotIp, evDisconnected, evDisconnected]).trace := by
  decide

/-! ## Concrete runs -/

/-- Witness for C4: the driver set-up succeeds and Wi-Fi never connects with a
budget of one retry; the wait returns the failure flag alone and `init_wifi`
restarts. -/
theorem init_wifi_restart_iff_witness :
    (Env.ok.esp_wifi_init = ESP_OK ∧ Env.ok.register_any_wifi_event = ESP_OK ∧
      Env.ok.register_got_ip_event = ESP_OK ∧ Env.ok.esp_wifi_set_mode = ESP_OK ∧
      Env.ok.esp_wifi_set_config = ESP_OK ∧ Env.ok.esp_wifi_start = ESP_OK) ∧
    (Call.esp_restart ∈
        (init_wifi cfgRetry1 Env.ok
          (World.boot [evStaStart, evDisconnected, evDisconnected])).trace ↔
      2 &&& WIFI_FAIL_BIT ≠ 0 ∧ 2 &&& WIFI_CONNECTED_BIT = 0) :=
  ⟨by decide,
    ((init_wifi_restart_iff cfgRetry1 Env.ok
      (World.boot [evStaStart, evDisconnected, evDisconnected]) (by decide)).1 2
        (by decide)).2.2.2⟩

/-- Witness for C5: the stack and the border router initialise and there is no
saved dataset. With a valid TLV string that the stack accepts, the credential
calls are the reading of the saved dataset and the applying of the decoded
TLVs, and no new network is created; with an empty TLV string and
auto-provisioning on, a new network is created. -/
theorem ot_task_source_order_witness :
    ((Env.ok.esp_openthread_init = ESP_OK ∧
        Env.ok.esp_openthread_border_router_init = ESP_OK) ∧
      Env.ok.otDatasetGetActive ≠ OT_ERROR_NONE ∧
      ValidHex cfgTlvs.THREAD_DATASET_TLVS OT_OPERATIONAL_DATASET_MAX_LENGTH ∧
      (load_dataset_from_tlvs cfgTlvs Env.ok (World.boot [])).outcome = .returned true ∧
      cfgAuto.THREAD_AUTO_START ≠ 0 ∧
      (load_dataset_from_tlvs cfgAuto Env.ok (World.boot [])).outcome = .returned false) ∧
    (ot_task cfgTlvs Env.ok 1 (World.boot [])).trace.filterMap sourceRank = [1, 2] ∧
    Call.otDatasetGetActive ∈ (ot_task cfgTlvs Env.ok 1 (World.boot [])).trace ∧
    Call.otDatasetSetActiveTlvs
      ⟨(hex_to_bytes cfgTlvs.THREAD_DATASET_TLVS Env.ok.tlvs_uninit
          OT_OPERATIONAL_DATASET_MAX_LENGTH).2,
        cfgTlvs.THREAD_DATASET_TLVS.length / 2⟩ ∈
      (ot_task cfgTlvs Env.ok 1 (World.boot [])).trace ∧
    (Call.otDatasetCreateNewNetwork ∉ (ot_task cfgTlvs Env.ok 1 (World.boot [])).trace ∧
      ∀ d, Call.otDatasetSetActive d ∉ (ot_task cfgTlvs Env.ok 1 (World.boot [])).trace) ∧
    Call.otDatasetCreateNewNetwork ∈ (ot_task cfgAuto Env.ok 1 (World.boot [])).trace :=
  ⟨⟨⟨rfl, rfl⟩, by decide, by decide, by decide, by decide, by decide⟩,
    (ot_task_source_order cfgTlvs Env.ok 1 (World.boot [])).1.trans (by decide),
    ((ot_task_source_order cfgTlvs Env.ok 1 (World.boot [])).2.1 ⟨rfl, rfl⟩).1,
    (((ot_task_source_order cfgTlvs Env.ok 1 (World.boot [])).2.1 ⟨rfl, rfl⟩).2.1
      (by decide)).2 (by decide),
    (ot_task_source_order cfgTlvs Env.ok 1 (World.boot [])).2.2.2.2.1 (by decide) (by decide),
    (((ot_task_source_order cfgAuto Env.ok 1 (World.boot [])).2.1 ⟨rfl, rfl⟩).2.2
      (by decide) (by decide) (by decide)).2⟩

/-- Witness for C7: the string `0e08fF` is valid hex and the stack accepts the
three decoded bytes. -/
theorem load_dataset_from_tlvs_iff_witness :
    (ValidHex cfgTlvs.THREAD_DATASET_TLVS OT_OPERATIONAL_DATASET_MAX_LENGTH ∧
      Env.ok.otDatasetSetActiveTlvs
        ⟨(hex_to_bytes cfgTlvs.THREAD_DATASET_TLVS Env.ok.tlvs_uninit
            OT_OPERATIONAL_DATASET_MAX_LENGTH).2,
          cfgTlvs.THREAD_DATASET_TLVS.length / 2⟩ = OT_ERROR_NONE) ∧
    (load_dataset_from_tlvs cfgTlvs Env.ok (World.boot [])).outcome = .returned true :=
  ⟨⟨by decide, rfl⟩,
    (load_dataset_from_tlvs_iff cfgTlvs Env.ok (World.boot [])).1.2 ⟨by decide, rfl⟩⟩

/-- Witness for C9: storage reports no free pages and the erase fails;
`app_main` aborts. -/
theorem app_main_storage_gate_witness :
    ¬ (if envEraseFails.nvs_flash_init_1 = ESP_ERR_NVS_NO_FREE_PAGES ∨
        envEraseFails.nvs_flash_init_1 = ESP_ERR_NVS_NEW_VERSION_FOUND then
        envEraseFails.nvs_flash_erase = ESP_OK ∧ envEraseFails.nvs_flash_init_2 = ESP_OK
      else envEraseFails.nvs_flash_init_1 = ESP_OK) ∧
    ((app_main Config.shipped envEraseFails (World.boot [])).outcome = .aborted ∧
      (app_main Config.shipped envEraseFails (World.boot [])).trace.getLast? =
        some .abort) :=
  ⟨by decide,
    (app_main_storage_gate Config.shipped envEraseFails (World.boot [])).2.2.2 (by decide)⟩

/-- Witness for C10: every call succeeds and Wi-Fi connects at once; the mesh
task is created and `app_main` returns. -/
theorem app_main_startup_order_witness :
    Call.xTaskCreate "ot_main" 20480 1 5 ∈
      (app_main Config.shipped Env.ok (World.boot [evStaStart, evGotIp])).trace ∧
    (app_main Config.shipped Env.ok (World.boot [evStaStart, evGotIp])).outcome =
      .returned () :=
  ⟨by decide,
    (app_main_startup_order Config.shipped Env.ok [evStaStart, evGotIp]).1
      ⟨"ot_main", 20480, 1, 5, by decide⟩⟩

/-! ## Got-IP and the retry budget -/

theorem or_connected_and_connected (x : Nat) :
    (x ||| WIFI_CONNECTED_BIT) &&& WIFI_CONNECTED_BIT ≠ 0 := by
  unfold WIFI_CONNECTED_BIT
  intro h
  have h0 := congrArg (fun n => n.testBit 0) h
  simp at h0

/-- The handler on a got-IP event. -/
theorem handler_got_ip (cfg : Config) (g : Globals) :
    wifi_event_handler cfg .IP_EVENT IP_EVENT_STA_GOT_IP g =
      ({ s_wifi_event_group := g.s_wifi_event_group ||| WIFI_CONNECTED_BIT,
         s_retry_count := 0 },
        [.log .I "Got IP: %d.%d.%d.%d" [], .xEventGroupSetBits WIFI_CONNECTED_BIT]) := by
  simp [wifi_event_handler, IP_EVENT_STA_GOT_IP]

/-- C16: for every prior value of the retry counter and of the flags, after
`wifi_event_handler` handles a got-IP event the retry counter is 0, the
connected flag is set and the failure flag is as it was. So the budget counts
the disconnects since the last got-IP: with a budget `N > 0` (an `int`), after
a got-IP event followed by events without got-IP that contain `d` disconnects
the counter is `min d N`, whatever it was before. Events other than
station-start, disconnect and got-IP leave the counter and the flags unchanged
and make no call. -/
theorem wifi_got_ip_restores_budget (cfg : Config) :
    (∀ g : Globals,
      (wifi_event_handler cfg .IP_EVENT IP_EVENT_STA_GOT_IP g).1.s_retry_count = 0 ∧
      (wifi_event_handler cfg .IP_EVENT IP_EVENT_STA_GOT_IP g).1.s_wifi_event_group &&&
        WIFI_CONNECTED_BIT ≠ 0 ∧
      (wifi_event_handler cfg .IP_EVENT IP_EVENT_STA_GOT_IP g).1.s_wifi_event_group &&&
        WIFI_FAIL_BIT = g.s_wifi_event_group &&& WIFI_FAIL_BIT) ∧
    (∀ (g : Globals) (pre : List WifiEvent),
      0 < cfg.WIFI_MAX_RETRY → cfg.WIFI_MAX_RETRY ≤ INT_MAX → evGotIp ∉ pre →
      (deliver cfg g (evGotIp :: pre)).1.s_retry_count =
        min (pre.count evDisconnected : Int) cfg.WIFI_MAX_RETRY) ∧
    (∀ (e : WifiEvent) (g : Globals),
      e ≠ evStaStart → e ≠ evDisconnected → e ≠ evGotIp →
      wifi_event_handler cfg e.event_base e.event_id g = (g, [])) := by
  refine ⟨fun g => ?_, fun g pre hpos hint hpre => ?_, fun e g h1 h2 h3 => ?_⟩
  · rw [handler_got_ip]
    exact ⟨rfl, or_connected_and_connected _, or_connected_and_fail _⟩
  · rw [deliver_cons]
    have hg : wifi_event_handler cfg evGotIp.event_base evGotIp.event_id g =
        wifi_event_handler cfg .IP_EVENT IP_EVENT_STA_GOT_IP g := rfl
    rw [hg, handler_got_ip]
    simp only
    rw [deliver_retry_count cfg hpos hint pre _ (le_refl _) (le_of_lt hpos) hpre]
    simp
  · obtain ⟨b, i⟩ := e
    simp only [evStaStart, evDisconnected, evGotIp, ne_eq, WifiEvent.mk.injEq, not_and]
      at h1 h2 h3
    unfold wifi_event_handler
    split_ifs with c1 c2 c3 c4
    · exact absurd c1.2 (h1 c1.1)
    · exact absurd c2.2 (h2 c2.1)
    · exact absurd c2.2 (h2 c2.1)
    · exact absurd c4.2 (h3 c4.1)
    · rfl

/-! ## The state-change callback -/

/-- The function `ot_state_change_callback`, case by case. -/
theorem ot_state_change_callback_eval (flags : Nat) (role : Int) (w : World) :
    ot_state_change_callback flags role w =
      ⟨(if flags &&& OT_CHANGED_THREAD_ROLE ≠ 0 then
          [.otThreadGetDeviceRole, .log .I "Thread role changed: %s" [.str (role_str role)]]
        else []) ++
        (if flags &&& OT_CHANGED_THREAD_NETDATA ≠ 0 then
          [.log .I "Thread network data updated" []]
        else []),
       .returned (), w⟩ := by
  unfold ot_state_change_callback
  by_cases h1 : flags &&& OT_CHANGED_THREAD_ROLE = 0 <;>
  by_cases h2 : flags &&& OT_CHANGED_THREAD_NETDATA = 0 <;>
  simp [h1, h2, ite_bind_apply, bind_assoc_apply]

/-- C15: `ot_state_change_callback` returns after making, in this order, the
call reading the device role and the role line if the role-changed flag is
set, and the network-data line if the network-data flag is set, and nothing
else. So its only call of the stack is `otThreadGetDeviceRole`, made exactly
when the role-changed flag is set; the role line is logged exactly when the
role-changed flag is set and the network-data line exactly when the
network-data flag is set. The role name is `disabled`, `detached`, `child`,
`router`, `leader` for the five roles, which are pairwise distinct names, and
`unknown` for every other role value. -/
theorem ot_state_change_callback_passive (flags : Nat) (role : Int) (w : World) :
    ot_state_change_callback flags role w =
      ⟨(if flags &&& OT_CHANGED_THREAD_ROLE ≠ 0 then
          [.otThreadGetDeviceRole, .log .I "Thread role changed: %s" [.str (role_str role)]]
        else []) ++
        (if flags &&& OT_CHANGED_THREAD_NETDATA ≠ 0 then
          [.log .I "Thread network data updated" []]
        else []),
       .returned (), w⟩ ∧
    (∀ c ∈ (ot_state_change_callback flags role w).trace,
      c = .otThreadGetDeviceRole ∨ ∃ l f a, c = .log l f a) ∧
    (Call.otThreadGetDeviceRole ∈ (ot_state_change_callback flags role w).trace ↔
      flags &&& OT_CHANGED_THREAD_ROLE ≠ 0) ∧
    ((∃ a, Call.log .I "Thread role changed: %s" a ∈
        (ot_state_change_callback flags role w).trace) ↔
      flags &&& OT_CHANGED_THREAD_ROLE ≠ 0) ∧
    (Call.log .I "Thread network data updated" [] ∈
        (ot_state_change_callback flags role w).trace ↔
      flags &&& OT_CHANGED_THREAD_NETDATA ≠ 0) ∧
    role_str OT_DEVICE_ROLE_DISABLED = "disabled" ∧
    role_str OT_DEVICE_ROLE_DETACHED = "detached" ∧
    role_str OT_DEVICE_ROLE_CHILD = "child" ∧
    role_str OT_DEVICE_ROLE_ROUTER = "router" ∧
    role_str OT_DEVICE_ROLE_LEADER = "leader" ∧
    ["disabled", "detached", "child", "router", "leader", "unknown"].Nodup ∧
    (role ≠ OT_DEVICE_ROLE_DISABLED → role ≠ OT_DEVICE_ROLE_DETACHED →
      role ≠ OT_DEVICE_ROLE_CHILD → role ≠ OT_DEVICE_ROLE_ROUTER →
      role ≠ OT_DEVICE_ROLE_LEADER → role_str role = "unknown") := by
  refine ⟨ot_state_change_callback_eval flags role w, ?_, ?_, ?_, ?_, by decide, by decide,
    by decide, by decide, by decide, by decide, ?_⟩
  · rw [ot_state_change_callback_eval]
    intro c hc
    split_ifs at hc <;>
      simp only [List.append_nil, List.nil_append, List.cons_append, List.mem_cons,
        List.mem_singleton, List.not_mem_nil, or_false] at hc <;>
      aesop
  · rw [ot_state_change_callback_eval]
    split_ifs <;> simp_all
  · rw [ot_state_change_callback_eval]
    split_ifs <;> simp_all
  · rw [ot_state_change_callback_eval]
    split_ifs <;> simp_all
  · intro h0 h1 h2 h3 h4
    simp [role_str, h0, h1, h2, h3, h4]

/-! ## The discovery service -/

/-- The function `init_mdns`, case by case: it stops at the first call that
fails. -/
theorem init_mdns_eval (cfg : Config) (env : Env) (w : World) :
    init_mdns cfg env w =
      if env.mdns_init ≠ ESP_OK then ⟨[.mdns_init, .abort], .aborted, w⟩
      else if env.mdns_hostname_set ≠ ESP_OK then
        ⟨[.mdns_init, .mdns_hostname_set cfg.DEVICE_NAME, .abort], .aborted, w⟩
      else if env.mdns_instance_name_set ≠ ESP_OK then
        ⟨[.mdns_init, .mdns_hostname_set cfg.DEVICE_NAME,
          .mdns_instance_name_set cfg.DEVICE_NAME, .abort], .aborted, w⟩
      else if env.mdns_service_add ≠ ESP_OK then
        ⟨[.mdns_init, .mdns_hostname_set cfg.DEVICE_NAME,
          .mdns_instance_name_set cfg.DEVICE_NAME,
          .mdns_service_add cfg.DEVICE_NAME "_meshcop" "_udp" 49191
            [("rv", "1"), ("dd", cfg.DEVICE_NAME), ("vn", "Espressif"),
             ("mn", "ESP32-C6 OTBR")] 4,
          .abort], .aborted, w⟩
      else
        ⟨[.mdns_init, .mdns_hostname_set cfg.DEVICE_NAME,
          .mdns_instance_name_set cfg.DEVICE_NAME,
          .mdns_service_add cfg.DEVICE_NAME "_meshcop" "_udp" 49191
            [("rv", "1"), ("dd", cfg.DEVICE_NAME), ("vn", "Espressif"),
             ("mn", "ESP32-C6 OTBR")] 4,
          .log .I "mDNS started: %s._meshcop._udp.local" [.str cfg.DEVICE_NAME]],
          .returned (), w⟩ := by
  unfold init_mdns
  simp only [ext_bind_apply, check_bind_apply, MDNS_INSTANCE_NAME, meshcop_txt]
  by_cases h1 : env.mdns_init = ESP_OK
  · by_cases h2 : env.mdns_hostname_set = ESP_OK
    · by_cases h3 : env.mdns_instance_name_set = ESP_OK
      · by_cases h4 : env.mdns_service_add = ESP_OK
        · simp [h1, h2, h3, h4]
        · simp [h1, h2, h3, h4]
      · simp [h1, h2, h3]
    · simp [h1, h2]
  · simp [h1]

/-- C12: for every configured device name and whatever the responder
returns, every host name and every instance name that `init_mdns` sets is
`DEVICE_NAME`, and every service it registers is the one fixed service:
instance `DEVICE_NAME`, type `_meshcop`, protocol `_udp`, port 49191, the four
TXT records `rv=1`, `dd=DEVICE_NAME`, `vn=Espressif`, `mn=ESP32-C6 OTBR`, and a
TXT count equal to the number of records. It registers the service at most
once, and exactly once, after setting both names, when the three calls before
succeed; it returns exactly when all four calls succeed. -/
theorem init_mdns_fixed_service (cfg : Config) (env : Env) (w : World) :
    (∀ n, Call.mdns_hostname_set n ∈ (init_mdns cfg env w).trace → n = cfg.DEVICE_NAME) ∧
    (∀ n, Call.mdns_instance_name_set n ∈ (init_mdns cfg env w).trace →
      n = cfg.DEVICE_NAME) ∧
    (∀ s ∈ servicesAdded (init_mdns cfg env w).trace,
      s = (cfg.DEVICE_NAME, "_meshcop", "_udp", 49191,
        [("rv", "1"), ("dd", cfg.DEVICE_NAME), ("vn", "Espressif"), ("mn", "ESP32-C6 OTBR")],
        4) ∧
      s.2.2.2.2.2 = s.2.2.2.2.1.length) ∧
    (servicesAdded (init_mdns cfg env w).trace).length ≤ 1 ∧
    (env.mdns_init = ESP_OK → env.mdns_hostname_set = ESP_OK →
      env.mdns_instance_name_set = ESP_OK →
      ∃ rest, (init_mdns cfg env w).trace =
        [.mdns_init, .mdns_hostname_set cfg.DEVICE_NAME,
         .mdns_instance_name_set (MDNS_INSTANCE_NAME cfg),
         .mdns_service_add cfg.DEVICE_NAME "_meshcop" "_udp" 49191
           [("rv", "1"), ("dd", cfg.DEVICE_NAME), ("vn", "Espressif"),
            ("mn", "ESP32-C6 OTBR")] 4] ++ rest ∧
        servicesAdded rest = []) ∧
    ((init_mdns cfg env w).outcome = .returned () ↔
      env.mdns_init = ESP_OK ∧ env.mdns_hostname_set = ESP_OK ∧
      env.mdns_instance_name_set = ESP_OK ∧ env.mdns_service_add = ESP_OK) := by
  rw [init_mdns_eval]
  by_cases h1 : env.mdns_init = ESP_OK
  · by_cases h2 : env.mdns_hostname_set = ESP_OK
    · by_cases h3 : env.mdns_instance_name_set = ESP_OK
      · by_cases h4 : env.mdns_service_add = ESP_OK
        · simp [h1, h2, h3, h4, servicesAdded, MDNS_INSTANCE_NAME]
        · simp [h1, h2, h3, h4, servicesAdded, MDNS_INSTANCE_NAME]
      · simp [h1, h2, h3, servicesAdded]
    · simp [h1, h2, servicesAdded]
  · simp [h1, servicesAdded]

/-! ## The new network -/

/-- Overwriting the element right after a copied front of a list. -/
theorem set_after_front (A B : List Nat) (hB : B ≠ []) :
    ((A ++ B).set A.length 0).take (A.length + 1) = A ++ [0] ∧
    ((A ++ B).set A.length 0).drop (A.length + 1) = B.drop 1 := by
  rw [List.set_append_right _ _ (le_refl _), Nat.sub_self]
  cases B with
  | nil => exact absurd rfl hB
  | cons b B' =>
    refine ⟨?_, ?_⟩
    · rw [List.set_cons_zero, List.take_append_eq_append_take]
      simp
    · rw [List.set_cons_zero, List.drop_append_eq_append_drop]
      simp

/-- The name that `create_default_dataset` writes into a name array `m8` of
`OT_NETWORK_NAME_MAX_SIZE + 1` bytes: the first `n` bytes of the configured
name, a NUL, and the rest of the array as it was, where `n` is the length of
the configured name cut at `OT_NETWORK_NAME_MAX_SIZE`. -/
theorem network_name_written (name m8 : List Nat)
    (hm : m8.length = OT_NETWORK_NAME_MAX_SIZE + 1) :
    ((memcpy m8 name
        (if name.length > OT_NETWORK_NAME_MAX_SIZE then OT_NETWORK_NAME_MAX_SIZE
          else name.length)).set
        (if name.length > OT_NETWORK_NAME_MAX_SIZE then OT_NETWORK_NAME_MAX_SIZE
          else name.length) 0).length = OT_NETWORK_NAME_MAX_SIZE + 1 ∧
    ((memcpy m8 name
        (if name.length > OT_NETWORK_NAME_MAX_SIZE then OT_NETWORK_NAME_MAX_SIZE
          else name.length)).set
        (if name.length > OT_NETWORK_NAME_MAX_SIZE then OT_NETWORK_NAME_MAX_SIZE
          else name.length) 0).take (min name.length OT_NETWORK_NAME_MAX_SIZE + 1) =
      name.take (min name.length OT_NETWORK_NAME_MAX_SIZE) ++ [0] ∧
    ((memcpy m8 name
        (if name.length > OT_NETWORK_NAME_MAX_SIZE then OT_NETWORK_NAME_MAX_SIZE
          else name.length)).set
        (if name.length > OT_NETWORK_NAME_MAX_SIZE then OT_NETWORK_NAME_MAX_SIZE
          else name.length) 0).drop (min name.length OT_NETWORK_NAME_MAX_SIZE + 1) =
      m8.drop (min name.length OT_NETWORK_NAME_MAX_SIZE + 1) := by
  have hn : (if name.length > OT_NETWORK_NAME_MAX_SIZE then OT_NETWORK_NAME_MAX_SIZE
      else name.length) = min name.length OT_NETWORK_NAME_MAX_SIZE := by
    split_ifs <;> omega
  rw [hn]
  generalize hk : min name.length OT_NETWORK_NAME_MAX_SIZE = n
  have hn1 : n ≤ name.length := by omega
  have hn2 : n ≤ OT_NETWORK_NAME_MAX_SIZE := by omega
  have hA : (name.take n).length = n := by rw [List.length_take]; omega
  have hB : m8.drop n ≠ [] := by
    intro h
    have := congrArg List.length h
    rw [List.length_drop] at this
    simp at this
    omega
  unfold memcpy
  obtain ⟨h1, h2⟩ := set_after_front (name.take n) (m8.drop n) hB
  rw [hA] at h1 h2
  refine ⟨?_, h1, ?_⟩
  · rw [List.length_set, List.length_append, hA, List.length_drop]; omega
  · rw [h2, List.drop_drop, Nat.add_comm]

/-- C13: when `otDatasetCreateNewNetwork` fails, `create_default_dataset` does
not call `otDatasetSetActive`. When it succeeds, `otDatasetSetActive` is called
once, with the dataset `d` that is the dataset of the stack with the channel
and the network name overridden: the channel is `THREAD_CHANNEL` (as a
`uint16_t`) with the channel-present flag set, the name-present flag is set,
every other field is as the stack returned it, and the name array (of
`OT_NETWORK_NAME_MAX_SIZE + 1` bytes) holds the first
`min(length, OT_NETWORK_NAME_MAX_SIZE)` bytes of `THREAD_NETWORK_NAME`
followed by a NUL, the bytes behind the NUL being as the stack left them. -/
theorem create_default_dataset_overrides (cfg : Config) (env : Env) (w : World) :
    (env.otDatasetCreateNewNetwork.1 ≠ OT_ERROR_NONE →
      datasetsSetActive (create_default_dataset cfg env w).trace = []) ∧
    (env.otDatasetCreateNewNetwork.1 = OT_ERROR_NONE →
      ∃ d, datasetsSetActive (create_default_dataset cfg env w).trace = [d] ∧
        d.mChannel = cfg.THREAD_CHANNEL % 65536 ∧
        (cfg.THREAD_CHANNEL < 65536 → d.mChannel = cfg.THREAD_CHANNEL) ∧
        d.mIsChannelPresent = true ∧
        d.mIsNetworkNamePresent = true ∧
        d.rest = env.otDatasetCreateNewNetwork.2.rest ∧
        (env.otDatasetCreateNewNetwork.2.mNetworkName.length =
            OT_NETWORK_NAME_MAX_SIZE + 1 →
          d.mNetworkName.length = OT_NETWORK_NAME_MAX_SIZE + 1 ∧
          d.mNetworkName.take
              (min cfg.THREAD_NETWORK_NAME.length OT_NETWORK_NAME_MAX_SIZE + 1) =
            cfg.THREAD_NETWORK_NAME.take
              (min cfg.THREAD_NETWORK_NAME.length OT_NETWORK_NAME_MAX_SIZE) ++ [0] ∧
          d.mNetworkName.drop
              (min cfg.THREAD_NETWORK_NAME.length OT_NETWORK_NAME_MAX_SIZE + 1) =
            env.otDatasetCreateNewNetwork.2.mNetworkName.drop
              (min cfg.THREAD_NETWORK_NAME.length OT_NETWORK_NAME_MAX_SIZE + 1))) := by
  rw [create_default_dataset_eval]
  refine ⟨fun h => ?_, fun h => ?_⟩
  · rw [if_pos h]
    simp [datasetsSetActive]
  · rw [if_neg (not_not.2 h)]
    refine ⟨{ env.otDatasetCreateNewNetwork.2 with
        mChannel := cfg.THREAD_CHANNEL % 65536
        mIsChannelPresent := true
        mNetworkName :=
          (memcpy env.otDatasetCreateNewNetwork.2.mNetworkName cfg.THREAD_NETWORK_NAME
            (if cfg.THREAD_NETWORK_NAME.length > OT_NETWORK_NAME_MAX_SIZE then
              OT_NETWORK_NAME_MAX_SIZE else cfg.THREAD_NETWORK_NAME.length)).set
            (if cfg.THREAD_NETWORK_NAME.length > OT_NETWORK_NAME_MAX_SIZE then
              OT_NETWORK_NAME_MAX_SIZE else cfg.THREAD_NETWORK_NAME.length) 0
        mIsNetworkNamePresent := true },
      ?_, rfl, fun hc => Nat.mod_eq_of_lt hc, rfl, rfl, rfl, fun hm => ?_⟩
    · simp only [datasetsSetActive]
      split_ifs <;> rfl
    · exact network_name_written cfg.THREAD_NETWORK_NAME _ hm

/-! ## The stack lock -/

/-- The first two credential sources make no lock call and do not launch the
run loop. -/
theorem ot_task_sources_calls (cfg : Config) (env : Env) (w : World) :
    ∀ c ∈ (ot_task_sources cfg env w).trace,
      isLockCall c = false ∧ c ≠ .esp_openthread_launch_mainloop := by
  rw [ot_task_sources_eval]
  split_ifs
  · simp [isLockCall]
  · intro c hc
    simp only [prepend_trace, List.singleton_append, List.mem_cons] at hc
    rcases hc with rfl | hc
    · simp [isLockCall]
    · rcases load_dataset_from_tlvs_calls cfg env w c hc with ⟨x, rfl⟩ | ⟨l, f, a, rfl⟩ <;>
        simp [isLockCall]

/-- The function `create_default_dataset` makes no lock call and does not
launch the run loop. -/
theorem create_default_dataset_calls (cfg : Config) (env : Env) (w : World) :
    ∀ c ∈ (create_default_dataset cfg env w).trace,
      isLockCall c = false ∧ c ≠ .esp_openthread_launch_mainloop := by
  rw [create_default_dataset_eval]
  intro c hc
  split_ifs at hc <;>
    simp only [List.mem_cons, List.mem_singleton, List.not_mem_nil, or_false] at hc <;>
    rcases hc with rfl | rfl | rfl | rfl <;> simp [isLockCall]



/-! ## What the hex decoder writes -/

/-- On a hexadecimal digit `hex_nibble` is the value of the digit, below 16. -/
theorem hex_nibble_eq_hexValue (c : Nat) (h : isHexDigit c = true) :
    hex_nibble c = (hexValue c : Int) ∧ hexValue c < 16 := by
  unfold isHexDigit at h
  unfold hex_nibble hexValue
  simp only [Char.reduceToNat, Bool.or_eq_true, Bool.and_eq_true, decide_eq_true_eq] at h ⊢
  split_ifs with h1 h2 h3
  · constructor <;> omega
  · constructor <;> omega
  · constructor <;> omega
  · omega

/-- The byte built from two nibbles by shift and or. -/
theorem nibbles_byte : ∀ a, a < 16 → ∀ b, b < 16 → ((a <<< 4) ||| b) % 256 = 16 * a + b := by
  decide

/-- Upper-case spelling does not change what `hex_nibble` returns. -/
theorem hex_nibble_hexUpper (c : Nat) : hex_nibble (hexUpper c) = hex_nibble c := by
  unfold hexUpper hex_nibble
  simp only [Char.reduceToNat]
  split_ifs <;> omega

/-- Lower-case spelling does not change what `hex_nibble` returns. -/
theorem hex_nibble_hexLower (c : Nat) : hex_nibble (hexLower c) = hex_nibble c := by
  unfold hexLower hex_nibble
  simp only [Char.reduceToNat]
  split_ifs <;> omega

/-- The buffer after the loop of `hex_to_bytes` over hexadecimal digits: the
bytes at `i`, ..., `i + n - 1` are the decoded ones, the others are untouched. -/
theorem hex_to_bytes_loop_snd (hex : List Nat) (byte_len : Nat) :
    ∀ (n i : Nat) (out : List Nat),
      (∀ j, 2 * i ≤ j → j < 2 * (i + n) → isHexDigit (charAt hex j) = true) →
      i + n ≤ out.length →
      ∀ k, (hex_to_bytes_loop hex byte_len n i out).2[k]? =
        if i ≤ k ∧ k < i + n then some (byteAt hex k) else out[k]? := by
  intro n
  induction n with
  | zero =>
    intro i out _ _ k
    rw [hex_to_bytes_loop_zero, if_neg (by omega)]
  | succ n ih =>
    intro i out hall hlen k
    have h0 := hex_nibble_eq_hexValue _ (hall (i * 2) (by omega) (by omega))
    have h1 := hex_nibble_eq_hexValue _ (hall (i * 2 + 1) (by omega) (by omega))
    have hgood : ¬ (hex_nibble (charAt hex (i * 2)) < 0 ∨
        hex_nibble (charAt hex (i * 2 + 1)) < 0) := by
      rw [h0.1, h1.1]; omega
    rw [hex_to_bytes_loop_succ, if_neg hgood,
      ih (i + 1) _ (fun j hj1 hj2 => hall j (by omega) (by omega))
        (by rw [List.length_set]; omega) k]
    rw [h0.1, h1.1, Int.toNat_ofNat, Int.toNat_ofNat, nibbles_byte _ h0.2 _ h1.2]
    by_cases hk : k = i
    · subst hk
      rw [if_neg (by omega), if_pos (by omega), List.getElem?_set, if_pos rfl,
        if_pos (by omega)]
      unfold byteAt
      rw [Nat.mul_comm 2 k]
    · rw [List.getElem?_set_ne (Ne.symm hk)]
      by_cases hr : i + 1 ≤ k ∧ k < i + 1 + n
      · rw [if_pos hr, if_pos (by omega)]
      · rw [if_neg hr, if_neg (by omega)]

/-- The loop of `hex_to_bytes` leaves the size of the buffer as it was. -/
theorem hex_to_bytes_loop_length (hex : List Nat) (byte_len : Nat) :
    ∀ (n i : Nat) (out : List Nat),
      (hex_to_bytes_loop hex byte_len n i out).2.length = out.length := by
  intro n
  induction n with
  | zero => intro i out; rw [hex_to_bytes_loop_zero]
  | succ n ih =>
    intro i out
    rw [hex_to_bytes_loop_succ]
    split_ifs
    · rfl
    · rw [ih, List.length_set]

/-- The loop of `hex_to_bytes` sees the string only through `hex_nibble`. -/
theorem hex_to_bytes_loop_congr (hex1 hex2 : List Nat) (byte_len : Nat)
    (h : ∀ j, hex_nibble (charAt hex1 j) = hex_nibble (charAt hex2 j)) :
    ∀ (n i : Nat) (out : List Nat),
      hex_to_bytes_loop hex1 byte_len n i out = hex_to_bytes_loop hex2 byte_len n i out := by
  intro n
  induction n with
  | zero => intro i out; rw [hex_to_bytes_loop_zero, hex_to_bytes_loop_zero]
  | succ n ih =>
    intro i out
    rw [hex_to_bytes_loop_succ, hex_to_bytes_loop_succ, h (i * 2), h (i * 2 + 1), ih]

/-- Two strings of the same length whose characters have the same nibble
values decode alike. -/
theorem hex_to_bytes_congr (hex1 hex2 out : List Nat) (max_len : Nat)
    (hlen : hex1.length = hex2.length)
    (h : ∀ j, hex_nibble (charAt hex1 j) = hex_nibble (charAt hex2 j)) :
    hex_to_bytes hex1 out max_len = hex_to_bytes hex2 out max_len := by
  unfold hex_to_bytes
  simp only [hlen]
  split_ifs
  · rfl
  · rfl
  · exact hex_to_bytes_loop_congr hex1 hex2 _ h _ _ _

/-- The character of a respelt string. -/
theorem charAt_map (f : Nat → Nat) (hf : f 0 = 0) (hex : List Nat) (j : Nat) :
    charAt (hex.map f) j = f (charAt hex j) := by
  unfold charAt
  rw [List.getD_eq_getElem?_getD, List.getD_eq_getElem?_getD, List.getElem?_map]
  cases hex[j]? with
  | none => simp [hf]
  | some c => rfl

/-- The buffer after `hex_to_bytes` on a valid hex string. -/
theorem hex_to_bytes_snd (hex out : List Nat) (max_len : Nat)
    (hv : ValidHex hex max_len) (hout : max_len ≤ out.length) :
    ∀ k, (hex_to_bytes hex out max_len).2[k]? =
      if k < hex.length / 2 then some (byteAt hex k) else out[k]? := by
  obtain ⟨hne, hev, hall, hle⟩ := hv
  have h1 : ¬ (hex.length = 0 ∨ hex.length % 2 ≠ 0) := by
    have : hex.length ≠ 0 := fun h => hne (List.length_eq_zero.1 h)
    omega
  have h2 : ¬ hex.length / 2 > max_len := by omega
  intro k
  unfold hex_to_bytes
  simp only [h1, h2, if_false]
  rw [hex_to_bytes_loop_snd hex _ _ 0 out _ (by omega) k]
  · simp
  · intro j _ hj
    have hj' : j < hex.length := by omega
    unfold charAt
    rw [List.getD_eq_getElem _ _ hj']
    exact hall _ (List.getElem_mem _)

/-! ## Decoding a hex spelling -/

/-- The digit for a value below 16 is a hexadecimal digit with that value. -/
theorem hexDigit_spec (upper : Bool) :
    ∀ v, v < 16 → isHexDigit (hexDigit upper v) = true ∧ hexValue (hexDigit upper v) = v := by
  cases upper <;> decide

theorem hexSpelling_length (upper : Bool) (bytes : List Nat) :
    (hexSpelling upper bytes).length = 2 * bytes.length := by
  induction bytes with
  | nil => rfl
  | cons b bs ih => simp only [hexSpelling, List.length_cons, ih]; omega

theorem hexSpelling_digits (upper : Bool) (bytes : List Nat) (hb : ∀ b ∈ bytes, b < 256) :
    ∀ c ∈ hexSpelling upper bytes, isHexDigit c = true := by
  induction bytes with
  | nil => intro c hc; cases hc
  | cons b bs ih =>
    intro c hc
    have hlt : b < 256 := hb b (List.mem_cons_self _ _)
    simp only [hexSpelling, List.mem_cons] at hc
    rcases hc with rfl | rfl | hc
    · exact (hexDigit_spec upper _ (by omega)).1
    · exact (hexDigit_spec upper _ (by omega)).1
    · exact ih (fun x hx => hb x (List.mem_cons_of_mem _ hx)) c hc

theorem byteAt_cons_cons_succ (a b : Nat) (l : List Nat) (i : Nat) :
    byteAt (a :: b :: l) (i + 1) = byteAt l i := by
  unfold byteAt charAt
  have e1 : 2 * (i + 1) = (2 * i + 1) + 1 := by omega
  have e2 : 2 * (i + 1) + 1 = (2 * i + 1 + 1) + 1 := by omega
  rw [e2, e1, List.getD_cons_succ, List.getD_cons_succ, List.getD_cons_succ,
    List.getD_cons_succ]

/-- The two digits at `2 * i` and `2 * i + 1` of a hex spelling spell byte `i`. -/
theorem byteAt_hexSpelling (upper : Bool) (bytes : List Nat) (hb : ∀ b ∈ bytes, b < 256) :
    ∀ i b, bytes[i]? = some b → byteAt (hexSpelling upper bytes) i = b := by
  induction bytes with
  | nil => intro i b h; simp at h
  | cons x xs ih =>
    intro i b h
    have hlt : x < 256 := hb x (List.mem_cons_self _ _)
    cases i with
    | zero =>
      simp only [List.getElem?_cons_zero, Option.some.injEq] at h
      subst h
      simp only [hexSpelling, byteAt, charAt, Nat.mul_zero, List.getD_cons_zero,
        Nat.zero_add, List.getD_cons_succ]
      rw [(hexDigit_spec upper _ (by omega : x / 16 < 16)).2,
        (hexDigit_spec upper _ (by omega : x % 16 < 16)).2]
      omega
    | succ i =>
      simp only [List.getElem?_cons_succ] at h
      simp only [hexSpelling]
      rw [byteAt_cons_cons_succ]
      exact ih (fun y hy => hb y (List.mem_cons_of_mem _ hy)) i b h

/-- C14: for every string of `2n` hexadecimal digits with `1 ≤ n ≤ max_len`
(shorter than the address space, the buffer holding `max_len` bytes),
`hex_to_bytes` returns `n` and leaves in `out[i]`, for every `i < n`, the byte
`16 * value(hex[2i]) + value(hex[2i+1])`, the bytes from `n` on being
untouched. The upper-case and the lower-case spelling of any string give the
same return value and the same buffer as the string itself. Decoding the hex
spelling, in either case, of a non-empty sequence of at most `max_len` bytes
returns its length and leaves the sequence at the front of the buffer. -/
theorem hex_to_bytes_decodes :
    (∀ (hex out : List Nat) (max_len n : Nat),
      hex.length = 2 * n → 1 ≤ n → n ≤ max_len →
      (∀ c ∈ hex, isHexDigit c = true) →
      hex.length < SIZE_LIMIT → max_len ≤ out.length →
      (hex_to_bytes hex out max_len).1 = (n : Int) ∧
      (∀ i, i < n → (hex_to_bytes hex out max_len).2[i]? =
        some (16 * hexValue (charAt hex (2 * i)) + hexValue (charAt hex (2 * i + 1)))) ∧
      (∀ i, n ≤ i → (hex_to_bytes hex out max_len).2[i]? = out[i]?)) ∧
    (∀ (hex out : List Nat) (max_len : Nat),
      hex_to_bytes (hex.map hexUpper) out max_len = hex_to_bytes hex out max_len ∧
      hex_to_bytes (hex.map hexLower) out max_len = hex_to_bytes hex out max_len) ∧
    (∀ (upper : Bool) (bytes out : List Nat) (max_len : Nat),
      bytes ≠ [] → bytes.length ≤ max_len → max_len ≤ out.length →
      (∀ b ∈ bytes, b < 256) → 2 * bytes.length < SIZE_LIMIT →
      hex_to_bytes (hexSpelling upper bytes) out max_len =
        ((bytes.length : Int), bytes ++ out.drop bytes.length)) := by
  refine ⟨?_, ?_, ?_⟩
  · intro hex out max_len n hlen hn hmax hall hsize hout
    have hne : hex ≠ [] := by
      intro h
      have h0 : hex.length = 0 := by rw [h]; rfl
      omega
    have hv : ValidHex hex max_len := ⟨hne, by omega, hall, by omega⟩
    have hn2 : hex.length / 2 = n := by omega
    unfold SIZE_LIMIT at hsize
    refine ⟨?_, ?_, ?_⟩
    · rw [hex_to_bytes_fst, if_pos hv, hn2, wrapInt32_of_range _ (by omega) (by omega)]
    · intro i hi
      rw [hex_to_bytes_snd hex out max_len hv hout i, hn2, if_pos hi]
      rfl
    · intro i hi
      rw [hex_to_bytes_snd hex out max_len hv hout i, hn2, if_neg (by omega)]
  · intro hex out max_len
    constructor
    · apply hex_to_bytes_congr _ _ _ _ (List.length_map _ _)
      intro j
      rw [charAt_map hexUpper (by decide), hex_nibble_hexUpper]
    · apply hex_to_bytes_congr _ _ _ _ (List.length_map _ _)
      intro j
      rw [charAt_map hexLower (by decide), hex_nibble_hexLower]
  · intro upper bytes out max_len hne hmax hout hb hsize
    have hlen := hexSpelling_length upper bytes
    have hpos : 0 < bytes.length := List.length_pos.2 hne
    have hv : ValidHex (hexSpelling upper bytes) max_len := by
      refine ⟨?_, by omega, hexSpelling_digits upper bytes hb, by omega⟩
      intro h
      have h0 : (hexSpelling upper bytes).length = 0 := by rw [h]; rfl
      omega
    have hn2 : (hexSpelling upper bytes).length / 2 = bytes.length := by omega
    unfold SIZE_LIMIT at hsize
    apply Prod.ext
    · rw [hex_to_bytes_fst, if_pos hv, hn2, wrapInt32_of_range _ (by omega) (by omega)]
    · apply List.ext_getElem?
      intro k
      rw [hex_to_bytes_snd _ out max_len hv hout k, hn2]
      by_cases hk : k < bytes.length
      · rw [if_pos hk, List.getElem?_append_left hk]
        have hget : bytes[k]? = some bytes[k] := List.getElem?_eq_getElem hk
        rw [hget, byteAt_hexSpelling upper bytes hb k _ hget]
      · rw [if_neg hk, List.getElem?_append_right (by omega), List.getElem?_drop]
        congr 1
        omega

/-! ## More concrete runs -/

/-- Witness for C12: every call of the responder succeeds. -/
theorem init_mdns_fixed_service_witness :
    (Env.ok.mdns_init = ESP_OK ∧ Env.ok.mdns_hostname_set = ESP_OK ∧
      Env.ok.mdns_instance_name_set = ESP_OK ∧ Env.ok.mdns_service_add = ESP_OK) ∧
    (init_mdns Config.shipped Env.ok (World.boot [])).outcome = .returned () :=
  ⟨⟨rfl, rfl, rfl, rfl⟩,
    (init_mdns_fixed_service Config.shipped Env.ok (World.boot [])).2.2.2.2.2.2
      ⟨rfl, rfl, rfl, rfl⟩⟩

/-- Witness for C13: the stack cannot create a new network. -/
theorem create_default_dataset_overrides_witness :
    envCreateFails.otDatasetCreateNewNetwork.1 ≠ OT_ERROR_NONE ∧
    datasetsSetActive (create_default_dataset cfgAuto envCreateFails (World.boot [])).trace =
      [] :=
  ⟨by decide,
    (create_default_dataset_overrides cfgAuto envCreateFails (World.boot [])).1 (by decide)⟩

/-- Witness for C14: the upper-case spelling of three bytes, decoded into a
buffer of four. -/
theorem hex_to_bytes_decodes_witness :
    (([14, 8, 255] : List Nat) ≠ [] ∧ ([14, 8, 255] : List Nat).length ≤ 4 ∧
      4 ≤ ([0, 0, 0, 0] : List Nat).length ∧ (∀ b ∈ ([14, 8, 255] : List Nat), b < 256) ∧
      2 * ([14, 8, 255] : List Nat).length < SIZE_LIMIT) ∧
    hex_to_bytes (hexSpelling true [14, 8, 255]) [0, 0, 0, 0] 4 =
      ((([14, 8, 255] : List Nat).length : Int),
        [14, 8, 255] ++ ([0, 0, 0, 0] : List Nat).drop ([14, 8, 255] : List Nat).length) :=
  ⟨⟨by decide, by decide, by decide, by decide, by decide⟩,
    hex_to_bytes_decodes.2.2 true [14, 8, 255] [0, 0, 0, 0] 4 (by decide) (by decide)
      (by decide) (by decide) (by decide)⟩

/-- Witness for C15: a role value outside the five roles. -/
theorem ot_state_change_callback_passive_witness :
    ((7 : Int) ≠ OT_DEVICE_ROLE_DISABLED ∧ (7 : Int) ≠ OT_DEVICE_ROLE_DETACHED ∧
      (7 : Int) ≠ OT_DEVICE_ROLE_CHILD ∧ (7 : Int) ≠ OT_DEVICE_ROLE_ROUTER ∧
      (7 : Int) ≠ OT_DEVICE_ROLE_LEADER) ∧
    role_str 7 = "unknown" :=
  ⟨by decide,
    (ot_state_change_callback_passive OT_CHANGED_THREAD_ROLE 7
      (World.boot [])).2.2.2.2.2.2.2.2.2.2.2
      (by decide) (by decide) (by decide) (by decide) (by decide)⟩

/-- Witness for C16: a budget of two, one disconnect after got-IP, the counter
having been at five before. -/
theorem wifi_got_ip_restores_budget_witness :
    ((0 : Int) < cfgRetry2.WIFI_MAX_RETRY ∧ cfgRetry2.WIFI_MAX_RETRY ≤ INT_MAX ∧
      evGotIp ∉ [evDisconnected]) ∧
    (deliver cfgRetry2 ⟨2, 5⟩ (evGotIp :: [evDisconnected])).1.s_retry_count =
      min (([evDisconnected].count evDisconnected : Nat) : Int) cfgRetry2.WIFI_MAX_RETRY :=
  ⟨⟨by decide, by decide, by decide⟩,
    (wifi_got_ip_restores_budget cfgRetry2).2.1 ⟨2, 5⟩ [evDisconnected]
      (by decide) (by decide) (by decide)⟩

/-! ## The older copy -/

/-- The function `create_default_dataset` of the older copy always returns; it
makes no lock call, and it hands `otDatasetSetActive` nothing if a dataset is
saved and otherwise what `create_default_dataset` of `main/main.c` hands it. -/
theorem legacy_create_default_dataset_returns (cfg : Config) (env : Env) (w : World) :
    ∃ t, Legacy.create_default_dataset cfg env w = ⟨t, .returned (), w⟩ ∧
      (∀ c ∈ t, isLockCall c = false ∧ c ≠ .esp_openthread_launch_mainloop) ∧
      datasetsSetActive t =
        if env.otDatasetGetActive = OT_ERROR_NONE then []
        else datasetsSetActive (create_default_dataset cfg env w).trace := by
  rw [create_default_dataset_eval]
  unfold Legacy.create_default_dataset
  simp only [ext_bind_apply, logLine_bind_apply]
  by_cases hg : env.otDatasetGetActive = OT_ERROR_NONE
  · simp [hg, datasetsSetActive, isLockCall]
  · by_cases h1 : env.otDatasetCreateNewNetwork.1 = OT_ERROR_NONE
    · simp only [hg, h1, if_false, ne_eq, not_true_eq_false]
      generalize (if cfg.THREAD_NETWORK_NAME.length > OT_NETWORK_NAME_MAX_SIZE then
        OT_NETWORK_NAME_MAX_SIZE else cfg.THREAD_NETWORK_NAME.length) = n
      split_ifs with h2 <;> simp [h1, h2, datasetsSetActive, isLockCall]
    · simp [hg, h1, datasetsSetActive, isLockCall]

/-- The function `create_default_dataset` of the older copy reads the saved
dataset. -/
theorem legacy_create_default_dataset_reads (cfg : Config) (env : Env) (w : World) :
    Call.otDatasetGetActive ∈ (Legacy.create_default_dataset cfg env w).trace := by
  unfold Legacy.create_default_dataset
  simp only [ext_bind_apply, prepend_trace]
  simp

/-- If the stack or the border router fails to initialise, `ot_task` of the
older copy aborts before any dataset, enabling or lock call and before the run
loop. -/
theorem legacy_ot_task_abort (cfg : Config) (env : Env) (netif : Nat) (w : World)
    (h : ¬ (env.esp_openthread_init = ESP_OK ∧
      env.esp_openthread_border_router_init = ESP_OK)) :
    (Legacy.ot_task cfg env netif w).outcome = .aborted ∧
    ∀ c ∈ (Legacy.ot_task cfg env netif w).trace,
      isMeshSetupCall c = false ∧ isLockCall c = false ∧
      c ≠ .esp_openthread_launch_mainloop := by
  unfold Legacy.ot_task
  simp only [ext_bind_apply, check_bind_apply, call_bind_apply, logLine_bind_apply,
    prepend_prepend, ite_bind_apply, pure_bind_apply]
  by_cases h1 : env.esp_openthread_init = ESP_OK
  · have h2 : env.esp_openthread_border_router_init ≠ ESP_OK := fun h2 => h ⟨h1, h2⟩
    by_cases hcli : cfg.OT_CLI_UART_ENABLE = 0 <;>
      simp [h1, h2, hcli, isMeshSetupCall, isLockCall]
  · simp [h1, isMeshSetupCall, isLockCall]

/-- The lock in `ot_task` of the older copy, the stack and the border router
having initialised: without auto-provisioning it makes no dataset call, no
enabling call and no lock call at all, and launches the run loop; with
auto-provisioning its calls are `pre`, the acquiring of the lock, `mid`, the
release, `post`, with no other lock call, every dataset and enabling call in
`mid`, the saved dataset read in `mid`, and the run loop launched in `post`. -/
theorem legacy_ot_task_lock (cfg : Config) (env : Env) (netif : Nat) (w : World)
    (h1 : env.esp_openthread_init = ESP_OK)
    (h2 : env.esp_openthread_border_router_init = ESP_OK) :
    (cfg.THREAD_AUTO_START = 0 →
      (∀ c ∈ (Legacy.ot_task cfg env netif w).trace,
        isMeshSetupCall c = false ∧ isLockCall c = false) ∧
      Call.esp_openthread_launch_mainloop ∈ (Legacy.ot_task cfg env netif w).trace) ∧
    (cfg.THREAD_AUTO_START ≠ 0 →
      ∃ pre mid post,
        (Legacy.ot_task cfg env netif w).trace =
          pre ++ [.esp_openthread_lock_acquire] ++ mid ++
            [.esp_openthread_lock_release] ++ post ∧
        (∀ c ∈ pre, isMeshSetupCall c = false ∧ isLockCall c = false ∧
          c ≠ .esp_openthread_launch_mainloop) ∧
        (∀ c ∈ mid, isLockCall c = false ∧ c ≠ .esp_openthread_launch_mainloop) ∧
        (∀ c ∈ post, isMeshSetupCall c = false ∧ isLockCall c = false) ∧
        Call.otDatasetGetActive ∈ mid ∧
        Call.esp_openthread_launch_mainloop ∈ post) := by
  obtain ⟨Cr, hC, hCc, -⟩ := legacy_create_default_dataset_returns cfg env w
  have hget := legacy_create_default_dataset_reads cfg env w
  rw [hC] at hget
  simp only at hget
  refine ⟨fun hauto => ?_, fun hauto => ?_⟩
  · unfold Legacy.ot_task
    simp only [ext_bind_apply, check_bind_apply, call_bind_apply, logLine_bind_apply, h1, h2,
      if_true, prepend_prepend, ite_bind_apply, pure_bind_apply, hauto, ne_eq,
      not_true_eq_false, if_false, bind_assoc_apply]
    by_cases hcli : cfg.OT_CLI_UART_ENABLE = 0 <;>
    by_cases hback : env.mainloop_returns = true <;>
    simp [hcli, hback, isMeshSetupCall, isLockCall]
  · refine ⟨[.esp_openthread_init, .esp_openthread_get_instance,
          .otSetStateChangedCallback] ++
        (if cfg.OT_CLI_UART_ENABLE ≠ 0 then [.esp_openthread_cli_init] else []) ++
        [.esp_openthread_border_router_init netif,
         .log .I "OpenThread Border Router initialized" []],
      Cr ++ [.otIp6SetEnabled true, .otThreadSetEnabled true],
      [.log .I "Thread interface started (auto-start mode)" [],
        .esp_openthread_cli_create_task, .esp_openthread_launch_mainloop] ++
        (if env.mainloop_returns = true then
          [.esp_openthread_netif_glue_deinit, .esp_vfs_eventfd_unregister, .vTaskDelete]
        else []),
      ?_, ?_, ?_, ?_, ?_, ?_⟩
    · unfold Legacy.ot_task
      simp only [ext_bind_apply, check_bind_apply, call_bind_apply, logLine_bind_apply, h1,
        h2, if_true, prepend_prepend, ite_bind_apply, pure_bind_apply, hauto, ne_eq,
        not_false_eq_true, bind_assoc_apply]
      by_cases hcli : cfg.OT_CLI_UART_ENABLE = 0 <;>
      by_cases hback : env.mainloop_returns = true <;>
      simp [hcli, hback, seq_returned _ _ w w Cr () hC, bind_assoc_apply]
    · intro c hc
      simp only [List.mem_append, List.mem_cons, List.mem_singleton, List.not_mem_nil,
        or_false] at hc
      rcases hc with (hc | hc) | hc
      · rcases hc with rfl | rfl | rfl <;> simp [isMeshSetupCall, isLockCall]
      · split_ifs at hc
        · simp only [List.mem_singleton] at hc
          subst hc; simp [isMeshSetupCall, isLockCall]
        · simp at hc
      · rcases hc with rfl | rfl <;> simp [isMeshSetupCall, isLockCall]
    · intro c hc
      simp only [List.mem_append, List.mem_cons, List.mem_singleton, List.not_mem_nil,
        or_false] at hc
      rcases hc with hc | hc
      · exact hCc c hc
      · rcases hc with rfl | rfl <;> simp [isLockCall]
    · intro c hc
      simp only [List.mem_append, List.mem_cons, List.mem_singleton, List.not_mem_nil,
        or_false] at hc
      rcases hc with hc | hc
      · rcases hc with rfl | rfl | rfl <;> simp [isMeshSetupCall, isLockCall]
      · split_ifs at hc
        · simp only [List.mem_cons, List.mem_singleton, List.not_mem_nil, or_false] at hc
          rcases hc with rfl | rfl | rfl <;> simp [isMeshSetupCall, isLockCall]
        · simp at hc
    · exact List.mem_append_left _ hget
    · simp

/-! ## The lock around the mesh set-up -/

/-- Counterexample for C11 as stated, on `ot_task` of the older copy
`src/main.c`: at the shipped configuration, where `THREAD_AUTO_START` is 0, and
with every call succeeding, it launches the run loop having neither acquired
nor released the lock, so its calls are not of the form `pre`, acquire, `mid`,
release, `post`. -/
theorem legacy_ot_task_lock_counterexample :
    Config.shipped.THREAD_AUTO_START = 0 ∧
    (Env.ok.esp_openthread_init = ESP_OK ∧
      Env.ok.esp_openthread_border_router_init = ESP_OK) ∧
    Call.esp_openthread_launch_mainloop ∈
      (Legacy.ot_task Config.shipped Env.ok 1 (World.boot [])).trace ∧
    Call.esp_openthread_lock_acquire ∉
      (Legacy.ot_task Config.shipped Env.ok 1 (World.boot [])).trace ∧
    Call.esp_openthread_lock_release ∉
      (Legacy.ot_task Config.shipped Env.ok 1 (World.boot [])).trace ∧
    ¬ ∃ pre mid post,
      (Legacy.ot_task Config.shipped Env.ok 1 (World.boot [])).trace =
        pre ++ [.esp_openthread_lock_acquire] ++ mid ++
          [.esp_openthread_lock_release] ++ post := by
  have hacq : Call.esp_openthread_lock_acquire ∉
      (Legacy.ot_task Config.shipped Env.ok 1 (World.boot [])).trace := by decide
  refine ⟨rfl, ⟨rfl, rfl⟩, by decide, hacq, by decide, ?_⟩
  rintro ⟨pre, mid, post, h⟩
  apply hacq
  rw [h]
  simp

/-- C11 (amended): in `ot_task` of `main/main.c`, if the stack or the border
router fails to initialise, it aborts having made no dataset call, no enabling
call, no lock call and without launching the run loop; otherwise, whatever the
credential sources return, its calls are `pre`, the acquiring of the lock,
`mid`, the release of the lock, `post`, where `pre`, `mid` and `post` hold no
lock call, so the lock is acquired once and released once; every call that
reads, creates or applies a dataset or enables an interface lies in `mid`,
between the two; and the run loop is launched in `post`, after the release, and
nowhere before. In `ot_task` of the older copy `src/main.c` the same holds when
`THREAD_AUTO_START` is nonzero; when it is 0 and the stack and the border
router initialise, that copy makes no dataset call, no enabling call and no
lock call, and launches the run loop. -/
theorem ot_task_setup_under_lock (cfg : Config) (env : Env) (netif : Nat) (w : World) :
    ((¬ (env.esp_openthread_init = ESP_OK ∧
        env.esp_openthread_border_router_init = ESP_OK) →
      ∀ c ∈ (ot_task cfg env netif w).trace,
        isMeshSetupCall c = false ∧ isLockCall c = false ∧
        c ≠ .esp_openthread_launch_mainloop) ∧
    (env.esp_openthread_init = ESP_OK ∧
        env.esp_openthread_border_router_init = ESP_OK →
      ∃ pre mid post,
        (ot_task cfg env netif w).trace =
          pre ++ [.esp_openthread_lock_acquire] ++ mid ++
            [.esp_openthread_lock_release] ++ post ∧
        (∀ c ∈ pre, isMeshSetupCall c = false ∧ isLockCall c = false ∧
          c ≠ .esp_openthread_launch_mainloop) ∧
        (∀ c ∈ mid, isLockCall c = false ∧ c ≠ .esp_openthread_launch_mainloop) ∧
        (∀ c ∈ post, isMeshSetupCall c = false ∧ isLockCall c = false) ∧
        Call.otDatasetGetActive ∈ mid ∧
        Call.esp_openthread_launch_mainloop ∈ post)) ∧
    ((¬ (env.esp_openthread_init = ESP_OK ∧
        env.esp_openthread_border_router_init = ESP_OK) →
      ∀ c ∈ (Legacy.ot_task cfg env netif w).trace,
        isMeshSetupCall c = false ∧ isLockCall c = false ∧
        c ≠ .esp_openthread_launch_mainloop) ∧
    (env.esp_openthread_init = ESP_OK ∧
        env.esp_openthread_border_router_init = ESP_OK →
      cfg.THREAD_AUTO_START ≠ 0 →
      ∃ pre mid post,
        (Legacy.ot_task cfg env netif w).trace =
          pre ++ [.esp_openthread_lock_acquire] ++ mid ++
            [.esp_openthread_lock_release] ++ post ∧
        (∀ c ∈ pre, isMeshSetupCall c = false ∧ isLockCall c = false ∧
          c ≠ .esp_openthread_launch_mainloop) ∧
        (∀ c ∈ mid, isLockCall c = false ∧ c ≠ .esp_openthread_launch_mainloop) ∧
        (∀ c ∈ post, isMeshSetupCall c = false ∧ isLockCall c = false) ∧
        Call.otDatasetGetActive ∈ mid ∧
        Call.esp_openthread_launch_mainloop ∈ post) ∧
    (env.esp_openthread_init = ESP_OK ∧
        env.esp_openthread_border_router_init = ESP_OK →
      cfg.THREAD_AUTO_START = 0 →
      (∀ c ∈ (Legacy.ot_task cfg env netif w).trace,
        isMeshSetupCall c = false ∧ isLockCall c = false) ∧
      Call.esp_openthread_launch_mainloop ∈ (Legacy.ot_task cfg env netif w).trace)) := by
  refine ⟨?_, fun h => (legacy_ot_task_abort cfg env netif w h).2,
    fun h hauto => (legacy_ot_task_lock cfg env netif w h.1 h.2).2 hauto,
    fun h hauto => (legacy_ot_task_lock cfg env netif w h.1 h.2).1 hauto⟩
  refine ⟨fun h => ?_, fun h => ?_⟩
  · obtain ⟨t, ht, hc⟩ := ot_task_abort cfg env netif w h
    rw [ht]
    intro c hmem
    have := hc c hmem
    simp only [List.mem_cons, List.mem_singleton, List.not_mem_nil, or_false] at this
    rcases this with rfl | rfl | rfl | rfl | rfl | rfl <;>
      simp [isMeshSetupCall, isLockCall]
  · obtain ⟨Cr, hC, -⟩ := create_default_dataset_returns cfg env w
    have hCc := create_default_dataset_calls cfg env w
    have hSc := ot_task_sources_calls cfg env w
    have hSe := ot_task_sources_eval cfg env w
    obtain ⟨Lt, lb, hL⟩ := load_dataset_from_tlvs_returns cfg env w
    rw [hC] at hCc
    simp only at hCc
    -- the first two sources return some `b` after the calls `S`
    have hS : ∃ S b, ot_task_sources cfg env w = ⟨S, .returned b, w⟩ ∧
        Call.otDatasetGetActive ∈ S := by
      rw [hSe]
      split_ifs
      · exact ⟨_, _, rfl, by simp⟩
      · rw [hL]; exact ⟨_, _, rfl, by simp⟩
    obtain ⟨S, b, hS, hget⟩ := hS
    rw [hS] at hSc
    simp only at hSc
    rw [ot_task_eval cfg env netif w S Cr b h.1 h.2 hS hC]
    refine ⟨[.esp_openthread_init, .esp_openthread_get_instance,
          .otSetStateChangedCallback] ++
        (if cfg.OT_CLI_UART_ENABLE ≠ 0 then [.esp_openthread_cli_init] else []) ++
        [.esp_openthread_border_router_init netif,
         .log .I "OpenThread Border Router initialized" []],
      S ++ (if cfg.THREAD_AUTO_START ≠ 0 ∧ b = false then Cr else []) ++
        (if b = true ∨ cfg.THREAD_AUTO_START ≠ 0 then
          [.otIp6SetEnabled true, .otThreadSetEnabled true,
           .log .I "Thread interface up — joining network..." []]
        else
          [.log .I "No Thread dataset configured" [],
           .log .I "Provision via Home Assistant or serial CLI:" [],
           .log .I "  > dataset set active <hex-TLV>" [],
           .log .I "  > ifconfig up" [],
           .log .I "  > thread start" []]),
      [.esp_openthread_cli_create_task, .esp_openthread_launch_mainloop] ++
        (if env.mainloop_returns = true then
          [.esp_openthread_netif_glue_deinit, .esp_vfs_eventfd_unregister, .vTaskDelete]
        else []),
      ?_, ?_, ?_, ?_, ?_, ?_⟩
    · simp only [List.append_assoc, List.cons_append, List.nil_append]
    · intro c hc
      simp only [List.mem_append, List.mem_cons, List.mem_singleton, List.not_mem_nil,
        or_false] at hc
      rcases hc with (hc | hc) | hc
      · rcases hc with rfl | rfl | rfl <;> simp [isMeshSetupCall, isLockCall]
      · split_ifs at hc
        · simp only [List.mem_singleton] at hc
          subst hc; simp [isMeshSetupCall, isLockCall]
        · simp at hc
      · rcases hc with rfl | rfl <;> simp [isMeshSetupCall, isLockCall]
    · intro c hc
      simp only [List.mem_append] at hc
      rcases hc with (hc | hc) | hc
      · exact hSc c hc
      · split_ifs at hc
        · exact hCc c hc
        · simp at hc
      · split_ifs at hc <;>
          simp only [List.mem_cons, List.mem_singleton, List.not_mem_nil, or_false] at hc
        · rcases hc with rfl | rfl | rfl <;> simp [isLockCall]
        · rcases hc with rfl | rfl | rfl | rfl | rfl <;> simp [isLockCall]
    · intro c hc
      simp only [List.mem_append, List.mem_cons, List.mem_singleton, List.not_mem_nil,
        or_false] at hc
      rcases hc with hc | hc
      · rcases hc with rfl | rfl <;> simp [isMeshSetupCall, isLockCall]
      · split_ifs at hc
        · simp only [List.mem_cons, List.mem_singleton, List.not_mem_nil, or_false] at hc
          rcases hc with rfl | rfl | rfl <;> simp [isMeshSetupCall, isLockCall]
        · simp at hc
    · exact List.mem_append_left _ (List.mem_append_left _ hget)
    · simp

/-- Witness for C11 (amended): the stack and the border router initialise. In
`main/main.c`, with a valid TLV string configured, the set-up lies between the
acquiring and the release of the lock; in the older copy the same holds with
auto-provisioning on, and with the shipped configuration no lock is taken. -/
theorem ot_task_setup_under_lock_witness :
    ((Env.ok.esp_openthread_init = ESP_OK ∧
        Env.ok.esp_openthread_border_router_init = ESP_OK) ∧
      cfgAuto.THREAD_AUTO_START ≠ 0 ∧ Config.shipped.THREAD_AUTO_START = 0) ∧
    (∃ pre mid post,
      (ot_task cfgTlvs Env.ok 1 (World.boot [])).trace =
        pre ++ [.esp_openthread_lock_acquire] ++ mid ++
          [.esp_openthread_lock_release] ++ post ∧
      (∀ c ∈ pre, isMeshSetupCall c = false ∧ isLockCall c = false ∧
        c ≠ .esp_openthread_launch_mainloop) ∧
      (∀ c ∈ mid, isLockCall c = false ∧ c ≠ .esp_openthread_launch_mainloop) ∧
      (∀ c ∈ post, isMeshSetupCall c = false ∧ isLockCall c = false) ∧
      Call.otDatasetGetActive ∈ mid ∧
      Call.esp_openthread_launch_mainloop ∈ post) ∧
    (∃ pre mid post,
      (Legacy.ot_task cfgAuto Env.ok 1 (World.boot [])).trace =
        pre ++ [.esp_openthread_lock_acquire] ++ mid ++
          [.esp_openthread_lock_release] ++ post ∧
      (∀ c ∈ pre, isMeshSetupCall c = false ∧ isLockCall c = false ∧
        c ≠ .esp_openthread_launch_mainloop) ∧
      (∀ c ∈ mid, isLockCall c = false ∧ c ≠ .esp_openthread_launch_mainloop) ∧
      (∀ c ∈ post, isMeshSetupCall c = false ∧ isLockCall c = false) ∧
      Call.otDatasetGetActive ∈ mid ∧
      Call.esp_openthread_launch_mainloop ∈ post) ∧
    ((∀ c ∈ (Legacy.ot_task Config.shipped Env.ok 1 (World.boot [])).trace,
        isMeshSetupCall c = false ∧ isLockCall c = false) ∧
      Call.esp_openthread_launch_mainloop ∈
        (Legacy.ot_task Config.shipped Env.ok 1 (World.boot [])).trace) :=
  ⟨⟨⟨rfl, rfl⟩, by decide, rfl⟩,
    (ot_task_setup_under_lock cfgTlvs Env.ok 1 (World.boot [])).1.2 ⟨rfl, rfl⟩,
    (ot_task_setup_under_lock cfgAuto Env.ok 1 (World.boot [])).2.2.1 ⟨rfl, rfl⟩ (by decide),
    (ot_task_setup_under_lock Config.shipped Env.ok 1 (World.boot [])).2.2.2 ⟨rfl, rfl⟩ rfl⟩

end Otbr
